import Mathlib

/-!
# Flow Allocator of a RINA IPC Process: a shallow embedding

Source embedded: `rinad/src/ipcp/flow-allocator.cc`.

Conventions of the embedding.

* C++ objects are records; a method that mutates `this` returns the new record.
* Every call on an external collaborator (kernel IPC process, IPC Manager,
  RIB daemon, timer) is recorded, in program order, as an `Effect`.  Whether
  such a call raises `Exception`, and what a query answers, is read from an
  `Env` record handed to each operation.
* A C++ function ends in one of three ways, see `Completion`: it returns, it
  leaves through a thrown `Exception`, or it runs into undefined behaviour
  (reading element 0 of an empty container).
* Mutexes (`lock_`) are not modelled: operations are taken one at a time.
* `unsigned int` addresses are `Nat`, `int` quantities are `Int`; the code
  embedded here performs no arithmetic on them that could overflow, except
  `hop_count_ - 1`, which is taken over `Int`.
-/

set_option autoImplicit false

namespace rina

/-- Class `rina::ApplicationProcessNamingInformation` (declared outside the
embedded sources): the four components of an application process name. -/
structure ApplicationProcessNamingInformation where
  processName : String
  processInstance : String
  entityName : String
  entityInstance : String
deriving DecidableEq, Repr, Inhabited

/-- Class `rina::FlowSpecification` (declared outside the embedded sources).
Modelled from the spec: "caller-requested QoS parameters (jitter, delay,
max-allowable-gap, bandwidth, ordered/partial delivery)".  The code only
reads `maxAllowableGap`. -/
structure FlowSpecification where
  jitter : Nat
  delay : Nat
  maxAllowableGap : Int
  averageBandwidth : Nat
  orderedDelivery : Bool
  partialDelivery : Bool
deriving DecidableEq, Repr, Inhabited

/-- Class `rina::DTCPConfig`: the part of the DTCP configuration read by the
flow allocator (`is_rtx_control()`), and its flow-control twin. -/
structure DTCPConfig where
  flow_control_ : Bool
  rtx_control_ : Bool
deriving DecidableEq, Repr, Inhabited

/-- Class `rina::ConnectionPolicies`: "policies (DTCP config, in-order,
partial delivery, max-SDU-gap)". -/
structure ConnectionPolicies where
  dtcp_present_ : Bool
  dtcp_configuration_ : DTCPConfig
  in_order_delivery_ : Bool
  partial_delivery_ : Bool
  max_sdu_gap_ : Int
deriving DecidableEq, Repr, Inhabited

/-- Class `rina::Connection`: an EFCP endpoint pair. -/
structure Connection where
  portId : Int
  sourceAddress : Nat
  destAddress : Nat
  qosId : Nat
  sourceCepId : Int
  destCepId : Int
  flowUserIpcProcessId : Nat
  policies : ConnectionPolicies
deriving DecidableEq, Repr, Inhabited

/-- Class `rina::QoSCube`, with the attributes printed by
`QoSCubeRIBObject::get_displayable_value` that are integers or booleans. -/
structure QoSCube where
  name_ : String
  id_ : Nat
  efcp_policies_ : ConnectionPolicies
  ordered_delivery_ : Bool
  partial_delivery_ : Bool
  max_allowable_gap_ : Int
  jitter_ : Nat
  delay_ : Nat
  average_bandwidth_ : Nat
deriving DecidableEq, Repr, Inhabited

/-- Class `rina::FlowRequestEvent`, the fields the flow allocator touches. -/
structure FlowRequestEvent where
  localApplicationName : ApplicationProcessNamingInformation
  remoteApplicationName : ApplicationProcessNamingInformation
  flowSpecification : FlowSpecification
  portId : Int
  flowRequestorIpcProcessId : Nat
  sequenceNumber : Nat
deriving DecidableEq, Repr, Inhabited

/-- Class `rina::CreateConnectionResponseEvent`. -/
structure CreateConnectionResponseEvent where
  portId : Int
  cepId : Int
deriving DecidableEq, Repr, Inhabited

/-- Class `rina::CreateConnectionResultEvent`. -/
structure CreateConnectionResultEvent where
  portId : Int
  sourceCepId : Int
  destCepId : Int
deriving DecidableEq, Repr, Inhabited

/-- Class `rina::UpdateConnectionResponseEvent`. -/
structure UpdateConnectionResponseEvent where
  portId : Int
  result : Int
deriving DecidableEq, Repr, Inhabited

/-- Class `rina::AllocateFlowResponseEvent`. -/
structure AllocateFlowResponseEvent where
  sequenceNumber : Nat
  result : Int
deriving DecidableEq, Repr, Inhabited

/-- Class `rina::FlowDeallocateRequestEvent`. -/
structure FlowDeallocateRequestEvent where
  portId : Int
  sequenceNumber : Nat
deriving DecidableEq, Repr, Inhabited

end rina

namespace rinad

open rina

/-- The constant `INT_MAX` of `<climits>` for a 32-bit `int`. -/
def INT_MAX : Int := 2147483647

/-- How a C++ function body ends. -/
inductive Completion where
  | returned
  | threw (what : String)
  | undefinedBehaviour (what : String)
deriving DecidableEq, Repr, Inhabited

/-- What a value-returning C++ function can end in other than a value. -/
inductive Fault where
  | exception (what : String)
  | undefinedBehaviour (what : String)
deriving DecidableEq, Repr, Inhabited

/-- Enumeration `Flow::IPCPFlowState`, carried by its integer value, which is
what `FlowEncoder` writes (`set_state(flow->state_)`) and reads back
(`static_cast<IPCPFlowState>(gpf_flow.state())`). -/
structure IPCPFlowState where
  val : Int
deriving DecidableEq, Repr, Inhabited

namespace Flow

def EMPTY : IPCPFlowState := ⟨0⟩
def ALLOCATION_IN_PROGRESS : IPCPFlowState := ⟨1⟩
def ALLOCATED : IPCPFlowState := ⟨2⟩
def WAITING_2_MPL_BEFORE_TEARING_DOWN : IPCPFlowState := ⟨3⟩
def DEALLOCATED : IPCPFlowState := ⟨4⟩

end Flow

/-- Class `rinad::Flow`.  `access_control_` is a `char *`: `none` is the null
pointer. -/
structure Flow where
  source_naming_info_ : ApplicationProcessNamingInformation
  destination_naming_info_ : ApplicationProcessNamingInformation
  source_port_id_ : Int
  destination_port_id_ : Int
  source_address_ : Nat
  destination_address_ : Nat
  connections_ : List Connection
  current_connection_index_ : Nat
  state_ : IPCPFlowState
  flow_specification_ : FlowSpecification
  access_control_ : Option String
  max_create_flow_retries_ : Int
  create_flow_retries_ : Int
  hop_count_ : Int
  source_ : Bool
deriving DecidableEq, Repr, Inhabited

/-- The default constructor `Flow::Flow()` (defined outside the embedded
sources): every field zero, empty, null or false. -/
def Flow.new : Flow :=
  { source_naming_info_ := ⟨"", "", "", ""⟩
    destination_naming_info_ := ⟨"", "", "", ""⟩
    source_port_id_ := 0
    destination_port_id_ := 0
    source_address_ := 0
    destination_address_ := 0
    connections_ := []
    current_connection_index_ := 0
    state_ := Flow.EMPTY
    flow_specification_ := ⟨0, 0, 0, 0, false, false⟩
    access_control_ := none
    max_create_flow_retries_ := 0
    create_flow_retries_ := 0
    hop_count_ := 0
    source_ := false }

/-- Modelled from the spec: `Flow::getActiveConnection()` is defined outside
the embedded sources; "connections: ordered sequence of Connection; exactly one
is active at current_connection_index".  `none` stands for the case where the
index designates no connection. -/
def Flow.getActiveConnection (f : Flow) : Option Connection :=
  f.connections_.get? f.current_connection_index_

/-- Writing through the pointer returned by `getActiveConnection()`. -/
def Flow.setActiveConnection (f : Flow) (c : Connection) : Flow :=
  { f with connections_ := f.connections_.set f.current_connection_index_ c }

/-- The message raised when `getActiveConnection()` finds no connection. -/
def noActiveConnection : String := "No active connection is currently defined"

namespace messages

/-- Protobuf message `rina::messages::connectionId_t`. -/
structure connectionId_t where
  qosid : Nat
  sourcecepid : Int
  destinationcepid : Int
deriving DecidableEq, Repr, Inhabited

/-- Protobuf message `rina::messages::Flow`, as seen through its accessors: a
field that is not set reads as its default, so only the presence of
`accesscontrol`, the one field `FlowEncoder::encode` sets conditionally, is
kept (`none`: not set).  The three nested message types are parameters. -/
structure Flow (N Q P : Type) where
  sourcenaminginfo : N
  destinationnaminginfo : N
  sourceportid : Int
  destinationportid : Int
  sourceaddress : Nat
  destinationaddress : Nat
  connectionids : List connectionId_t
  currentconnectionidindex : Nat
  state : Int
  qosparameters : Q
  connectionpolicies : P
  accesscontrol : Option String
  maxcreateflowretries : Int
  createflowretries : Int
  hopcount : Int

end messages

/-- The static helpers of class `Encoder` used by `FlowEncoder` (defined
outside the embedded sources), and the generated protobuf (de)serialisation of
`rina::messages::Flow`; all are parameters of the codec.  `ParseFromArray`
yields its boolean result and the message it leaves behind. -/
structure Encoder (N Q P Bytes : Type) where
  get_applicationProcessNamingInfo_t : ApplicationProcessNamingInformation → N
  get_ApplicationProcessNamingInformation : N → ApplicationProcessNamingInformation
  get_qosSpecification_t : FlowSpecification → Q
  get_FlowSpecification : Q → FlowSpecification
  get_connectionPolicies_t : ConnectionPolicies → P
  get_ConnectionPolicies : P → ConnectionPolicies
  get_Connection : messages.connectionId_t → Connection
  SerializeToArray : messages.Flow N Q P → Bytes
  ParseFromArray : Bytes → Bool × messages.Flow N Q P

namespace FlowEncoder

variable {N Q P Bytes : Type}

/-- The loop of `FlowEncoder::encode` over `flow->connections_`
(flow-allocator.cc 1201-1212). -/
def connectionIds (cs : List Connection) : List messages.connectionId_t :=
  cs.map fun c => { qosid := c.qosId, sourcecepid := c.sourceCepId, destinationcepid := c.destCepId }

/-- The message built by `FlowEncoder::encode` before serialisation
(flow-allocator.cc 1184-1229); `active` is `*flow->getActiveConnection()`. -/
def gpf_flow (E : Encoder N Q P Bytes) (flow : Flow) (active : Connection) : messages.Flow N Q P :=
  { sourcenaminginfo := E.get_applicationProcessNamingInfo_t flow.source_naming_info_
    destinationnaminginfo := E.get_applicationProcessNamingInfo_t flow.destination_naming_info_
    sourceportid := flow.source_port_id_
    destinationportid := flow.destination_port_id_
    sourceaddress := flow.source_address_
    destinationaddress := flow.destination_address_
    connectionids := connectionIds flow.connections_
    currentconnectionidindex := flow.current_connection_index_
    state := flow.state_.val
    qosparameters := E.get_qosSpecification_t flow.flow_specification_
    connectionpolicies := E.get_connectionPolicies_t active.policies
    accesscontrol := match flow.access_control_ with
      | none => none
      | some a => some a
    maxcreateflowretries := flow.max_create_flow_retries_
    createflowretries := flow.create_flow_retries_
    hopcount := flow.hop_count_ }

/-- `FlowEncoder::encode` (flow-allocator.cc 1182-1237). -/
def encode (E : Encoder N Q P Bytes) (flow : Flow) : Except Fault Bytes :=
  match flow.getActiveConnection with
  | none => .error (.exception noActiveConnection)
  | some active => .ok (E.SerializeToArray (gpf_flow E flow active))

/-- `FlowEncoder::decode` (flow-allocator.cc 1239-1285).  The result of
`ParseFromArray` is not looked at by the code.  `accesscontrol().c_str()` is
never the null pointer: an absent field reads as the empty string (the pointer
refers to storage of the local message `gpf_flow`). -/
def decode (E : Encoder N Q P Bytes) (serializedObject : Bytes) : Except Fault Flow :=
  let gpf := (E.ParseFromArray serializedObject).2
  let flow : Flow :=
    { Flow.new with
      source_naming_info_ := E.get_ApplicationProcessNamingInformation gpf.sourcenaminginfo
      destination_naming_info_ := E.get_ApplicationProcessNamingInformation gpf.destinationnaminginfo
      source_port_id_ := gpf.sourceportid
      destination_port_id_ := gpf.destinationportid
      source_address_ := gpf.sourceaddress
      destination_address_ := gpf.destinationaddress
      connections_ := gpf.connectionids.map E.get_Connection
      current_connection_index_ := gpf.currentconnectionidindex
      state_ := ⟨gpf.state⟩
      flow_specification_ := E.get_FlowSpecification gpf.qosparameters }
  match flow.getActiveConnection with
  | none => .error (.exception noActiveConnection)
  | some active =>
    let flow := flow.setActiveConnection
      { active with policies := E.get_ConnectionPolicies gpf.connectionpolicies }
    .ok { flow with
          access_control_ := some (gpf.accesscontrol.getD "")
          max_create_flow_retries_ := gpf.maxcreateflowretries
          create_flow_retries_ := gpf.createflowretries
          hop_count_ := gpf.hopcount }

/-- The (qos-id, source-cep-id, dest-cep-id) triple of a connection. -/
def triple (c : Connection) : Nat × Int × Int := (c.qosId, c.sourceCepId, c.destCepId)

end FlowEncoder

/-- Struct `RemoteIPCProcessId`: where the RIB daemon sends a CDAP message. -/
structure RemoteIPCProcessId where
  port_id_ : Int
  use_address_ : Bool
  address_ : Nat
deriving DecidableEq, Repr, Inhabited

/-- The string constants of class `EncoderConstants` (defined outside the
embedded sources) that the flow allocator uses; they are parameters. -/
structure EncoderConstants where
  FLOW_SET_RIB_OBJECT_NAME : String
  FLOW_SET_RIB_OBJECT_CLASS : String
  FLOW_RIB_OBJECT_CLASS : String
  QOS_CUBE_SET_RIB_OBJECT_NAME : String
  QOS_CUBE_SET_RIB_OBJECT_CLASS : String
  QOS_CUBE_RIB_OBJECT_CLASS : String
  SEPARATOR : String
deriving DecidableEq, Repr, Inhabited

/-- A call made on an external collaborator, with its arguments:
`rina::extendedIPCManager` (port-ids and notifications to the IPC Manager),
`rina::kernelIPCProcess` (EFCP connections), `rib_daemon_` (local RIB objects
and CDAP messages to peers) and `timer_`. -/
inductive Effect where
  | allocatePortId (appName : ApplicationProcessNamingInformation)
  | deallocatePortId (portId : Int)
  | allocateFlowRequestResult (event : FlowRequestEvent) (result : Int)
  | allocateFlowRequestArrived (localAppName remoteAppName : ApplicationProcessNamingInformation)
      (flowSpec : FlowSpecification) (portId : Int)
  | notifyflowDeallocated (event : FlowDeallocateRequestEvent) (result : Int)
  | flowDeallocated (portId : Int)
  | flowDeallocatedRemotely (portId : Int) (code : Int)
  | createConnection (connection : Connection)
  | createConnectionArrived (connection : Connection)
  | updateConnection (connection : Connection)
  | remoteCreateObject (objectClass objectName : String) (value : Flow) (remote_id : RemoteIPCProcessId)
  | remoteCreateObjectResponse (objectClass objectName : String) (value : Flow) (result : Int)
      (reason : String) (invoke_id : Int) (remote_id : RemoteIPCProcessId)
  | remoteDeleteObject (objectClass objectName : String) (remote_id : RemoteIPCProcessId)
  | createObject (objectClass objectName : String)
  | deleteObject (objectClass objectName : String)
  | scheduleTask (flow_object_name : String) (requestor : Bool) (delay : Nat)
deriving DecidableEq, Repr, Inhabited

/-- What the collaborators of the flow allocator answer while one operation
runs.  `throws e` tells whether the call `e` leaves through an `Exception`. -/
structure Env where
  /-- Result of `ipc_process_->get_address()`. -/
  address : Nat
  /-- Result of `namespace_manager_->getDFTNextHop(name)`; 0 means no entry. -/
  getDFTNextHop : ApplicationProcessNamingInformation → Nat
  /-- Result of `namespace_manager_->getRegIPCProcessId(name)`. -/
  getRegIPCProcessId : ApplicationProcessNamingInformation → Nat
  /-- Result of `security_manager_->acceptFlow(flow)`. -/
  acceptFlow : Flow → Bool
  /-- Port-id returned by `extendedIPCManager->allocatePortId(name)` when it does not throw. -/
  allocatePortId : ApplicationProcessNamingInformation → Int
  /-- Handle returned by `extendedIPCManager->allocateFlowRequestArrived(..)` when it does not throw. -/
  allocateFlowRequestArrived : ApplicationProcessNamingInformation →
    ApplicationProcessNamingInformation → FlowSpecification → Int → Nat
  /-- The vector filled by `cdap_session_manager_->getAllCDAPSessionIds(..)`. -/
  getAllCDAPSessionIds : List Int
  /-- The values of the children of the object returned by
  `readObject(QOS_CUBE_SET_RIB_OBJECT_CLASS, QOS_CUBE_SET_RIB_OBJECT_NAME)`;
  `none` when `readObject` returns 0. -/
  qosCubeSet : Option (List QoSCube)
  throws : Effect → Bool
  constants : EncoderConstants

/-- The default constructor `rina::Connection()` (defined outside the
embedded sources): every field zero or false. -/
def Connection.new : Connection :=
  { portId := 0, sourceAddress := 0, destAddress := 0, qosId := 0, sourceCepId := 0,
    destCepId := 0, flowUserIpcProcessId := 0,
    policies := ⟨false, ⟨false, false⟩, false, false, 0⟩ }

/-- `ApplicationProcessNamingInformation::toString()` (defined outside the
embedded sources); only used to build the text of an exception. -/
def namingToString (n : ApplicationProcessNamingInformation) : String :=
  n.processName ++ ":" ++ n.processInstance ++ ":" ++ n.entityName ++ ":" ++ n.entityInstance

namespace SimpleNewFlowRequestPolicy

/-- `SimpleNewFlowRequestPolicy::getQoSCubes` (flow-allocator.cc 482-498). -/
def getQoSCubes (env : Env) : List QoSCube :=
  match env.qosCubeSet with
  | none => []
  | some children => children

/-- The `for` loop of `selectQoSCube` (flow-allocator.cc 469-477). -/
def firstRtxCube (flowSpec : FlowSpecification) : List QoSCube → Option QoSCube
  | [] => none
  | cube :: rest =>
    if cube.efcp_policies_.dtcp_present_ then
      if 0 ≤ flowSpec.maxAllowableGap ∧ cube.efcp_policies_.dtcp_configuration_.rtx_control_ then
        some cube
      else firstRtxCube flowSpec rest
    else firstRtxCube flowSpec rest

/-- `SimpleNewFlowRequestPolicy::selectQoSCube` (flow-allocator.cc 460-480).
`*(qosCubes.begin())` on an empty list dereferences the end iterator. -/
def selectQoSCube (env : Env) (flowSpec : FlowSpecification) : Except Fault QoSCube :=
  let qosCubes := getQoSCubes env
  if flowSpec.maxAllowableGap < 0 then
    match qosCubes with
    | [] => .error (.undefinedBehaviour "*(qosCubes.begin()) on an empty list")
    | cube :: _ => .ok cube
  else
    match firstRtxCube flowSpec qosCubes with
    | some cube => .ok cube
    | none => .error (.exception "Could not find a QoS Cube with Rtx control disabled!")

/-- The connection built by `generateFlowObject` (flow-allocator.cc 436-450). -/
def newConnection (env : Env) (event : FlowRequestEvent) (qosCube : QoSCube) : Connection :=
  let connectionPolicies : ConnectionPolicies :=
    { qosCube.efcp_policies_ with
      in_order_delivery_ := qosCube.ordered_delivery_
      partial_delivery_ := qosCube.partial_delivery_
      max_sdu_gap_ := if event.flowSpecification.maxAllowableGap < 0 then INT_MAX
                      else qosCube.max_allowable_gap_ }
  { Connection.new with
    portId := event.portId
    sourceAddress := env.address
    qosId := 1
    flowUserIpcProcessId := event.flowRequestorIpcProcessId
    policies := connectionPolicies }

/-- `SimpleNewFlowRequestPolicy::generateFlowObject` (flow-allocator.cc 418-458). -/
def generateFlowObject (env : Env) (event : FlowRequestEvent) : Except Fault Flow :=
  match selectQoSCube env event.flowSpecification with
  | .error e => .error e
  | .ok qosCube =>
    .ok { Flow.new with
          destination_naming_info_ := event.remoteApplicationName
          source_naming_info_ := event.localApplicationName
          hop_count_ := 3
          max_create_flow_retries_ := 1
          source_ := true
          state_ := Flow.ALLOCATION_IN_PROGRESS
          connections_ := [newConnection env event qosCube]
          current_connection_index_ := 0
          flow_specification_ := event.flowSpecification }

end SimpleNewFlowRequestPolicy

/-- Enumeration `FlowAllocatorInstance::FAIState`. -/
inductive FAIState where
  | NO_STATE
  | CONNECTION_CREATE_REQUESTED
  | MESSAGE_TO_PEER_FAI_SENT
  | APP_NOTIFIED_OF_INCOMING_FLOW
  | CONNECTION_UPDATE_REQUESTED
  | FLOW_ALLOCATED
  | WAITING_2_MPL_BEFORE_TEARING_DOWN
  | FINISHED
deriving DecidableEq, Repr, Inhabited

/-- The data members of class `FlowAllocatorInstance` that carry state.
`flow_` is a pointer that `initialize` does not set: `none` until a `Flow` is
assigned.  The collaborators (`rib_daemon_`, `namespace_manager_`, ...) are
reached through `Env`; the policy object installed by the constructor used by
`FlowAllocator` is the stateless `SimpleNewFlowRequestPolicy`. -/
structure FlowAllocatorInstance where
  port_id_ : Int
  state_ : FAIState
  flow_ : Option Flow
  flow_request_event_ : FlowRequestEvent
  object_name_ : String
  allocate_response_message_handle_ : Nat
  underlying_port_id_ : Int
  invoke_id_ : Int
deriving DecidableEq, Repr, Inhabited

/-- The default constructor `rina::FlowRequestEvent()` (defined outside the
embedded sources), the initial value of the member `flow_request_event_`. -/
def FlowRequestEvent.new : FlowRequestEvent :=
  { localApplicationName := ⟨"", "", "", ""⟩
    remoteApplicationName := ⟨"", "", "", ""⟩
    flowSpecification := ⟨0, 0, 0, 0, false, false⟩
    portId := 0
    flowRequestorIpcProcessId := 0
    sequenceNumber := 0 }

/-- What one call of a `FlowAllocatorInstance` method leaves behind: the
instance's members, the calls made on collaborators, whether
`flow_allocator_->removeFlowAllocatorInstance(port_id_)` was called (after
which the instance is deleted), and how the body ended. -/
structure FaiOut where
  fai : FlowAllocatorInstance
  effects : List Effect
  removed : Bool
  completion : Completion
deriving DecidableEq, Repr, Inhabited

/-- The text of the dereference of a `flow_` that was never assigned. -/
def flowNotSet : String := "flow_ dereferenced before being assigned"

/-- What the destructor `~FlowAllocatorInstance` (flow-allocator.cc 521-537)
runs into when `flow_` was never assigned. -/
def flowNotSetAtDelete : String := "flow_ read by the destructor before being assigned"

/-- The static constant `TearDownFlowTimerTask::DELAY` (flow-allocator.cc 1109). -/
def TearDownFlowTimerTask.DELAY : Nat := 5000

namespace FlowAllocatorInstance

/-- Constructor with `initialize` (flow-allocator.cc 501-510, 539-553). -/
def new (port_id : Int) : FlowAllocatorInstance :=
  { port_id_ := port_id
    state_ := FAIState.NO_STATE
    flow_ := none
    flow_request_event_ := FlowRequestEvent.new
    object_name_ := ""
    allocate_response_message_handle_ := 0
    underlying_port_id_ := 0
    invoke_id_ := 0 }

/-- `FlowAllocatorInstance::isFinished` (flow-allocator.cc 563-565). -/
def isFinished (fai : FlowAllocatorInstance) : Bool :=
  decide (fai.state_ = FAIState.FINISHED)

/-- `FlowAllocatorInstance::get_allocate_response_message_handle`
(flow-allocator.cc 567-576). -/
def get_allocate_response_message_handle (fai : FlowAllocatorInstance) : Nat :=
  fai.allocate_response_message_handle_

/-- `FlowAllocatorInstance::replyToIPCManager` (flow-allocator.cc 632-640): an
exception of the call is caught and logged. -/
def replyToIPCManager (event : FlowRequestEvent) (result : Int) : List Effect :=
  [Effect.allocateFlowRequestResult event result]

/-- `FlowAllocatorInstance::releasePortId` (flow-allocator.cc 642-648): an
exception of the call is caught and logged. -/
def releasePortId (fai : FlowAllocatorInstance) : List Effect :=
  [Effect.deallocatePortId fai.port_id_]

/-- `FlowAllocatorInstance::releaseUnlockRemove` (flow-allocator.cc 650-654),
entered after the calls `done` were made. -/
def releaseUnlockRemove (fai : FlowAllocatorInstance) (done : List Effect) : FaiOut :=
  { fai := fai, effects := done ++ releasePortId fai, removed := true,
    completion := Completion.returned }

/-- A body that returns normally after the calls `done`, the instance staying
registered. -/
def returns (fai : FlowAllocatorInstance) (done : List Effect) : FaiOut :=
  { fai := fai, effects := done, removed := false, completion := Completion.returned }

/-- A body left through an exception that it does not catch. -/
def throwsOut (fai : FlowAllocatorInstance) (done : List Effect) (what : String) : FaiOut :=
  { fai := fai, effects := done, removed := false, completion := Completion.threw what }

/-- A body that runs into undefined behaviour after the calls `done`. -/
def undefinedOut (fai : FlowAllocatorInstance) (done : List Effect) (what : String) : FaiOut :=
  { fai := fai, effects := done, removed := false, completion := Completion.undefinedBehaviour what }

/-- The name built at flow-allocator.cc 613-616. -/
def flowObjectName (env : Env) (sourceAddress : Nat) (port_id : Int) : String :=
  env.constants.FLOW_SET_RIB_OBJECT_NAME ++ env.constants.SEPARATOR ++
    toString sourceAddress ++ "-" ++ toString port_id

/-- `FlowAllocatorInstance::submitAllocateRequest` (flow-allocator.cc 584-630).
No exception is caught in this body. -/
def submitAllocateRequest (fai : FlowAllocatorInstance) (env : Env)
    (event : FlowRequestEvent) : FaiOut :=
  let fai := { fai with flow_request_event_ := event }
  match SimpleNewFlowRequestPolicy.generateFlowObject env fai.flow_request_event_ with
  | .error (.exception what) => throwsOut fai [] what
  | .error (.undefinedBehaviour what) => undefinedOut fai [] what
  | .ok flow =>
    -- 1 Check directory
    let destinationAddress := env.getDFTNextHop fai.flow_request_event_.remoteApplicationName
    let flow := { flow with destination_address_ := destinationAddress }
    match flow.getActiveConnection with
    | none => throwsOut { fai with flow_ := some flow } [] noActiveConnection
    | some active =>
      let flow := flow.setActiveConnection { active with destAddress := destinationAddress }
      if destinationAddress = 0 then
        throwsOut { fai with flow_ := some flow } []
          ("Could not find entry in DFT for application " ++
            namingToString event.remoteApplicationName)
      else
        -- 2 Check if the destination address is this IPC process
        let sourceAddress := env.address
        let flow := { flow with source_address_ := sourceAddress, source_port_id_ := fai.port_id_ }
        let fai := { fai with flow_ := some flow,
                              object_name_ := flowObjectName env sourceAddress fai.port_id_ }
        if destinationAddress = sourceAddress then
          throwsOut fai [] "Allocation of flows between local applications not supported yet"
        else
          -- 3 Request the creation of the connection(s) in the Kernel
          let fai := { fai with state_ := FAIState.CONNECTION_CREATE_REQUESTED }
          match flow.getActiveConnection with
          | none => throwsOut fai [] noActiveConnection
          | some connection =>
            let call := Effect.createConnection connection
            if env.throws call then throwsOut fai [call] "createConnection"
            else returns fai [call]

/-- `FlowAllocatorInstance::processCreateConnectionResponseEvent`
(flow-allocator.cc 656-708).  `cdapSessions[0]` is read without looking at
the size of the vector. -/
def processCreateConnectionResponseEvent (fai : FlowAllocatorInstance) (env : Env)
    (event : CreateConnectionResponseEvent) : FaiOut :=
  if fai.state_ ≠ FAIState.CONNECTION_CREATE_REQUESTED then
    returns fai []
  else if event.cepId < 0 then
    returns fai (replyToIPCManager fai.flow_request_event_ (-1))
  else
    match fai.flow_ with
    | none => undefinedOut fai [] flowNotSet
    | some flow =>
      match flow.getActiveConnection with
      | none => throwsOut fai [] noActiveConnection
      | some active =>
        let flow := flow.setActiveConnection { active with sourceCepId := event.cepId }
        let fai := { fai with flow_ := some flow }
        -- 5 get the portId of any open CDAP session
        match env.getAllCDAPSessionIds with
        | [] => undefinedOut fai [] "cdapSessions[0] on an empty vector"
        | session :: _ =>
          let remote_id : RemoteIPCProcessId :=
            { port_id_ := session, use_address_ := true, address_ := flow.destination_address_ }
          -- 6 Encode the flow object and send it to the destination IPC process
          let call := Effect.remoteCreateObject env.constants.FLOW_RIB_OBJECT_CLASS
            fai.object_name_ flow remote_id
          if env.throws call then
            releaseUnlockRemove fai ([call] ++ replyToIPCManager fai.flow_request_event_ (-1))
          else
            returns { fai with underlying_port_id_ := session,
                               state_ := FAIState.MESSAGE_TO_PEER_FAI_SENT } [call]

/-- `FlowAllocatorInstance::createFlowRequestMessageReceived`
(flow-allocator.cc 710-779).  Of the two cep-ids only the destination one is
written (line 730). -/
def createFlowRequestMessageReceived (fai : FlowAllocatorInstance) (env : Env)
    (flow : Flow) (object_name : String) (invoke_id : Int) (underlyingPortId : Int) : FaiOut :=
  let flow := if flow.destination_address_ = 0 then
      { flow with destination_address_ := env.address } else flow
  let fai := { fai with invoke_id_ := invoke_id, object_name_ := object_name,
                        underlying_port_id_ := underlyingPortId }
  let flow := { flow with destination_port_id_ := fai.port_id_ }
  -- 1 Reverse connection source/dest addresses and CEP-ids
  match flow.getActiveConnection with
  | none => throwsOut { fai with flow_ := some flow } [] noActiveConnection
  | some connection =>
    let connection := { connection with portId := fai.port_id_ }
    let aux := connection.sourceAddress
    let connection := { connection with sourceAddress := connection.destAddress }
    let connection := { connection with destAddress := aux }
    let connection := { connection with destCepId := connection.sourceCepId }
    let connection := { connection with
      flowUserIpcProcessId := env.getRegIPCProcessId flow.destination_naming_info_ }
    let flow := flow.setActiveConnection connection
    let fai := { fai with flow_ := some flow }
    -- 2 Check if the source application process has access to the destination
    if ¬ env.acceptFlow flow then
      let remote_id : RemoteIPCProcessId :=
        { port_id_ := fai.underlying_port_id_, use_address_ := true,
          address_ := flow.source_address_ }
      releaseUnlockRemove fai
        [Effect.remoteCreateObjectResponse env.constants.FLOW_RIB_OBJECT_CLASS fai.object_name_
          flow (-1) "EncoderConstants::FLOW_RIB_OBJECT_CLASS" fai.invoke_id_ remote_id]
    else
      -- 4 Request creation of connection
      let fai := { fai with state_ := FAIState.CONNECTION_CREATE_REQUESTED }
      let call := Effect.createConnectionArrived connection
      if env.throws call then releaseUnlockRemove fai [call]
      else returns fai [call]

/-- `FlowAllocatorInstance::processCreateConnectionResultEvent`
(flow-allocator.cc 781-814). -/
def processCreateConnectionResultEvent (fai : FlowAllocatorInstance) (env : Env)
    (event : CreateConnectionResultEvent) : FaiOut :=
  if fai.state_ ≠ FAIState.CONNECTION_CREATE_REQUESTED then
    returns fai []
  else if event.sourceCepId < 0 then
    releaseUnlockRemove fai []
  else
    let fai := { fai with state_ := FAIState.APP_NOTIFIED_OF_INCOMING_FLOW }
    match fai.flow_ with
    | none => undefinedOut fai [] flowNotSet
    | some flow =>
      let call := Effect.allocateFlowRequestArrived flow.destination_naming_info_
        flow.source_naming_info_ flow.flow_specification_ fai.port_id_
      if env.throws call then releaseUnlockRemove fai [call]
      else
        let handle := env.allocateFlowRequestArrived flow.destination_naming_info_
          flow.source_naming_info_ flow.flow_specification_ fai.port_id_
        returns { fai with allocate_response_message_handle_ := handle } [call]

/-- `FlowAllocatorInstance::submitAllocateResponse` (flow-allocator.cc 816-889). -/
def submitAllocateResponse (fai : FlowAllocatorInstance) (env : Env)
    (event : AllocateFlowResponseEvent) : FaiOut :=
  if fai.state_ ≠ FAIState.APP_NOTIFIED_OF_INCOMING_FLOW then
    returns fai []
  else
    match fai.flow_ with
    | none => undefinedOut fai [] flowNotSet
    | some flow =>
      let remote_id : RemoteIPCProcessId :=
        { port_id_ := fai.underlying_port_id_, use_address_ := true,
          address_ := flow.source_address_ }
      if event.result = 0 then
        -- Flow has been accepted
        let call := Effect.remoteCreateObjectResponse env.constants.FLOW_RIB_OBJECT_CLASS
          fai.object_name_ flow 0 "" fai.invoke_id_ remote_id
        if env.throws call then
          releaseUnlockRemove fai [call, Effect.flowDeallocated fai.port_id_]
        else
          let flow := { flow with state_ := Flow.ALLOCATED }
          let fai := { fai with flow_ := some flow }
          let create := Effect.createObject env.constants.FLOW_RIB_OBJECT_CLASS fai.object_name_
          returns { fai with state_ := FAIState.FLOW_ALLOCATED } [call, create]
      else
        -- Flow has been rejected
        releaseUnlockRemove fai
          [Effect.remoteCreateObjectResponse env.constants.FLOW_RIB_OBJECT_CLASS fai.object_name_
            flow (-1) "Application rejected the flow" fai.invoke_id_ remote_id]

/-- `FlowAllocatorInstance::processUpdateConnectionResponseEvent`
(flow-allocator.cc 891-940). -/
def processUpdateConnectionResponseEvent (fai : FlowAllocatorInstance) (env : Env)
    (event : UpdateConnectionResponseEvent) : FaiOut :=
  if fai.state_ ≠ FAIState.CONNECTION_UPDATE_REQUESTED then
    returns fai []
  else if event.result ≠ 0 then
    -- Update connection was unsuccessful
    let fai := { fai with flow_request_event_ := { fai.flow_request_event_ with portId := -1 } }
    releaseUnlockRemove fai
      [Effect.allocateFlowRequestResult fai.flow_request_event_ event.result]
  else
    -- Update connection was successful
    match fai.flow_ with
    | none => undefinedOut fai [] flowNotSet
    | some flow =>
      let flow := { flow with state_ := Flow.ALLOCATED }
      let fai := { fai with flow_ := some flow }
      let create := Effect.createObject env.constants.FLOW_RIB_OBJECT_CLASS fai.object_name_
      let fai := { fai with state_ := FAIState.FLOW_ALLOCATED }
      let fai := { fai with
        flow_request_event_ := { fai.flow_request_event_ with portId := fai.port_id_ } }
      returns fai [create, Effect.allocateFlowRequestResult fai.flow_request_event_ 0]

/-- `FlowAllocatorInstance::submitDeallocate` (flow-allocator.cc 942-985).
Exceptions of `remoteDeleteObject` and of `scheduleTask` are caught and
logged. -/
def submitDeallocate (fai : FlowAllocatorInstance) (env : Env)
    (_event : FlowDeallocateRequestEvent) : FaiOut :=
  if fai.state_ ≠ FAIState.FLOW_ALLOCATED then
    returns fai []
  else
    match fai.flow_ with
    | none => undefinedOut fai [] flowNotSet
    | some flow =>
      -- 1 Update flow state
      let flow := { flow with state_ := Flow.WAITING_2_MPL_BEFORE_TEARING_DOWN }
      let fai := { fai with flow_ := some flow,
                            state_ := FAIState.WAITING_2_MPL_BEFORE_TEARING_DOWN }
      -- 2 Send M_DELETE
      let remote_id : RemoteIPCProcessId :=
        { port_id_ := fai.underlying_port_id_, use_address_ := true,
          address_ := if env.address = flow.source_address_ then flow.destination_address_
                      else flow.source_address_ }
      -- 3 Wait 2*MPL before tearing down the flow
      returns fai
        [Effect.remoteDeleteObject env.constants.FLOW_RIB_OBJECT_CLASS fai.object_name_ remote_id,
         Effect.scheduleTask fai.object_name_ true TearDownFlowTimerTask.DELAY]

/-- `FlowAllocatorInstance::deleteFlowRequestMessageReceived`
(flow-allocator.cc 987-1012).  An exception of `scheduleTask` is not caught. -/
def deleteFlowRequestMessageReceived (fai : FlowAllocatorInstance) (env : Env) : FaiOut :=
  if fai.state_ ≠ FAIState.FLOW_ALLOCATED then
    returns fai []
  else
    match fai.flow_ with
    | none => undefinedOut fai [] flowNotSet
    | some flow =>
      -- 1 Update flow state
      let flow := { flow with state_ := Flow.WAITING_2_MPL_BEFORE_TEARING_DOWN }
      let fai := { fai with flow_ := some flow,
                            state_ := FAIState.WAITING_2_MPL_BEFORE_TEARING_DOWN }
      -- 3 Wait 2*MPL before tearing down the flow
      let schedule := Effect.scheduleTask fai.object_name_ true TearDownFlowTimerTask.DELAY
      if env.throws schedule then throwsOut fai [schedule] "scheduleTask"
      else
        -- 4 Inform IPC Manager
        returns fai [schedule, Effect.flowDeallocatedRemotely fai.port_id_ 0]

/-- `FlowAllocatorInstance::destroyFlowAllocatorInstance`
(flow-allocator.cc 1014-1037), which `TearDownFlowTimerTask::run` calls. -/
def destroyFlowAllocatorInstance (fai : FlowAllocatorInstance) (env : Env)
    (_flowObjectName : String) (_requestor : Bool) : FaiOut :=
  if fai.state_ ≠ FAIState.WAITING_2_MPL_BEFORE_TEARING_DOWN then
    returns fai []
  else
    releaseUnlockRemove fai
      [Effect.deleteObject env.constants.FLOW_RIB_OBJECT_CLASS fai.object_name_]

/-- The `catch` block of `createResponse` (flow-allocator.cc 1089-1105),
entered after the calls `done`. -/
def createResponseCatch (fai : FlowAllocatorInstance) (done : List Effect) (result : Int) :
    FaiOut :=
  let fai := { fai with flow_request_event_ := { fai.flow_request_event_ with portId := -1 } }
  releaseUnlockRemove fai
    (done ++ [Effect.allocateFlowRequestResult fai.flow_request_event_ result])

/-- The end of the `try` block of `createResponse` (flow-allocator.cc
1085-1088), for the flow `flow` reached after the optional update. -/
def createResponseUpdate (fai : FlowAllocatorInstance) (env : Env) (flow : Flow)
    (result : Int) : FaiOut :=
  let fai := { fai with flow_ := some flow, state_ := FAIState.CONNECTION_UPDATE_REQUESTED }
  match flow.getActiveConnection with
  | none => createResponseCatch fai [] result
  | some connection =>
    let call := Effect.updateConnection connection
    if env.throws call then createResponseCatch fai [call] result
    else returns fai [call]

/-- `FlowAllocatorInstance::createResponse` (flow-allocator.cc 1039-1106);
`object_value` is the decoded `Flow` of the response, or the null pointer. -/
def createResponse (fai : FlowAllocatorInstance) (env : Env) (result : Int)
    (_result_reason : String) (object_value : Option Flow) : FaiOut :=
  if fai.state_ ≠ FAIState.MESSAGE_TO_PEER_FAI_SENT then
    returns fai []
  else if result ≠ 0 then
    -- Flow allocation unsuccessful
    let fai := { fai with flow_request_event_ := { fai.flow_request_event_ with portId := -1 } }
    releaseUnlockRemove fai [Effect.allocateFlowRequestResult fai.flow_request_event_ result]
  else
    -- Flow allocation successful
    match fai.flow_ with
    | none => undefinedOut fai [] flowNotSet
    | some flow =>
      match object_value with
      | none => createResponseUpdate fai env flow result
      | some receivedFlow =>
        let flow := { flow with destination_port_id_ := receivedFlow.destination_port_id_ }
        match flow.getActiveConnection, receivedFlow.getActiveConnection with
        | some active, some received =>
          createResponseUpdate fai env
            (flow.setActiveConnection { active with destCepId := received.destCepId }) result
        | _, _ => createResponseCatch { fai with flow_ := some flow } [] result

end FlowAllocatorInstance

/-- The container `flow_allocator_instances_` (a thread-safe map from port-id
to instance pointer, defined outside the embedded sources): an association
list that `put` keeps in key order, as a `std::map` is enumerated. -/
abbrev Registry := List (Int × FlowAllocatorInstance)

namespace Registry

/-- Method `find(key)`: the instance stored under `key`, or the null pointer. -/
def find : Registry → Int → Option FlowAllocatorInstance
  | [], _ => none
  | (k, v) :: rest, key => if k = key then some v else find rest key

/-- Method `put(key, value)`: stores `value` under `key`, replacing what was
stored there. -/
def put : Registry → Int → FlowAllocatorInstance → Registry
  | [], key, value => [(key, value)]
  | (k, v) :: rest, key, value =>
    if key < k then (key, value) :: (k, v) :: rest
    else if key = k then (key, value) :: rest
    else (k, v) :: put rest key value

/-- Method `erase(key)`: removes the entry stored under `key`. -/
def erase : Registry → Int → Registry
  | [], _ => []
  | (k, v) :: rest, key => if k = key then erase rest key else (k, v) :: erase rest key

/-- Method `getEntries()`: the stored instances, in the order of enumeration. -/
def getEntries (r : Registry) : List FlowAllocatorInstance := r.map Prod.snd

/-- The members of the instance stored under `key` after one of its methods
ran: the map holds a pointer, so what the method wrote is seen through it. -/
def write : Registry → Int → FlowAllocatorInstance → Registry
  | [], _, _ => []
  | (k, v) :: rest, key, value =>
    if k = key then (k, value) :: rest else (k, v) :: write rest key value

/-- The port-ids under which an instance is stored. -/
def keys (r : Registry) : List Int := r.map Prod.fst

end Registry

/-- The data member of class `FlowAllocator` that carries state. -/
structure FlowAllocator where
  flow_allocator_instances_ : Registry
deriving DecidableEq, Repr, Inhabited

/-- What one call of a `FlowAllocator` method leaves behind. -/
structure FaOut where
  fa : FlowAllocator
  effects : List Effect
  completion : Completion
deriving DecidableEq, Repr, Inhabited

namespace FlowAllocator

/-- Constructor `FlowAllocator::FlowAllocator()`: no instance is registered. -/
def new : FlowAllocator := { flow_allocator_instances_ := [] }

/-- `FlowAllocator::removeFlowAllocatorInstance` (flow-allocator.cc 410-415). -/
def removeFlowAllocatorInstance (fa : FlowAllocator) (portId : Int) : FlowAllocator :=
  { fa with flow_allocator_instances_ := fa.flow_allocator_instances_.erase portId }

/-- `FlowAllocator::replyToIPCManager` (flow-allocator.cc 258-266): an
exception of the call is caught and logged. -/
def replyToIPCManager (event : FlowRequestEvent) (result : Int) : List Effect :=
  [Effect.allocateFlowRequestResult event result]

/-- The flow allocator after a method of the instance found under `key` ran
with outcome `out`: the instance's members are those of `out.fai`, and the
instance is gone from the map if it called `removeFlowAllocatorInstance` with
its own port-id. -/
def settle (fa : FlowAllocator) (key : Int) (out : FaiOut) : FlowAllocator :=
  let fa1 : FlowAllocator :=
    { fa with flow_allocator_instances_ := fa.flow_allocator_instances_.write key out.fai }
  if out.removed then fa1.removeFlowAllocatorInstance out.fai.port_id_ else fa1

/-- A method of `FlowAllocator` that ends by delegating to the instance found
under `key`, after the calls `done`. -/
def delegate (fa : FlowAllocator) (key : Int) (done : List Effect) (out : FaiOut)
    (after : List Effect) : FaOut :=
  match out.completion with
  | Completion.returned =>
    { fa := fa.settle key out, effects := done ++ out.effects ++ after,
      completion := Completion.returned }
  | c => { fa := fa.settle key out, effects := done ++ out.effects, completion := c }

/-- `FlowAllocator::createFlowRequestMessageReceived` (flow-allocator.cc
208-256).  The forwarding branch (lines 246-255) only decrements the hop count
of the caller's `Flow` object and logs "Missing code". -/
def createFlowRequestMessageReceived (fa : FlowAllocator) (env : Env) (flow : Flow)
    (object_name : String) (invoke_id : Int) (underlyingPortId : Int) : FaOut :=
  let address := env.getDFTNextHop flow.destination_naming_info_
  let myAddress := env.address
  if address = 0 then
    { fa := fa, effects := [], completion := Completion.returned }
  else if address = myAddress then
    let alloc := Effect.allocatePortId flow.destination_naming_info_
    if env.throws alloc then
      { fa := fa, effects := [alloc], completion := Completion.returned }
    else
      let portId := env.allocatePortId flow.destination_naming_info_
      let flowAllocatorInstance := FlowAllocatorInstance.new portId
      let fa : FlowAllocator :=
        { fa with flow_allocator_instances_ :=
                    fa.flow_allocator_instances_.put portId flowAllocatorInstance }
      delegate fa portId [alloc]
        (flowAllocatorInstance.createFlowRequestMessageReceived env flow object_name invoke_id
          underlyingPortId) []
  else
    { fa := fa, effects := [], completion := Completion.returned }

/-- The value of the caller's `Flow` object after
`FlowAllocator::createFlowRequestMessageReceived` took the forwarding branch
(flow-allocator.cc 248). -/
def forwardedFlow (flow : Flow) : Flow :=
  { flow with hop_count_ := flow.hop_count_ - 1 }

/-- `FlowAllocator::submitAllocateRequest` (flow-allocator.cc 268-303).  The
first `catch` block does not return: the body goes on with `portId = 0`.  In
the second `catch` block `delete flowAllocatorInstance` (line 293) runs the
destructor, which reads `flow_` (lines 526-528); no constructor assigns
`flow_`, so when the instance threw before assigning it (`generateFlowObject`
threw) that read is of an indeterminate pointer. -/
def submitAllocateRequest (fa : FlowAllocator) (env : Env) (event : FlowRequestEvent) :
    FaOut :=
  let alloc := Effect.allocatePortId event.localApplicationName
  let portId : Int := if env.throws alloc then 0 else env.allocatePortId event.localApplicationName
  let done : List Effect :=
    if env.throws alloc then [alloc] ++ replyToIPCManager event (-1) else [alloc]
  let event := { event with portId := portId }
  let flowAllocatorInstance := FlowAllocatorInstance.new portId
  let fa : FlowAllocator :=
    { fa with flow_allocator_instances_ :=
                fa.flow_allocator_instances_.put portId flowAllocatorInstance }
  let out := flowAllocatorInstance.submitAllocateRequest env event
  match out.completion with
  | Completion.threw _ =>
    let fa : FlowAllocator :=
      { fa with flow_allocator_instances_ := fa.flow_allocator_instances_.erase portId }
    match out.fai.flow_ with
    | none =>
      { fa := fa, effects := done ++ out.effects,
        completion := Completion.undefinedBehaviour flowNotSetAtDelete }
    | some _ =>
      { fa := fa
        effects := done ++ out.effects ++ [Effect.deallocatePortId portId] ++
          replyToIPCManager event (-1)
        completion := Completion.returned }
  | _ => delegate fa portId done out []

/-- `FlowAllocator::processCreateConnectionResponseEvent` (flow-allocator.cc
305-317). -/
def processCreateConnectionResponseEvent (fa : FlowAllocator) (env : Env)
    (event : CreateConnectionResponseEvent) : FaOut :=
  match fa.flow_allocator_instances_.find event.portId with
  | some flowAllocatorInstance =>
    delegate fa event.portId []
      (flowAllocatorInstance.processCreateConnectionResponseEvent env event) []
  | none => { fa := fa, effects := [], completion := Completion.returned }

/-- The scan of `FlowAllocator::submitAllocateResponse` over `getEntries()`
(flow-allocator.cc 330-337): the first instance, in the order of enumeration,
whose handle is the sequence number, with the key it is stored under. -/
def findByHandle (sequenceNumber : Nat) : Registry → Option (Int × FlowAllocatorInstance)
  | [] => none
  | (key, fai) :: rest =>
    if fai.get_allocate_response_message_handle = sequenceNumber then some (key, fai)
    else findByHandle sequenceNumber rest

/-- `FlowAllocator::submitAllocateResponse` (flow-allocator.cc 319-340). -/
def submitAllocateResponse (fa : FlowAllocator) (env : Env)
    (event : AllocateFlowResponseEvent) : FaOut :=
  match findByHandle event.sequenceNumber fa.flow_allocator_instances_ with
  | some (key, flowAllocatorInstance) =>
    delegate fa key [] (flowAllocatorInstance.submitAllocateResponse env event) []
  | none => { fa := fa, effects := [], completion := Completion.returned }

/-- `FlowAllocator::processCreateConnectionResultEvent` (flow-allocator.cc
342-359). -/
def processCreateConnectionResultEvent (fa : FlowAllocator) (env : Env)
    (event : CreateConnectionResultEvent) : FaOut :=
  match fa.flow_allocator_instances_.find event.portId with
  | none =>
    { fa := fa, effects := [Effect.deallocatePortId event.portId],
      completion := Completion.returned }
  | some flowAllocatorInstance =>
    delegate fa event.portId []
      (flowAllocatorInstance.processCreateConnectionResultEvent env event) []

/-- `FlowAllocator::processUpdateConnectionResponseEvent` (flow-allocator.cc
361-378). -/
def processUpdateConnectionResponseEvent (fa : FlowAllocator) (env : Env)
    (event : UpdateConnectionResponseEvent) : FaOut :=
  match fa.flow_allocator_instances_.find event.portId with
  | none =>
    { fa := fa, effects := [Effect.deallocatePortId event.portId],
      completion := Completion.returned }
  | some flowAllocatorInstance =>
    delegate fa event.portId []
      (flowAllocatorInstance.processUpdateConnectionResponseEvent env event) []

/-- `FlowAllocator::submitDeallocate` (flow-allocator.cc 380-408). -/
def submitDeallocate (fa : FlowAllocator) (env : Env)
    (event : FlowDeallocateRequestEvent) : FaOut :=
  match fa.flow_allocator_instances_.find event.portId with
  | none =>
    { fa := fa
      effects := [Effect.deallocatePortId event.portId, Effect.notifyflowDeallocated event (-1)]
      completion := Completion.returned }
  | some flowAllocatorInstance =>
    delegate fa event.portId [] (flowAllocatorInstance.submitDeallocate env event)
      [Effect.notifyflowDeallocated event (-1)]

end FlowAllocator

/-- An entry point of the flow allocator, with its arguments.  The first
seven are the methods of `FlowAllocator` called by the IPC process; the last
three reach an instance through a pointer kept by a collaborator (the RIB
daemon for `createResponse`, `FlowRIBObject::remoteDeleteObject` for
`deleteFlowRequestMessageReceived`, `TearDownFlowTimerTask::run` for
`destroyFlowAllocatorInstance`); the instance is named by the port-id under
which it is registered. -/
inductive Operation where
  | submitAllocateRequest (event : FlowRequestEvent)
  | createFlowRequestMessageReceived (flow : Flow) (object_name : String) (invoke_id : Int)
      (underlyingPortId : Int)
  | processCreateConnectionResponseEvent (event : CreateConnectionResponseEvent)
  | submitAllocateResponse (event : AllocateFlowResponseEvent)
  | processCreateConnectionResultEvent (event : CreateConnectionResultEvent)
  | processUpdateConnectionResponseEvent (event : UpdateConnectionResponseEvent)
  | submitDeallocate (event : FlowDeallocateRequestEvent)
  | createResponse (portId : Int) (result : Int) (result_reason : String)
      (object_value : Option Flow)
  | deleteFlowRequestMessageReceived (portId : Int)
  | tearDownFlowTimerTaskRun (portId : Int)
deriving DecidableEq, Repr, Inhabited

namespace FlowAllocator

/-- A method called on the instance registered under `portId` through a
pointer kept by a collaborator; nothing happens when no instance is
registered there. -/
def onInstance (fa : FlowAllocator) (portId : Int)
    (method : FlowAllocatorInstance → FaiOut) : FaOut :=
  match fa.flow_allocator_instances_.find portId with
  | none => { fa := fa, effects := [], completion := Completion.returned }
  | some fai => delegate fa portId [] (method fai) []

/-- One entry point run on the flow allocator. -/
def step (fa : FlowAllocator) (env : Env) : Operation → FaOut
  | .submitAllocateRequest event => fa.submitAllocateRequest env event
  | .createFlowRequestMessageReceived flow object_name invoke_id underlyingPortId =>
    fa.createFlowRequestMessageReceived env flow object_name invoke_id underlyingPortId
  | .processCreateConnectionResponseEvent event =>
    fa.processCreateConnectionResponseEvent env event
  | .submitAllocateResponse event => fa.submitAllocateResponse env event
  | .processCreateConnectionResultEvent event => fa.processCreateConnectionResultEvent env event
  | .processUpdateConnectionResponseEvent event =>
    fa.processUpdateConnectionResponseEvent env event
  | .submitDeallocate event => fa.submitDeallocate env event
  | .createResponse portId result result_reason object_value =>
    fa.onInstance portId fun fai => fai.createResponse env result result_reason object_value
  | .deleteFlowRequestMessageReceived portId =>
    fa.onInstance portId fun fai => fai.deleteFlowRequestMessageReceived env
  | .tearDownFlowTimerTaskRun portId =>
    fa.onInstance portId fun fai => fai.destroyFlowAllocatorInstance env fai.object_name_ true

/-- A run: entry points taken one after the other, each with the answers its
collaborators give; the calls made are accumulated.  A run goes on after an
exception left an entry point and stops at undefined behaviour. -/
def run (fa : FlowAllocator) : List (Env × Operation) → FaOut
  | [] => { fa := fa, effects := [], completion := Completion.returned }
  | (env, op) :: rest =>
    let out := fa.step env op
    match out.completion with
    | Completion.undefinedBehaviour what =>
      { fa := out.fa, effects := out.effects, completion := Completion.undefinedBehaviour what }
    | _ =>
      let more := run out.fa rest
      { fa := more.fa, effects := out.effects ++ more.effects, completion := more.completion }

end FlowAllocator

/-! ## The state graph and the guarded operations -/

namespace FAIState

/-- The edges listed for an instance created by `submitAllocateRequest`. -/
def sourceEdge : FAIState → FAIState → Bool
  | NO_STATE, CONNECTION_CREATE_REQUESTED => true
  | CONNECTION_CREATE_REQUESTED, MESSAGE_TO_PEER_FAI_SENT => true
  | MESSAGE_TO_PEER_FAI_SENT, CONNECTION_UPDATE_REQUESTED => true
  | CONNECTION_UPDATE_REQUESTED, FLOW_ALLOCATED => true
  | FLOW_ALLOCATED, WAITING_2_MPL_BEFORE_TEARING_DOWN => true
  | WAITING_2_MPL_BEFORE_TEARING_DOWN, FINISHED => true
  | _, _ => false

/-- The edges listed for an instance created by an incoming create request. -/
def destinationEdge : FAIState → FAIState → Bool
  | NO_STATE, CONNECTION_CREATE_REQUESTED => true
  | CONNECTION_CREATE_REQUESTED, APP_NOTIFIED_OF_INCOMING_FLOW => true
  | APP_NOTIFIED_OF_INCOMING_FLOW, FLOW_ALLOCATED => true
  | FLOW_ALLOCATED, WAITING_2_MPL_BEFORE_TEARING_DOWN => true
  | WAITING_2_MPL_BEFORE_TEARING_DOWN, FINISHED => true
  | _, _ => false

/-- An edge listed for either side. -/
def listedEdge (s t : FAIState) : Bool := sourceEdge s t || destinationEdge s t

/-- How far along the state graph a state lies. -/
def rank : FAIState → Nat
  | NO_STATE => 0
  | CONNECTION_CREATE_REQUESTED => 1
  | MESSAGE_TO_PEER_FAI_SENT => 2
  | APP_NOTIFIED_OF_INCOMING_FLOW => 2
  | CONNECTION_UPDATE_REQUESTED => 3
  | FLOW_ALLOCATED => 4
  | WAITING_2_MPL_BEFORE_TEARING_DOWN => 5
  | FINISHED => 6

end FAIState

/-- The eight methods of `FlowAllocatorInstance` that start by comparing
`state_` with one expected state, with their arguments. -/
inductive FaiEvent where
  | processCreateConnectionResponseEvent (event : CreateConnectionResponseEvent)
  | processCreateConnectionResultEvent (event : CreateConnectionResultEvent)
  | createResponse (result : Int) (result_reason : String) (object_value : Option Flow)
  | processUpdateConnectionResponseEvent (event : UpdateConnectionResponseEvent)
  | submitAllocateResponse (event : AllocateFlowResponseEvent)
  | submitDeallocate (event : FlowDeallocateRequestEvent)
  | deleteFlowRequestMessageReceived
  | destroyFlowAllocatorInstance (flowObjectName : String) (requestor : Bool)
deriving DecidableEq, Repr, Inhabited

/-- The state each of the eight methods compares `state_` with
(flow-allocator.cc 660, 785, 1046, 895, 820, 948, 990, 1021). -/
def FaiEvent.expected : FaiEvent → FAIState
  | .processCreateConnectionResponseEvent _ => FAIState.CONNECTION_CREATE_REQUESTED
  | .processCreateConnectionResultEvent _ => FAIState.CONNECTION_CREATE_REQUESTED
  | .createResponse _ _ _ => FAIState.MESSAGE_TO_PEER_FAI_SENT
  | .processUpdateConnectionResponseEvent _ => FAIState.CONNECTION_UPDATE_REQUESTED
  | .submitAllocateResponse _ => FAIState.APP_NOTIFIED_OF_INCOMING_FLOW
  | .submitDeallocate _ => FAIState.FLOW_ALLOCATED
  | .deleteFlowRequestMessageReceived => FAIState.FLOW_ALLOCATED
  | .destroyFlowAllocatorInstance _ _ => FAIState.WAITING_2_MPL_BEFORE_TEARING_DOWN

/-- The method named by a `FaiEvent`, called on an instance. -/
def FlowAllocatorInstance.handle (fai : FlowAllocatorInstance) (env : Env) : FaiEvent → FaiOut
  | .processCreateConnectionResponseEvent event =>
    fai.processCreateConnectionResponseEvent env event
  | .processCreateConnectionResultEvent event => fai.processCreateConnectionResultEvent env event
  | .createResponse result result_reason object_value =>
    fai.createResponse env result result_reason object_value
  | .processUpdateConnectionResponseEvent event =>
    fai.processUpdateConnectionResponseEvent env event
  | .submitAllocateResponse event => fai.submitAllocateResponse env event
  | .submitDeallocate event => fai.submitDeallocate env event
  | .deleteFlowRequestMessageReceived => fai.deleteFlowRequestMessageReceived env
  | .destroyFlowAllocatorInstance flowObjectName requestor =>
    fai.destroyFlowAllocatorInstance env flowObjectName requestor

/-- The port-id under which an entry point registers a new instance, if it
registers one (flow-allocator.cc 236-238 and 284-286). -/
def Operation.registersUnder (env : Env) : Operation → Option Int
  | .submitAllocateRequest event =>
    some (if env.throws (Effect.allocatePortId event.localApplicationName) then 0
          else env.allocatePortId event.localApplicationName)
  | .createFlowRequestMessageReceived flow _ _ _ =>
    if env.getDFTNextHop flow.destination_naming_info_ = 0 then none
    else if env.getDFTNextHop flow.destination_naming_info_ = env.address then
      if env.throws (Effect.allocatePortId flow.destination_naming_info_) then none
      else some (env.allocatePortId flow.destination_naming_info_)
    else none
  | _ => none

/-- What every method of an instance guarantees about the instance's port-id,
its state and the release of its port-id. -/
structure FaiOut.Sound (fai : FlowAllocatorInstance) (out : FaiOut) : Prop where
  port : out.fai.port_id_ = fai.port_id_
  state : out.fai.state_ = fai.state_ ∨ FAIState.listedEdge fai.state_ out.fai.state_ = true
  release : ∀ p, out.effects.count (Effect.deallocatePortId p) =
    if out.removed = true ∧ p = fai.port_id_ then 1 else 0

/-- The keys of the map are enumerated in increasing order, each once. -/
def Registry.ordered (r : Registry) : Prop := (Registry.keys r).Pairwise (· < ·)

/-- An instance that has left NO_STATE holds a flow with an active
connection. -/
def FlowAllocatorInstance.wellFormed (fai : FlowAllocatorInstance) : Prop :=
  fai.state_ = FAIState.NO_STATE ∨
    ∃ flow connection, fai.flow_ = some flow ∧ flow.getActiveConnection = some connection

/-! ## The flow as the destination holds it -/

/-- The active connection after lines 725-731 of
`FlowAllocatorInstance::createFlowRequestMessageReceived`, for the connection
`connection` the arriving flow designates as active. -/
def FlowAllocatorInstance.arrivedConnection (fai : FlowAllocatorInstance) (env : Env)
    (flow : Flow) (connection : Connection) : Connection :=
  { connection with
    portId := fai.port_id_
    sourceAddress := connection.destAddress
    destAddress := connection.sourceAddress
    destCepId := connection.sourceCepId
    flowUserIpcProcessId := env.getRegIPCProcessId flow.destination_naming_info_ }

/-- The flow the instance holds when it consults the Security Manager
(flow-allocator.cc 715-731), for the arriving `flow` whose active connection is
`connection`. -/
def FlowAllocatorInstance.arrivedFlow (fai : FlowAllocatorInstance) (env : Env)
    (flow : Flow) (connection : Connection) : Flow :=
  Flow.setActiveConnection
    { (if flow.destination_address_ = 0 then
        { flow with destination_address_ := env.address } else flow) with
      destination_port_id_ := fai.port_id_ }
    (fai.arrivedConnection env flow connection)

/-- The caller's `Flow` object when `FlowAllocator::createFlowRequestMessageReceived`
returns without having handed it to an instance (flow-allocator.cc 214-256):
the hop count is decremented in the forwarding branch only. -/
def FlowAllocator.flowAfterCreateFlowRequest (env : Env) (flow : Flow) : Flow :=
  if env.getDFTNextHop flow.destination_naming_info_ = 0 then flow
  else if env.getDFTNextHop flow.destination_naming_info_ = env.address then flow
  else FlowAllocator.forwardedFlow flow

/-! ## The QoS cube set of the RIB -/

/-- Class `QoSCubeRIBObject` (flow-allocator.cc 81-106), a child of the QoS
cube set: the name `name_` it inherits from `BaseRIBObject` and the cube it
holds. -/
structure QoSCubeRIBObject where
  name_ : String
  cube : QoSCube
deriving DecidableEq, Repr, Inhabited

/-- Class `QoSCubeSetRIBObject` (flow-allocator.cc 108-157): the list of
children it inherits from `BaseRIBObject`, as `get_children()` returns it. -/
structure QoSCubeSetRIBObject where
  children_ : List QoSCubeRIBObject
deriving DecidableEq, Repr, Inhabited

namespace QoSCubeSetRIBObject

/-- `QoSCubeSetRIBObject::remoteCreateObject` (flow-allocator.cc 117-126): the
four arguments are not used and "Missing code" is logged. -/
def remoteCreateObject (obj : QoSCubeSetRIBObject) (_object_value : Option QoSCube)
    (_object_name : String) (_invoke_id : Int) (_session_port_id : Int) : QoSCubeSetRIBObject :=
  obj

/-- The second loop of `QoSCubeSetRIBObject::deleteObject` (flow-allocator.cc
150-152): `remove_child` is called with each collected name in turn.
`BaseRIBObject::remove_child` is defined outside the embedded sources and is a
parameter; an exception of it is not caught. -/
def removeChildren
    (remove_child : List QoSCubeRIBObject → String → Except Fault (List QoSCubeRIBObject)) :
    List QoSCubeRIBObject → List String → Except Fault (List QoSCubeRIBObject)
  | children, [] => .ok children
  | children, name :: rest =>
    match remove_child children name with
    | .error e => .error e
    | .ok children => removeChildren remove_child children rest

/-- `QoSCubeSetRIBObject::deleteObject` (flow-allocator.cc 136-153).  A
non-null `objectValue` is only warned about.  The names of the children are
collected first (lines 145-148), then removed one by one. -/
def deleteObject
    (remove_child : List QoSCubeRIBObject → String → Except Fault (List QoSCubeRIBObject))
    (obj : QoSCubeSetRIBObject) (_objectValue : Option QoSCube) :
    Except Fault QoSCubeSetRIBObject :=
  let childNames := obj.children_.map fun child => child.name_
  match removeChildren remove_child obj.children_ childNames with
  | .error e => .error e
  | .ok children => .ok { obj with children_ := children }

end QoSCubeSetRIBObject

/-! ## Messages between two peers -/

/-- The `Flow` that a CDAP message sent to a peer carries as its object value
(`robject_value.complex_value_`, flow-allocator.cc 691, 748, 838, 878). -/
def Effect.objectValue : Effect → Option Flow
  | .remoteCreateObject _ _ value _ => some value
  | .remoteCreateObjectResponse _ _ value _ _ _ _ => some value
  | _ => none

/-! ## Concrete data

The values of the literal scenario of the specification (IPC process address
10, destination 20, port-id 430, `max_allowable_gap = -1`), used where a
statement is evaluated on an input. -/

namespace Sample

/-- A codec whose nested messages are the objects themselves and whose
serialisation is the message itself. -/
def encoder : Encoder ApplicationProcessNamingInformation FlowSpecification ConnectionPolicies
    (messages.Flow ApplicationProcessNamingInformation FlowSpecification ConnectionPolicies) :=
  { get_applicationProcessNamingInfo_t := fun n => n
    get_ApplicationProcessNamingInformation := fun n => n
    get_qosSpecification_t := fun q => q
    get_FlowSpecification := fun q => q
    get_connectionPolicies_t := fun p => p
    get_ConnectionPolicies := fun p => p
    get_Connection := fun c =>
      { Connection.new with qosId := c.qosid, sourceCepId := c.sourcecepid,
                            destCepId := c.destinationcepid }
    SerializeToArray := fun m => m
    ParseFromArray := fun m => (true, m) }

def constants : EncoderConstants :=
  { FLOW_SET_RIB_OBJECT_NAME := "/dif/resourceallocation/flowallocator/flows"
    FLOW_SET_RIB_OBJECT_CLASS := "flow set"
    FLOW_RIB_OBJECT_CLASS := "flow"
    QOS_CUBE_SET_RIB_OBJECT_NAME := "/dif/management/flowallocator/qoscubes"
    QOS_CUBE_SET_RIB_OBJECT_CLASS := "qoscube set"
    QOS_CUBE_RIB_OBJECT_CLASS := "qoscube"
    SEPARATOR := "/" }

def sourceName : ApplicationProcessNamingInformation := ⟨"/apps/test/source", "1", "", ""⟩

def destinationName : ApplicationProcessNamingInformation :=
  ⟨"/apps/test/destination", "1", "", ""⟩

/-- A QoS cube without DTCP. -/
def unreliableCube : QoSCube :=
  { name_ := "unreliable", id_ := 1
    efcp_policies_ := ⟨false, ⟨false, false⟩, false, false, 0⟩
    ordered_delivery_ := false, partial_delivery_ := true, max_allowable_gap_ := -1
    jitter_ := 0, delay_ := 0, average_bandwidth_ := 0 }

def flowSpec : FlowSpecification :=
  { jitter := 0, delay := 0, maxAllowableGap := -1, averageBandwidth := 0,
    orderedDelivery := false, partialDelivery := false }

/-- The allocate request of the application at the source. -/
def request : FlowRequestEvent :=
  { localApplicationName := sourceName, remoteApplicationName := destinationName
    flowSpecification := flowSpec, portId := 0, flowRequestorIpcProcessId := 1
    sequenceNumber := 1234 }

/-- The IPC process at address 10: the directory answers 20 for every name,
port-id 430 is handed out, one CDAP session (id 3) is open, the catalogue
holds `unreliableCube`, and no call throws. -/
def env : Env :=
  { address := 10
    getDFTNextHop := fun _ => 20
    getRegIPCProcessId := fun _ => 1
    acceptFlow := fun _ => true
    allocatePortId := fun _ => 430
    allocateFlowRequestArrived := fun _ _ _ _ => 5
    getAllCDAPSessionIds := [3]
    qosCubeSet := some [unreliableCube]
    throws := fun _ => false
    constants := constants }

/-- A flow with one connection, as the source holds it once the kernel has
answered with cep-id 7. -/
def flow : Flow :=
  { Flow.new with
    source_naming_info_ := sourceName
    destination_naming_info_ := destinationName
    source_port_id_ := 430
    source_address_ := 10
    destination_address_ := 20
    connections_ := [{ Connection.new with portId := 430, sourceAddress := 10, destAddress := 20,
                                           qosId := 1, sourceCepId := 7 }]
    state_ := Flow.ALLOCATION_IN_PROGRESS
    flow_specification_ := flowSpec
    max_create_flow_retries_ := 1
    hop_count_ := 3
    source_ := true }

/-- The environment `env` with a directory that has no entry for any name. -/
def envDirectoryMiss : Env := { env with getDFTNextHop := fun _ => 0 }

/-- The environment `env` in which `allocatePortId` throws. -/
def envNoPortId : Env :=
  { env with throws := fun e => match e with
                                | Effect.allocatePortId _ => true
                                | _ => false }

/-- The environment `env` in which the kernel's `createConnection` throws. -/
def envKernelRefuses : Env :=
  { env with throws := fun e => match e with
                                | Effect.createConnection _ => true
                                | _ => false }

/-- The instance registered under port-id 430 once
`FlowAllocator::submitAllocateRequest` has run on `request` in `env`. -/
def requested : FlowAllocatorInstance :=
  ((FlowAllocatorInstance.new 430).submitAllocateRequest env { request with portId := 430 }).fai

/-- The first step of the runs below: the application's allocate request. -/
def allocate : Env × Operation := (env, Operation.submitAllocateRequest request)

/-- The kernel's answer to the create-connection request: cep-id 7. -/
def connectionCreated : Env × Operation :=
  (env, Operation.processCreateConnectionResponseEvent ⟨430, 7⟩)

/-- The instance under port-id 430 once the create request has been sent to
the peer (MESSAGE_TO_PEER_FAI_SENT). -/
def sent : FlowAllocatorInstance :=
  (requested.processCreateConnectionResponseEvent env ⟨430, 7⟩).fai

/-- The flow the destination returns in its positive response: destination
port-id 77 and destination cep-id 9. -/
def responseFlow : Flow :=
  { flow with
    destination_port_id_ := 77
    connections_ := [{ Connection.new with portId := 430, sourceAddress := 10, destAddress := 20,
                                           qosId := 1, sourceCepId := 7, destCepId := 9 }] }

/-- The peer's positive answer to the create request. -/
def peerAccepted : Env × Operation :=
  (env, Operation.createResponse 430 0 "" (some responseFlow))

/-- The instance under port-id 430 once the kernel has been asked to update
the connection (CONNECTION_UPDATE_REQUESTED). -/
def updating : FlowAllocatorInstance :=
  (sent.createResponse env 0 "" (some responseFlow)).fai

/-- The kernel's positive answer to the update request. -/
def connectionUpdated : Env × Operation :=
  (env, Operation.processUpdateConnectionResponseEvent ⟨430, 0⟩)

/-- The instance under port-id 430 once the flow is allocated at the source
(FLOW_ALLOCATED). -/
def allocated : FlowAllocatorInstance :=
  (updating.processUpdateConnectionResponseEvent env ⟨430, 0⟩).fai

/-- The IPC process at address 20, the destination of the literal scenario:
its directory answers 20 for every name and port-id 77 is handed out. -/
def envDestination : Env := { env with address := 20, allocatePortId := fun _ => 77 }

/-- The name of the Flow object of the literal scenario. -/
def flowName : String := "/dif/resourceallocation/flowallocator/flows/10-430"

/-- The create request of the source arriving at the destination, with invoke
id 1 over the CDAP session 3. -/
def createArrived : Env × Operation :=
  (envDestination, Operation.createFlowRequestMessageReceived flow flowName 1 3)

/-- The instance under port-id 77 at the destination once the kernel has been
asked to create the connection (CONNECTION_CREATE_REQUESTED). -/
def arrived : FlowAllocatorInstance :=
  ((FlowAllocatorInstance.new 77).createFlowRequestMessageReceived envDestination flow flowName
    1 3).fai

/-- The destination kernel's answer: cep-id 9. -/
def connectionArrived : Env × Operation :=
  (envDestination, Operation.processCreateConnectionResultEvent ⟨77, 9, 0⟩)

/-- The instance under port-id 77 once the application has been notified
(APP_NOTIFIED_OF_INCOMING_FLOW). -/
def notified : FlowAllocatorInstance :=
  (arrived.processCreateConnectionResultEvent envDestination ⟨77, 9, 0⟩).fai

/-- The flow the source's instance holds once the flow is allocated. -/
def allocatedFlow : Flow :=
  { flow with
    destination_port_id_ := 77
    state_ := Flow.ALLOCATED
    connections_ :=
      [{ portId := 430, sourceAddress := 10, destAddress := 20, qosId := 1, sourceCepId := 7,
         destCepId := 9, flowUserIpcProcessId := 1,
         policies :=
           { dtcp_present_ := false,
             dtcp_configuration_ := { flow_control_ := false, rtx_control_ := false },
             in_order_delivery_ := false, partial_delivery_ := true,
             max_sdu_gap_ := 2147483647 } }] }

/-- The IPC process of the destination when its Security Manager denies every
flow. -/
def envDenies : Env :=
  { envDestination with acceptFlow := fun _ => false }

/-- The flow of the literal scenario on its last hop. -/
def hopExpiring : Flow := { flow with hop_count_ := 1 }

/-- A QoS cube with DTCP and retransmission control. -/
def reliableCube : QoSCube :=
  { name_ := "reliable", id_ := 2
    efcp_policies_ := ⟨true, ⟨true, true⟩, true, false, 0⟩
    ordered_delivery_ := true, partial_delivery_ := false, max_allowable_gap_ := 0
    jitter_ := 0, delay_ := 0, average_bandwidth_ := 0 }

/-- A flow specification that allows no gap. -/
def reliableSpec : FlowSpecification := { flowSpec with maxAllowableGap := 0 }

/-- The IPC process of address 10 with a catalogue of two cubes. -/
def envTwoCubes : Env := { env with qosCubeSet := some [unreliableCube, reliableCube] }

/-- The IPC process of address 10 when the QoS cube set has no children. -/
def envNoCubes : Env := { env with qosCubeSet := some [] }

/-- The IPC process of address 10 when the RIB holds no QoS cube set. -/
def envNoCubeSet : Env := { env with qosCubeSet := none }

/-- The application of the source deallocates the flow. -/
def deallocate : Env × Operation := (env, Operation.submitDeallocate ⟨430, 12⟩)

/-- The source's instance while it waits for the tear-down timer. -/
def tearingDown : FlowAllocatorInstance := (allocated.submitDeallocate env ⟨430, 12⟩).fai

/-- A codec like `encoder` whose serialized object carries, next to the
message, what `ParseFromArray` is to answer for it. -/
def flaggedEncoder : Encoder ApplicationProcessNamingInformation FlowSpecification
    ConnectionPolicies
    (Bool × messages.Flow ApplicationProcessNamingInformation FlowSpecification
      ConnectionPolicies) :=
  { get_applicationProcessNamingInfo_t := fun n => n
    get_ApplicationProcessNamingInformation := fun n => n
    get_qosSpecification_t := fun q => q
    get_FlowSpecification := fun q => q
    get_connectionPolicies_t := fun p => p
    get_ConnectionPolicies := fun p => p
    get_Connection := fun c =>
      { Connection.new with qosId := c.qosid, sourceCepId := c.sourcecepid,
                            destCepId := c.destinationcepid }
    SerializeToArray := fun m => (true, m)
    ParseFromArray := fun b => b }

/-- An input that `ParseFromArray` of `flaggedEncoder` refuses, leaving behind
the fields of `flow` it had read. -/
def refusedInput : Bool × messages.Flow ApplicationProcessNamingInformation FlowSpecification
    ConnectionPolicies :=
  (false, FlowEncoder.gpf_flow flaggedEncoder flow
    { Connection.new with portId := 430, sourceAddress := 10, destAddress := 20, qosId := 1,
                          sourceCepId := 7 })

/-- A `remove_child` that takes out the first child of the given name and
throws when there is none. -/
def remove_child (children : List QoSCubeRIBObject) (name : String) :
    Except Fault (List QoSCubeRIBObject) :=
  if children.any (fun child => child.name_ == name) then
    .ok (children.eraseP fun child => child.name_ == name)
  else .error (.exception "Unknown child object")

/-- The QoS cube set after a DIF configuration with two cubes was set. -/
def cubeSet : QoSCubeSetRIBObject :=
  { children_ := [⟨"/dif/management/flowallocator/qoscubes/unreliable", unreliableCube⟩,
                  ⟨"/dif/management/flowallocator/qoscubes/reliable", reliableCube⟩] }

/-- The environment `env` in which the kernel's `updateConnection` throws. -/
def envUpdateRefused : Env :=
  { env with throws := fun e => match e with
                                | Effect.updateConnection _ => true
                                | _ => false }

/-- The environment `env` when no CDAP session is open. -/
def envNoSession : Env := { env with getAllCDAPSessionIds := [] }

/-- What the peer decodes from a flow that was encoded with `encoder`. -/
def overTheWire (flow : Flow) : Option Flow :=
  match FlowEncoder.encode encoder flow with
  | .error _ => none
  | .ok bytes =>
    match FlowEncoder.decode encoder bytes with
    | .error _ => none
    | .ok decoded => some decoded

/-- The happy path between the IPC process of address 10 (source, port-id 430)
and the one of address 20 (destination, port-id 77): the kernel of the source
assigns cep-id `s`, the kernel of the destination assigns cep-id `d`, the
application of the destination accepts, and each `Flow` sent is encoded and
decoded.  The result is the active connection of the source's flow after its
`createResponse`. -/
def twoPeers (s d : Int) : Option Connection := do
  let created := requested.processCreateConnectionResponseEvent env ⟨430, s⟩
  let request ← (created.effects.head? >>= Effect.objectValue) >>= overTheWire
  let arrived := (FlowAllocatorInstance.new 77).createFlowRequestMessageReceived envDestination
    request created.fai.object_name_ 1 3
  let notified := arrived.fai.processCreateConnectionResultEvent envDestination ⟨77, d, s⟩
  let accepted := notified.fai.submitAllocateResponse envDestination ⟨5, 0⟩
  let response ← (accepted.effects.head? >>= Effect.objectValue) >>= overTheWire
  let answered := created.fai.createResponse env 0 "" (some response)
  answered.fai.flow_ >>= Flow.getActiveConnection

/-- An application of the IPC process of address 20 that asks for a flow. -/
def clientName : ApplicationProcessNamingInformation := ⟨"/apps/test/client", "1", "", ""⟩

/-- The application at address 30 that `clientName` asks for. -/
def serverName : ApplicationProcessNamingInformation := ⟨"/apps/test/server", "1", "", ""⟩

/-- The IPC process of address 20 when it serves both a local requestor and an
incoming flow: `destinationName` is registered here and gets port-id 77, any
other application gets port-id 5 and is reached through address 30, and the
IPC Manager hands out handle 0. -/
def envBusy : Env :=
  { env with
    address := 20
    getDFTNextHop := fun n => if n = destinationName then 20 else 30
    allocatePortId := fun n => if n = destinationName then 77 else 5
    allocateFlowRequestArrived := fun _ _ _ _ => 0 }

/-- At address 20: `clientName` asks for a flow to `serverName`, then the
create request of the literal scenario arrives and the kernel creates its
connection. -/
def busy : List (Env × Operation) :=
  [(envBusy, Operation.submitAllocateRequest
      { request with localApplicationName := clientName, remoteApplicationName := serverName }),
   (envBusy, Operation.createFlowRequestMessageReceived flow flowName 1 3),
   (envBusy, Operation.processCreateConnectionResultEvent ⟨77, 9, 7⟩)]

end Sample

/-! # Theorems -/

/-! ## Lists -/

theorem Flow.get?_set_same {α : Type} (l : List α) (i : Nat) (x : α) (h : i < l.length) :
    (l.set i x).get? i = some x := by
  induction l generalizing i with
  | nil => simp at h
  | cons a rest ih =>
    cases i with
    | zero => rfl
    | succ j => exact ih j (by simpa using h)

theorem Flow.getActiveConnection_isSome (f : Flow)
    (h : f.current_connection_index_ < f.connections_.length) :
    f.getActiveConnection = some (f.connections_.get ⟨f.current_connection_index_, h⟩) := by
  unfold Flow.getActiveConnection
  simp [List.get?_eq_get h]

theorem Flow.getActiveConnection_setActiveConnection (f : Flow) (a c : Connection)
    (h : f.getActiveConnection = some a) :
    (f.setActiveConnection c).getActiveConnection = some c := by
  unfold Flow.getActiveConnection at h
  have hlt : f.current_connection_index_ < f.connections_.length := by
    rcases List.get?_eq_some.mp h with ⟨hlt, _⟩
    exact hlt
  exact Flow.get?_set_same _ _ _ hlt

/-! ## The Flow codec -/

theorem FlowEncoder.triple_map_set (cs : List Connection) (i : Nat) (c : Connection)
    (h : ∀ d, cs.get? i = some d → FlowEncoder.triple c = FlowEncoder.triple d) :
    (cs.set i c).map FlowEncoder.triple = cs.map FlowEncoder.triple := by
  induction cs generalizing i with
  | nil => simp
  | cons a rest ih =>
    cases i with
    | zero =>
      simp only [List.set_cons_zero, List.map_cons, List.cons.injEq, and_true]
      exact h a (by simp)
    | succ j =>
      simp only [List.set_cons_succ, List.map_cons, List.cons.injEq, true_and]
      exact ih j (fun d hd => h d (by simpa using hd))

/-- C1.  For every Flow `f` whose `current_connection_index_` designates one of
its connections, and every codec whose helper conversions and serialisation are
lossless, `FlowEncoder::encode` yields a serialized object, `FlowEncoder::decode`
of it yields a Flow `g`, and `g` equals `f` on source naming, destination
naming, source and destination port-id, source and destination address, the
ordered list of (qos-id, source-cep-id, dest-cep-id) triples, the current
connection index, the state, the flow specification, the policies of the
active connection, max-create-flow-retries, create-flow-retries and hop-count. -/
theorem FlowEncoder.decode_encode_fields {N Q P Bytes : Type} (E : Encoder N Q P Bytes)
    (f : Flow)
    (hN : ∀ n, E.get_ApplicationProcessNamingInformation
      (E.get_applicationProcessNamingInfo_t n) = n)
    (hQ : ∀ q, E.get_FlowSpecification (E.get_qosSpecification_t q) = q)
    (hP : ∀ p, E.get_ConnectionPolicies (E.get_connectionPolicies_t p) = p)
    (hC : ∀ c, FlowEncoder.triple (E.get_Connection c) =
      (c.qosid, c.sourcecepid, c.destinationcepid))
    (hS : ∀ m, (E.ParseFromArray (E.SerializeToArray m)).2 = m)
    (hidx : f.current_connection_index_ < f.connections_.length) :
    ∃ bytes g a b, FlowEncoder.encode E f = .ok bytes ∧ FlowEncoder.decode E bytes = .ok g ∧
      g.source_naming_info_ = f.source_naming_info_ ∧
      g.destination_naming_info_ = f.destination_naming_info_ ∧
      g.source_port_id_ = f.source_port_id_ ∧
      g.destination_port_id_ = f.destination_port_id_ ∧
      g.source_address_ = f.source_address_ ∧
      g.destination_address_ = f.destination_address_ ∧
      g.connections_.map FlowEncoder.triple = f.connections_.map FlowEncoder.triple ∧
      g.current_connection_index_ = f.current_connection_index_ ∧
      g.state_ = f.state_ ∧
      g.flow_specification_ = f.flow_specification_ ∧
      f.getActiveConnection = some a ∧ g.getActiveConnection = some b ∧
      b.policies = a.policies ∧
      g.max_create_flow_retries_ = f.max_create_flow_retries_ ∧
      g.create_flow_retries_ = f.create_flow_retries_ ∧
      g.hop_count_ = f.hop_count_ := by
  have hact := Flow.getActiveConnection_isSome f hidx
  set a := f.connections_.get ⟨f.current_connection_index_, hidx⟩ with ha
  have hlen : f.current_connection_index_ <
      ((FlowEncoder.connectionIds f.connections_).map E.get_Connection).length := by
    simp [FlowEncoder.connectionIds, hidx]
  have hmap : ((FlowEncoder.connectionIds f.connections_).map E.get_Connection).map
      FlowEncoder.triple = f.connections_.map FlowEncoder.triple := by
    simp only [FlowEncoder.connectionIds, List.map_map]
    apply List.map_congr_left
    intro c _
    simp only [Function.comp_apply, hC]
    rfl
  have hb := List.get?_eq_get hlen
  set b := ((FlowEncoder.connectionIds f.connections_).map E.get_Connection).get
    ⟨f.current_connection_index_, hlen⟩ with hbdef
  refine ⟨E.SerializeToArray (FlowEncoder.gpf_flow E f a), ?_⟩
  have hact2 : f.connections_.get? f.current_connection_index_ = some a := hact
  simp only [FlowEncoder.encode, FlowEncoder.decode, hS, FlowEncoder.gpf_flow,
    Flow.getActiveConnection, Flow.setActiveConnection, hb, hact2]
  refine ⟨_, a,
    { b with policies := E.get_ConnectionPolicies (E.get_connectionPolicies_t a.policies) },
    trivial, rfl, hN _, hN _, rfl, rfl, rfl, rfl, ?_, rfl, rfl, hQ _, ?_, ?_, hP _, rfl, rfl, rfl⟩
  · show (List.set _ _ _).map FlowEncoder.triple = _
    rw [FlowEncoder.triple_map_set _ _ _ ?_, hmap]
    intro d hd
    rw [hb] at hd
    cases hd
    rfl
  · rfl
  · exact Flow.get?_set_same _ _ _ hlen

/-- Witness of C1: the round trip of `Sample.flow` through `Sample.encoder`,
whose conversions and serialisation are lossless. -/
theorem FlowEncoder.decode_encode_fields_witness :
    (∀ n, Sample.encoder.get_ApplicationProcessNamingInformation
        (Sample.encoder.get_applicationProcessNamingInfo_t n) = n) ∧
      (∀ q, Sample.encoder.get_FlowSpecification (Sample.encoder.get_qosSpecification_t q) = q) ∧
      (∀ p, Sample.encoder.get_ConnectionPolicies
        (Sample.encoder.get_connectionPolicies_t p) = p) ∧
      (∀ c, FlowEncoder.triple (Sample.encoder.get_Connection c) =
        (c.qosid, c.sourcecepid, c.destinationcepid)) ∧
      (∀ m, (Sample.encoder.ParseFromArray (Sample.encoder.SerializeToArray m)).2 = m) ∧
      Sample.flow.current_connection_index_ < Sample.flow.connections_.length ∧
      ∃ bytes g a b, FlowEncoder.encode Sample.encoder Sample.flow = .ok bytes ∧
        FlowEncoder.decode Sample.encoder bytes = .ok g ∧
        g.source_naming_info_ = Sample.flow.source_naming_info_ ∧
        g.destination_naming_info_ = Sample.flow.destination_naming_info_ ∧
        g.source_port_id_ = Sample.flow.source_port_id_ ∧
        g.destination_port_id_ = Sample.flow.destination_port_id_ ∧
        g.source_address_ = Sample.flow.source_address_ ∧
        g.destination_address_ = Sample.flow.destination_address_ ∧
        g.connections_.map FlowEncoder.triple =
          Sample.flow.connections_.map FlowEncoder.triple ∧
        g.current_connection_index_ = Sample.flow.current_connection_index_ ∧
        g.state_ = Sample.flow.state_ ∧
        g.flow_specification_ = Sample.flow.flow_specification_ ∧
        Sample.flow.getActiveConnection = some a ∧ g.getActiveConnection = some b ∧
        b.policies = a.policies ∧
        g.max_create_flow_retries_ = Sample.flow.max_create_flow_retries_ ∧
        g.create_flow_retries_ = Sample.flow.create_flow_retries_ ∧
        g.hop_count_ = Sample.flow.hop_count_ :=
  ⟨fun _ => rfl, fun _ => rfl, fun _ => rfl, fun _ => rfl, fun _ => rfl, by decide,
    FlowEncoder.decode_encode_fields Sample.encoder Sample.flow (fun _ => rfl) (fun _ => rfl)
      (fun _ => rfl) (fun _ => rfl) (fun _ => rfl) (by decide)⟩

/-! ## The registry -/

theorem Registry.find_put (r : Registry) (k j : Int) (v : FlowAllocatorInstance) :
    Registry.find (Registry.put r k v) j = if j = k then some v else Registry.find r j := by
  induction r with
  | nil =>
    simp only [Registry.put, Registry.find]
    by_cases h : j = k
    · simp [h]
    · have h2 : ¬ k = j := fun e => h e.symm
      simp [h, h2]
  | cons e rest ih =>
    obtain ⟨k0, v0⟩ := e
    simp only [Registry.put]
    by_cases h1 : k < k0
    · simp only [h1, if_true, Registry.find]
      by_cases h : j = k
      · simp [h]
      · have h2 : ¬ k = j := fun e => h e.symm
        simp [h, h2]
    · simp only [h1, if_false]
      by_cases h2 : k = k0
      · subst h2
        simp only [if_true, Registry.find]
        by_cases h : j = k
        · simp [h]
        · have h3 : ¬ k = j := fun e => h e.symm
          simp [h, h3]
      · simp only [h2, if_false, Registry.find, ih]
        by_cases h : j = k
        · subst h
          have h3 : ¬ k0 = j := fun e => h2 e.symm
          simp [h3]
        · simp [h]

theorem Registry.find_erase (r : Registry) (k j : Int) :
    Registry.find (Registry.erase r k) j = if j = k then none else Registry.find r j := by
  induction r with
  | nil => simp [Registry.erase, Registry.find]
  | cons e rest ih =>
    obtain ⟨k0, v0⟩ := e
    simp only [Registry.erase]
    by_cases h1 : k0 = k
    · subst h1
      simp only [if_true, ih, Registry.find]
      by_cases h : j = k0
      · simp [h]
      · have h3 : ¬ k0 = j := fun e => h e.symm
        simp [h, h3]
    · simp only [h1, if_false, Registry.find, ih]
      by_cases h : j = k
      · subst h
        simp [h1]
      · simp [h]

theorem Registry.find_write (r : Registry) (k j : Int) (v : FlowAllocatorInstance) :
    Registry.find (Registry.write r k v) j =
      if j = k then (Registry.find r k).map (fun _ => v) else Registry.find r j := by
  induction r with
  | nil => simp [Registry.write, Registry.find]
  | cons e rest ih =>
    obtain ⟨k0, v0⟩ := e
    simp only [Registry.write]
    by_cases h1 : k0 = k
    · subst h1
      simp only [if_true, Registry.find]
      by_cases h : j = k0
      · simp [h]
      · have h3 : ¬ k0 = j := fun e => h e.symm
        simp [h, h3]
    · simp only [h1, if_false, Registry.find, ih]
      by_cases h : j = k
      · subst h
        simp [h1]
      · simp [h]

theorem Registry.write_same (r : Registry) (k : Int) (v : FlowAllocatorInstance)
    (h : Registry.find r k = some v) : Registry.write r k v = r := by
  induction r with
  | nil => rfl
  | cons e rest ih =>
    obtain ⟨k0, v0⟩ := e
    simp only [Registry.write]
    by_cases h1 : k0 = k
    · simp only [Registry.find, h1, if_true, Option.some.injEq] at h
      simp [h1, h]
    · simp only [Registry.find, h1, if_false] at h
      simp [h1, ih h]

theorem Registry.keys_write (r : Registry) (k : Int) (v : FlowAllocatorInstance) :
    Registry.keys (Registry.write r k v) = Registry.keys r := by
  induction r with
  | nil => rfl
  | cons e rest ih =>
    obtain ⟨k0, v0⟩ := e
    simp only [Registry.write]
    split_ifs
    · rfl
    · simp only [Registry.keys, List.map_cons, List.cons.injEq, true_and] at ih ⊢
      exact ih

theorem Registry.keys_erase (r : Registry) (k : Int) :
    Registry.keys (Registry.erase r k) = (Registry.keys r).filter (fun j => decide (j ≠ k)) := by
  induction r with
  | nil => rfl
  | cons e rest ih =>
    obtain ⟨k0, v0⟩ := e
    simp only [Registry.erase]
    simp only [Registry.keys] at ih
    by_cases h : k0 = k
    · simp [h, ih, Registry.keys]
    · simp [h, ih, Registry.keys]

theorem Registry.mem_keys_put (r : Registry) (k j : Int) (v : FlowAllocatorInstance)
    (h : j ∈ Registry.keys (Registry.put r k v)) : j = k ∨ j ∈ Registry.keys r := by
  induction r with
  | nil =>
    simp only [Registry.put, Registry.keys, List.map_cons, List.map_nil, List.mem_singleton] at h
    exact Or.inl h
  | cons e rest ih =>
    obtain ⟨k0, v0⟩ := e
    simp only [Registry.put] at h
    split_ifs at h with h1 h2
    · simp only [Registry.keys, List.map_cons, List.mem_cons] at h ⊢
      exact h
    · simp only [Registry.keys, List.map_cons, List.mem_cons] at h ⊢
      rcases h with h | h
      · exact Or.inl h
      · exact Or.inr (Or.inr h)
    · simp only [Registry.keys, List.map_cons, List.mem_cons] at h ih ⊢
      rcases h with h | h
      · exact Or.inr (Or.inl h)
      · rcases ih h with h | h
        · exact Or.inl h
        · exact Or.inr (Or.inr h)

theorem Registry.ordered_put (r : Registry) (k : Int) (v : FlowAllocatorInstance)
    (h : Registry.ordered r) : Registry.ordered (Registry.put r k v) := by
  induction r with
  | nil => simp [Registry.put, Registry.ordered, Registry.keys]
  | cons e rest ih =>
    obtain ⟨k0, v0⟩ := e
    have hcons : (∀ j ∈ Registry.keys rest, k0 < j) ∧ Registry.ordered rest := by
      simpa [Registry.ordered, Registry.keys] using h
    simp only [Registry.put]
    split_ifs with h1 h2
    · simp only [Registry.ordered, Registry.keys, List.map_cons, List.pairwise_cons,
        List.mem_cons, forall_eq_or_imp]
      refine ⟨⟨h1, fun j hj => lt_trans h1 (hcons.1 j hj)⟩, ?_⟩
      simpa [Registry.ordered, Registry.keys] using h
    · subst h2
      simpa [Registry.ordered, Registry.keys] using h
    · simp only [Registry.ordered, Registry.keys, List.map_cons, List.pairwise_cons]
      refine ⟨fun j hj => ?_, ih hcons.2⟩
      rcases Registry.mem_keys_put rest k j v hj with hj | hj
      · subst hj
        omega
      · exact hcons.1 j hj

theorem Registry.ordered_erase (r : Registry) (k : Int) (h : Registry.ordered r) :
    Registry.ordered (Registry.erase r k) := by
  unfold Registry.ordered
  rw [Registry.keys_erase]
  exact List.Pairwise.filter _ h

theorem Registry.ordered_write (r : Registry) (k : Int) (v : FlowAllocatorInstance)
    (h : Registry.ordered r) : Registry.ordered (Registry.write r k v) := by
  unfold Registry.ordered
  rw [Registry.keys_write]
  exact h

theorem Registry.mem_keys_of_find (r : Registry) (k : Int) (v : FlowAllocatorInstance)
    (h : Registry.find r k = some v) : k ∈ Registry.keys r := by
  induction r with
  | nil => simp [Registry.find] at h
  | cons e rest ih =>
    obtain ⟨k0, v0⟩ := e
    simp only [Registry.find] at h
    simp only [Registry.keys, List.map_cons, List.mem_cons]
    split_ifs at h with h1
    · exact Or.inl h1.symm
    · exact Or.inr (ih h)

theorem FlowAllocator.find_of_findByHandle (r : Registry) (n : Nat) (k : Int)
    (v : FlowAllocatorInstance) (ho : Registry.ordered r)
    (h : FlowAllocator.findByHandle n r = some (k, v)) : Registry.find r k = some v := by
  induction r with
  | nil => simp [FlowAllocator.findByHandle] at h
  | cons e rest ih =>
    obtain ⟨k0, v0⟩ := e
    have hcons : (∀ j ∈ Registry.keys rest, k0 < j) ∧ Registry.ordered rest := by
      simpa [Registry.ordered, Registry.keys] using ho
    simp only [FlowAllocator.findByHandle] at h
    split_ifs at h with h1
    · simp only [Option.some.injEq, Prod.mk.injEq] at h
      simp [Registry.find, h.1, h.2]
    · have hrest := ih hcons.2 h
      have hlt := hcons.1 k (Registry.mem_keys_of_find rest k v hrest)
      have hne : ¬ k0 = k := by omega
      simp [Registry.find, hne, hrest]

/-! ## What every method of an instance guarantees -/

theorem FlowAllocatorInstance.handle_sound (fai : FlowAllocatorInstance) (env : Env)
    (ev : FaiEvent) : FaiOut.Sound fai (fai.handle env ev) := by
  cases ev <;>
    simp only [FlowAllocatorInstance.handle,
      FlowAllocatorInstance.processCreateConnectionResponseEvent,
      FlowAllocatorInstance.processCreateConnectionResultEvent,
      FlowAllocatorInstance.createResponse, FlowAllocatorInstance.createResponseUpdate,
      FlowAllocatorInstance.createResponseCatch,
      FlowAllocatorInstance.processUpdateConnectionResponseEvent,
      FlowAllocatorInstance.submitAllocateResponse, FlowAllocatorInstance.submitDeallocate,
      FlowAllocatorInstance.deleteFlowRequestMessageReceived,
      FlowAllocatorInstance.destroyFlowAllocatorInstance] <;>
    constructor
  all_goals first
    | (intro p
       repeat' split
       all_goals
        simp_all [FlowAllocatorInstance.returns, FlowAllocatorInstance.releaseUnlockRemove,
          FlowAllocatorInstance.throwsOut, FlowAllocatorInstance.undefinedOut,
          FlowAllocatorInstance.replyToIPCManager, FlowAllocatorInstance.releasePortId,
          List.count_cons])
    | (repeat' split
       all_goals rfl)
    | (repeat' split
       all_goals
        simp_all [FlowAllocatorInstance.returns, FlowAllocatorInstance.releaseUnlockRemove,
          FlowAllocatorInstance.throwsOut, FlowAllocatorInstance.undefinedOut,
          FAIState.listedEdge, FAIState.sourceEdge, FAIState.destinationEdge])

theorem FlowAllocator.find_settle (fa : FlowAllocator) (key j : Int) (out : FaiOut) :
    Registry.find (fa.settle key out).flow_allocator_instances_ j =
      if out.removed = true ∧ j = out.fai.port_id_ then none
      else if j = key then (Registry.find fa.flow_allocator_instances_ key).map (fun _ => out.fai)
      else Registry.find fa.flow_allocator_instances_ j := by
  unfold FlowAllocator.settle
  by_cases hr : out.removed = true
  · simp only [hr, if_true, FlowAllocator.removeFlowAllocatorInstance, Registry.find_erase,
      Registry.find_write, true_and]
  · simp only [hr, if_false, false_and]
    exact Registry.find_write _ _ _ _

theorem FlowAllocator.ordered_settle (fa : FlowAllocator) (key : Int) (out : FaiOut)
    (h : Registry.ordered fa.flow_allocator_instances_) :
    Registry.ordered (fa.settle key out).flow_allocator_instances_ := by
  unfold FlowAllocator.settle
  split_ifs
  · exact Registry.ordered_erase _ _ (Registry.ordered_write _ _ _ h)
  · exact Registry.ordered_write _ _ _ h

theorem FlowAllocator.delegate_fa (fa : FlowAllocator) (key : Int) (done after : List Effect)
    (out : FaiOut) : (FlowAllocator.delegate fa key done out after).fa = fa.settle key out := by
  unfold FlowAllocator.delegate
  split <;> rfl

theorem FlowAllocator.delegate_count (fa : FlowAllocator) (key : Int) (done after : List Effect)
    (out : FaiOut) (e : Effect) (hd : done.count e = 0) (ha : after.count e = 0) :
    (FlowAllocator.delegate fa key done out after).effects.count e = out.effects.count e := by
  unfold FlowAllocator.delegate
  split <;> simp [List.count_append, hd, ha]

theorem FlowAllocatorInstance.submitAllocateRequest_sound (p : Int) (env : Env)
    (event : FlowRequestEvent) :
    FaiOut.Sound (FlowAllocatorInstance.new p)
      ((FlowAllocatorInstance.new p).submitAllocateRequest env event) ∧
    ((FlowAllocatorInstance.new p).submitAllocateRequest env event).removed = false := by
  simp only [FlowAllocatorInstance.submitAllocateRequest]
  refine ⟨⟨?_, ?_, ?_⟩, ?_⟩
  · repeat' split
    all_goals rfl
  · repeat' split
    all_goals
      simp_all [FlowAllocatorInstance.returns, FlowAllocatorInstance.throwsOut,
        FlowAllocatorInstance.undefinedOut, FlowAllocatorInstance.new,
        FAIState.listedEdge, FAIState.sourceEdge, FAIState.destinationEdge]
  · intro q
    repeat' split
    all_goals
      simp_all [FlowAllocatorInstance.returns, FlowAllocatorInstance.throwsOut,
        FlowAllocatorInstance.undefinedOut, List.count_cons]
  · repeat' split
    all_goals rfl

theorem FlowAllocatorInstance.createFlowRequestMessageReceived_sound (p : Int) (env : Env)
    (flow : Flow) (object_name : String) (invoke_id underlyingPortId : Int) :
    FaiOut.Sound (FlowAllocatorInstance.new p)
      ((FlowAllocatorInstance.new p).createFlowRequestMessageReceived env flow object_name
        invoke_id underlyingPortId) := by
  simp only [FlowAllocatorInstance.createFlowRequestMessageReceived]
  refine ⟨?_, ?_, ?_⟩
  · repeat' split
    all_goals rfl
  · repeat' split
    all_goals
      simp_all [FlowAllocatorInstance.returns, FlowAllocatorInstance.throwsOut,
        FlowAllocatorInstance.releaseUnlockRemove, FlowAllocatorInstance.new,
        FAIState.listedEdge, FAIState.sourceEdge, FAIState.destinationEdge]
  · intro q
    repeat' split
    all_goals
      simp_all [FlowAllocatorInstance.returns, FlowAllocatorInstance.throwsOut,
        FlowAllocatorInstance.releaseUnlockRemove, FlowAllocatorInstance.releasePortId,
        FlowAllocatorInstance.new, List.count_cons]

theorem FlowAllocator.settle_state (fa : FlowAllocator) (key j : Int) (out : FaiOut)
    (fai f f' : FlowAllocatorInstance)
    (hfai : Registry.find fa.flow_allocator_instances_ key = some fai)
    (hs : FaiOut.Sound fai out)
    (h1 : Registry.find fa.flow_allocator_instances_ j = some f)
    (h2 : Registry.find (fa.settle key out).flow_allocator_instances_ j = some f') :
    f'.state_ = f.state_ ∨ FAIState.listedEdge f.state_ f'.state_ = true := by
  rw [FlowAllocator.find_settle] at h2
  split_ifs at h2 with ha hb
  · subst hb
    rw [hfai] at h1 h2
    cases h1
    cases h2
    exact hs.state
  · rw [h1] at h2
    cases h2
    exact Or.inl rfl

theorem FlowAllocator.settle_release (fa : FlowAllocator) (key j : Int) (out : FaiOut)
    (fai : FlowAllocatorInstance)
    (hfai : Registry.find fa.flow_allocator_instances_ key = some fai)
    (hs : FaiOut.Sound fai out)
    (h1 : Registry.find fa.flow_allocator_instances_ j ≠ none)
    (h2 : Registry.find (fa.settle key out).flow_allocator_instances_ j = none) :
    out.effects.count (Effect.deallocatePortId j) = 1 := by
  rw [FlowAllocator.find_settle] at h2
  split_ifs at h2 with ha hb
  · rw [hs.release j, if_pos ⟨ha.1, by rw [ha.2, hs.port]⟩]
  · subst hb
    rw [hfai] at h2
    cases h2
  · exact absurd h2 h1

/-- What an entry point that only acts on one registered instance, through
one of its methods, leaves behind. -/
theorem FlowAllocator.delegate_state (fa : FlowAllocator) (key j : Int) (out : FaiOut)
    (done after : List Effect) (fai f f' : FlowAllocatorInstance)
    (hfai : Registry.find fa.flow_allocator_instances_ key = some fai)
    (hs : FaiOut.Sound fai out)
    (h1 : Registry.find fa.flow_allocator_instances_ j = some f)
    (h2 : Registry.find (FlowAllocator.delegate fa key done out after).fa.flow_allocator_instances_ j
      = some f') :
    f'.state_ = f.state_ ∨ FAIState.listedEdge f.state_ f'.state_ = true := by
  rw [FlowAllocator.delegate_fa] at h2
  exact FlowAllocator.settle_state fa key j out fai f f' hfai hs h1 h2

theorem FlowAllocator.delegate_release (fa : FlowAllocator) (key j : Int) (out : FaiOut)
    (done after : List Effect) (fai : FlowAllocatorInstance)
    (hfai : Registry.find fa.flow_allocator_instances_ key = some fai)
    (hs : FaiOut.Sound fai out)
    (hd : done.count (Effect.deallocatePortId j) = 0)
    (ha : after.count (Effect.deallocatePortId j) = 0)
    (h1 : Registry.find fa.flow_allocator_instances_ j ≠ none)
    (h2 : Registry.find (FlowAllocator.delegate fa key done out after).fa.flow_allocator_instances_ j
      = none) :
    (FlowAllocator.delegate fa key done out after).effects.count (Effect.deallocatePortId j) = 1 := by
  rw [FlowAllocator.delegate_fa] at h2
  rw [FlowAllocator.delegate_count fa key done after out _ hd ha]
  exact FlowAllocator.settle_release fa key j out fai hfai hs h1 h2

theorem FAIState.listedEdge_from_NO_STATE (s : FAIState)
    (h : FAIState.listedEdge FAIState.NO_STATE s = true) :
    s = FAIState.CONNECTION_CREATE_REQUESTED := by
  cases s <;> simp_all [FAIState.listedEdge, FAIState.sourceEdge, FAIState.destinationEdge]

theorem FAIState.rank_lt_of_listedEdge (s t : FAIState) (h : FAIState.listedEdge s t = true) :
    s.rank < t.rank := by
  cases s <;> cases t <;>
    simp_all [FAIState.listedEdge, FAIState.sourceEdge, FAIState.destinationEdge, FAIState.rank]

/-- The state of an instance found after an entry point that registered a new
instance under `p` and ran `out` on it. -/
theorem FlowAllocator.created_state (fa : FlowAllocator) (p j : Int) (out : FaiOut)
    (f f' : FlowAllocatorInstance)
    (hs : FaiOut.Sound (FlowAllocatorInstance.new p) out)
    (h1 : Registry.find fa.flow_allocator_instances_ j = some f)
    (h2 : Registry.find (FlowAllocator.settle
      { fa with flow_allocator_instances_ :=
          fa.flow_allocator_instances_.put p (FlowAllocatorInstance.new p) } p
      out).flow_allocator_instances_ j = some f') :
    f'.state_ = f.state_ ∨
      (j = p ∧ (f'.state_ = FAIState.NO_STATE ∨
        f'.state_ = FAIState.CONNECTION_CREATE_REQUESTED)) := by
  rw [FlowAllocator.find_settle] at h2
  simp only [Registry.find_put] at h2
  split_ifs at h2 with ha hb
  · simp only [Option.map_some', Option.some.injEq] at h2
    subst h2
    refine Or.inr ⟨hb, ?_⟩
    rcases hs.state with h | h
    · exact Or.inl h
    · exact Or.inr (FAIState.listedEdge_from_NO_STATE _ h)
  · rw [h1] at h2
    cases h2
    exact Or.inl rfl

/-! ## One entry point of the flow allocator -/

theorem FlowAllocator.onInstance_state (fa : FlowAllocator) (p j : Int)
    (method : FlowAllocatorInstance → FaiOut) (f f' : FlowAllocatorInstance)
    (hm : ∀ fai, FaiOut.Sound fai (method fai))
    (h1 : Registry.find fa.flow_allocator_instances_ j = some f)
    (h2 : Registry.find (fa.onInstance p method).fa.flow_allocator_instances_ j = some f') :
    f'.state_ = f.state_ ∨ FAIState.listedEdge f.state_ f'.state_ = true := by
  unfold FlowAllocator.onInstance at h2
  split at h2
  · rw [h1] at h2
    cases h2
    exact Or.inl rfl
  · rename_i fai hfai
    exact FlowAllocator.delegate_state fa p j _ _ _ fai f f' hfai (hm fai) h1 h2

theorem FlowAllocator.step_state (fa : FlowAllocator) (env : Env) (op : Operation) (j : Int)
    (f f' : FlowAllocatorInstance)
    (ho : Registry.ordered fa.flow_allocator_instances_)
    (h1 : Registry.find fa.flow_allocator_instances_ j = some f)
    (h2 : Registry.find (fa.step env op).fa.flow_allocator_instances_ j = some f') :
    f'.state_ = f.state_ ∨ FAIState.listedEdge f.state_ f'.state_ = true ∨
      (op.registersUnder env = some j ∧ (f'.state_ = FAIState.NO_STATE ∨
        f'.state_ = FAIState.CONNECTION_CREATE_REQUESTED)) := by
  have weaken : (f'.state_ = f.state_ ∨ FAIState.listedEdge f.state_ f'.state_ = true) →
      (f'.state_ = f.state_ ∨ FAIState.listedEdge f.state_ f'.state_ = true ∨
      (op.registersUnder env = some j ∧ (f'.state_ = FAIState.NO_STATE ∨
        f'.state_ = FAIState.CONNECTION_CREATE_REQUESTED))) := by
    rintro (h | h)
    · exact Or.inl h
    · exact Or.inr (Or.inl h)
  cases op with
  | submitAllocateRequest event =>
    simp only [FlowAllocator.step, FlowAllocator.submitAllocateRequest] at h2
    simp only [Operation.registersUnder]
    have hs := FlowAllocatorInstance.submitAllocateRequest_sound
      (if env.throws (Effect.allocatePortId event.localApplicationName) then 0
        else env.allocatePortId event.localApplicationName) env
      { event with portId := if env.throws (Effect.allocatePortId event.localApplicationName)
          then 0 else env.allocatePortId event.localApplicationName }
    split at h2
    · split at h2 <;>
        (simp only [Registry.find_erase, Registry.find_put] at h2
         split_ifs at h2 <;> (rw [h1] at h2; cases h2; exact Or.inl rfl))
    · rw [FlowAllocator.delegate_fa] at h2
      rcases FlowAllocator.created_state fa _ j _ f f' hs.1 h1 h2 with h | h
      · exact Or.inl h
      · exact Or.inr (Or.inr ⟨by rw [h.1], h.2⟩)
  | createFlowRequestMessageReceived flow object_name invoke_id underlyingPortId =>
    simp only [FlowAllocator.step, FlowAllocator.createFlowRequestMessageReceived] at h2
    simp only [Operation.registersUnder]
    split_ifs at h2 with ha hb hc
    · rw [h1] at h2; cases h2; exact Or.inl rfl
    · rw [h1] at h2; cases h2; exact Or.inl rfl
    · rw [FlowAllocator.delegate_fa] at h2
      have hs := FlowAllocatorInstance.createFlowRequestMessageReceived_sound
        (env.allocatePortId flow.destination_naming_info_) env flow object_name invoke_id
        underlyingPortId
      rcases FlowAllocator.created_state fa _ j _ f f' hs h1 h2 with h | h
      · exact Or.inl h
      · refine Or.inr (Or.inr ⟨?_, h.2⟩)
        rw [if_neg ha, if_pos hb, if_neg hc, h.1]
    · rw [h1] at h2; cases h2; exact Or.inl rfl
  | processCreateConnectionResponseEvent event =>
    apply weaken
    simp only [FlowAllocator.step, FlowAllocator.processCreateConnectionResponseEvent] at h2
    split at h2
    · rename_i fai hfai
      exact FlowAllocator.delegate_state fa _ j _ _ _ fai f f' hfai
        (FlowAllocatorInstance.handle_sound fai env (.processCreateConnectionResponseEvent event))
        h1 h2
    · rw [h1] at h2; cases h2; exact Or.inl rfl
  | submitAllocateResponse event =>
    apply weaken
    simp only [FlowAllocator.step, FlowAllocator.submitAllocateResponse] at h2
    split at h2
    · rename_i key fai hfai
      exact FlowAllocator.delegate_state fa _ j _ _ _ fai f f'
        (FlowAllocator.find_of_findByHandle _ _ _ _ ho hfai)
        (FlowAllocatorInstance.handle_sound fai env (.submitAllocateResponse event)) h1 h2
    · rw [h1] at h2; cases h2; exact Or.inl rfl
  | processCreateConnectionResultEvent event =>
    apply weaken
    simp only [FlowAllocator.step, FlowAllocator.processCreateConnectionResultEvent] at h2
    split at h2
    · rw [h1] at h2; cases h2; exact Or.inl rfl
    · rename_i fai hfai
      exact FlowAllocator.delegate_state fa _ j _ _ _ fai f f' hfai
        (FlowAllocatorInstance.handle_sound fai env (.processCreateConnectionResultEvent event))
        h1 h2
  | processUpdateConnectionResponseEvent event =>
    apply weaken
    simp only [FlowAllocator.step, FlowAllocator.processUpdateConnectionResponseEvent] at h2
    split at h2
    · rw [h1] at h2; cases h2; exact Or.inl rfl
    · rename_i fai hfai
      exact FlowAllocator.delegate_state fa _ j _ _ _ fai f f' hfai
        (FlowAllocatorInstance.handle_sound fai env (.processUpdateConnectionResponseEvent event))
        h1 h2
  | submitDeallocate event =>
    apply weaken
    simp only [FlowAllocator.step, FlowAllocator.submitDeallocate] at h2
    split at h2
    · rw [h1] at h2; cases h2; exact Or.inl rfl
    · rename_i fai hfai
      exact FlowAllocator.delegate_state fa _ j _ _ _ fai f f' hfai
        (FlowAllocatorInstance.handle_sound fai env (.submitDeallocate event)) h1 h2
  | createResponse portId result result_reason object_value =>
    apply weaken
    exact FlowAllocator.onInstance_state fa portId j _ f f'
      (fun fai => FlowAllocatorInstance.handle_sound fai env
        (.createResponse result result_reason object_value)) h1 h2
  | deleteFlowRequestMessageReceived portId =>
    apply weaken
    exact FlowAllocator.onInstance_state fa portId j _ f f'
      (fun fai => FlowAllocatorInstance.handle_sound fai env .deleteFlowRequestMessageReceived)
      h1 h2
  | tearDownFlowTimerTaskRun portId =>
    apply weaken
    exact FlowAllocator.onInstance_state fa portId j _ f f'
      (fun fai => FlowAllocatorInstance.handle_sound fai env
        (.destroyFlowAllocatorInstance fai.object_name_ true)) h1 h2

theorem FlowAllocator.ordered_delegate (fa : FlowAllocator) (key : Int)
    (done after : List Effect) (out : FaiOut)
    (h : Registry.ordered fa.flow_allocator_instances_) :
    Registry.ordered (FlowAllocator.delegate fa key done out after).fa.flow_allocator_instances_ := by
  rw [FlowAllocator.delegate_fa]
  exact FlowAllocator.ordered_settle fa key out h

theorem FlowAllocator.ordered_step (fa : FlowAllocator) (env : Env) (op : Operation)
    (h : Registry.ordered fa.flow_allocator_instances_) :
    Registry.ordered (fa.step env op).fa.flow_allocator_instances_ := by
  cases op <;>
    simp only [FlowAllocator.step, FlowAllocator.submitAllocateRequest,
      FlowAllocator.createFlowRequestMessageReceived,
      FlowAllocator.processCreateConnectionResponseEvent, FlowAllocator.submitAllocateResponse,
      FlowAllocator.processCreateConnectionResultEvent,
      FlowAllocator.processUpdateConnectionResponseEvent, FlowAllocator.submitDeallocate,
      FlowAllocator.onInstance] <;>
    repeat' split
  all_goals first
    | exact h
    | exact FlowAllocator.ordered_delegate _ _ _ _ _ h
    | exact FlowAllocator.ordered_delegate _ _ _ _ _ (Registry.ordered_put _ _ _ h)
    | exact Registry.ordered_erase _ _ (Registry.ordered_put _ _ _ h)

theorem FlowAllocator.ordered_run (steps : List (Env × Operation)) (fa : FlowAllocator)
    (h : Registry.ordered fa.flow_allocator_instances_) :
    Registry.ordered (fa.run steps).fa.flow_allocator_instances_ := by
  induction steps generalizing fa with
  | nil => exact h
  | cons s rest ih =>
    obtain ⟨env, op⟩ := s
    simp only [FlowAllocator.run]
    split
    · exact FlowAllocator.ordered_step fa env op h
    · exact ih _ (FlowAllocator.ordered_step fa env op h)

theorem FlowAllocator.ordered_new_run (steps : List (Env × Operation)) :
    Registry.ordered (FlowAllocator.new.run steps).fa.flow_allocator_instances_ :=
  FlowAllocator.ordered_run steps FlowAllocator.new (by simp [FlowAllocator.new, Registry.ordered, Registry.keys])

theorem FlowAllocator.onInstance_release (fa : FlowAllocator) (p j : Int)
    (method : FlowAllocatorInstance → FaiOut)
    (hm : ∀ fai, FaiOut.Sound fai (method fai))
    (h1 : Registry.find fa.flow_allocator_instances_ j ≠ none)
    (h2 : Registry.find (fa.onInstance p method).fa.flow_allocator_instances_ j = none) :
    (fa.onInstance p method).effects.count (Effect.deallocatePortId j) = 1 := by
  unfold FlowAllocator.onInstance at h2 ⊢
  split at h2
  · exact absurd h2 h1
  · rename_i fai hfai
    exact FlowAllocator.delegate_release fa p j _ _ _ fai hfai (hm fai) rfl rfl h1 h2

theorem FlowAllocator.step_release (fa : FlowAllocator) (env : Env) (op : Operation) (j : Int)
    (ho : Registry.ordered fa.flow_allocator_instances_)
    (h1 : Registry.find fa.flow_allocator_instances_ j ≠ none ∨ op.registersUnder env = some j)
    (h2 : Registry.find (fa.step env op).fa.flow_allocator_instances_ j = none)
    (h3 : ∀ what, (fa.step env op).completion ≠ Completion.undefinedBehaviour what) :
    (fa.step env op).effects.count (Effect.deallocatePortId j) = 1 := by
  cases op with
  | submitAllocateRequest event =>
    simp only [FlowAllocator.step, FlowAllocator.submitAllocateRequest] at h2 h3 ⊢
    simp only [Operation.registersUnder] at h1
    have hdone : (if env.throws (Effect.allocatePortId event.localApplicationName) = true then
        [Effect.allocatePortId event.localApplicationName] ++
          FlowAllocator.replyToIPCManager event (-1)
        else [Effect.allocatePortId event.localApplicationName]).count
        (Effect.deallocatePortId j) = 0 := by
      split_ifs <;> simp [FlowAllocator.replyToIPCManager, List.count_cons]
    generalize (if env.throws (Effect.allocatePortId event.localApplicationName) = true then
        [Effect.allocatePortId event.localApplicationName] ++
          FlowAllocator.replyToIPCManager event (-1)
        else [Effect.allocatePortId event.localApplicationName]) = done at hdone h2 h3 ⊢
    generalize (if env.throws (Effect.allocatePortId event.localApplicationName) = true then
        (0 : Int) else env.allocatePortId event.localApplicationName) = p at h1 h2 h3 ⊢
    have hs := FlowAllocatorInstance.submitAllocateRequest_sound p env { event with portId := p }
    have hrel := hs.1.release j
    rw [hs.2] at hrel
    simp only [Bool.false_eq_true, false_and, if_false] at hrel
    have hjp : j ≠ p → Registry.find fa.flow_allocator_instances_ j ≠ none := by
      intro hj
      rcases h1 with h1 | h1
      · exact h1
      · exact absurd (Option.some.inj h1).symm hj
    revert h2 h3
    cases hc : ((FlowAllocatorInstance.new p).submitAllocateRequest env
        { event with portId := p }).completion with
    | threw what =>
      cases hf : ((FlowAllocatorInstance.new p).submitAllocateRequest env
          { event with portId := p }).fai.flow_ with
      | none =>
        intro _ h3
        exact absurd rfl (h3 flowNotSetAtDelete)
      | some flow =>
        intro h2 _
        simp only [Registry.find_erase, Registry.find_put] at h2
        by_cases hj : j = p
        · subst hj
          simp [List.count_append, hrel, hdone, FlowAllocator.replyToIPCManager,
            List.count_cons]
        · rw [if_neg hj, if_neg hj] at h2
          exact absurd h2 (hjp hj)
    | returned =>
      intro h2 _
      rw [FlowAllocator.delegate_fa, FlowAllocator.find_settle] at h2
      simp only [hs.2, Bool.false_eq_true, false_and, if_false, Registry.find_put] at h2
      split_ifs at h2 with ha
      · simp at h2
      · exact absurd h2 (hjp ha)
    | undefinedBehaviour what =>
      intro h2 _
      rw [FlowAllocator.delegate_fa, FlowAllocator.find_settle] at h2
      simp only [hs.2, Bool.false_eq_true, false_and, if_false, Registry.find_put] at h2
      split_ifs at h2 with ha
      · simp at h2
      · exact absurd h2 (hjp ha)
  | createFlowRequestMessageReceived flow object_name invoke_id underlyingPortId =>
    simp only [FlowAllocator.step, FlowAllocator.createFlowRequestMessageReceived] at h2 ⊢
    simp only [Operation.registersUnder] at h1
    split_ifs at h1 h2 ⊢ with ha hb hc
    · exact absurd h2 (by simpa using h1)
    · exact absurd h2 (by simpa using h1)
    · have hs := FlowAllocatorInstance.createFlowRequestMessageReceived_sound
        (env.allocatePortId flow.destination_naming_info_) env flow object_name invoke_id
        underlyingPortId
      rw [FlowAllocator.delegate_count _ _ _ _ _ _ (by simp [List.count_cons])
        (List.count_nil _)]
      rw [FlowAllocator.delegate_fa, FlowAllocator.find_settle] at h2
      simp only [Registry.find_put] at h2
      split_ifs at h2 with hd he
      · rw [hs.release j, if_pos ⟨hd.1, by rw [hd.2, hs.port]⟩]
      · simp at h2
      · rcases h1 with h1 | h1
        · exact absurd h2 h1
        · exact absurd (Option.some.inj h1).symm he
    · exact absurd h2 (by simpa using h1)
  | processCreateConnectionResponseEvent event =>
    have h1 : Registry.find fa.flow_allocator_instances_ j ≠ none := by
      simpa [Operation.registersUnder] using h1
    simp only [FlowAllocator.step, FlowAllocator.processCreateConnectionResponseEvent] at h2 ⊢
    split at h2
    · rename_i fai hfai
      exact FlowAllocator.delegate_release fa _ j _ _ _ fai hfai
        (FlowAllocatorInstance.handle_sound fai env (.processCreateConnectionResponseEvent event))
        rfl rfl h1 h2
    · exact absurd h2 h1
  | submitAllocateResponse event =>
    have h1 : Registry.find fa.flow_allocator_instances_ j ≠ none := by
      simpa [Operation.registersUnder] using h1
    simp only [FlowAllocator.step, FlowAllocator.submitAllocateResponse] at h2 ⊢
    split at h2
    · rename_i key fai hfai
      exact FlowAllocator.delegate_release fa _ j _ _ _ fai
        (FlowAllocator.find_of_findByHandle _ _ _ _ ho hfai)
        (FlowAllocatorInstance.handle_sound fai env (.submitAllocateResponse event)) rfl rfl h1 h2
    · exact absurd h2 h1
  | processCreateConnectionResultEvent event =>
    have h1 : Registry.find fa.flow_allocator_instances_ j ≠ none := by
      simpa [Operation.registersUnder] using h1
    simp only [FlowAllocator.step, FlowAllocator.processCreateConnectionResultEvent] at h2 ⊢
    split at h2
    · exact absurd h2 h1
    · rename_i fai hfai
      exact FlowAllocator.delegate_release fa _ j _ _ _ fai hfai
        (FlowAllocatorInstance.handle_sound fai env (.processCreateConnectionResultEvent event))
        rfl rfl h1 h2
  | processUpdateConnectionResponseEvent event =>
    have h1 : Registry.find fa.flow_allocator_instances_ j ≠ none := by
      simpa [Operation.registersUnder] using h1
    simp only [FlowAllocator.step, FlowAllocator.processUpdateConnectionResponseEvent] at h2 ⊢
    split at h2
    · exact absurd h2 h1
    · rename_i fai hfai
      exact FlowAllocator.delegate_release fa _ j _ _ _ fai hfai
        (FlowAllocatorInstance.handle_sound fai env (.processUpdateConnectionResponseEvent event))
        rfl rfl h1 h2
  | submitDeallocate event =>
    have h1 : Registry.find fa.flow_allocator_instances_ j ≠ none := by
      simpa [Operation.registersUnder] using h1
    simp only [FlowAllocator.step, FlowAllocator.submitDeallocate] at h2 ⊢
    split at h2
    · exact absurd h2 h1
    · rename_i fai hfai
      exact FlowAllocator.delegate_release fa _ j _ _ _ fai hfai
        (FlowAllocatorInstance.handle_sound fai env (.submitDeallocate event))
        rfl (by simp [List.count_cons]) h1 h2
  | createResponse portId result result_reason object_value =>
    have h1 : Registry.find fa.flow_allocator_instances_ j ≠ none := by
      simpa [Operation.registersUnder] using h1
    exact FlowAllocator.onInstance_release fa portId j _
      (fun fai => FlowAllocatorInstance.handle_sound fai env
        (.createResponse result result_reason object_value)) h1 h2
  | deleteFlowRequestMessageReceived portId =>
    have h1 : Registry.find fa.flow_allocator_instances_ j ≠ none := by
      simpa [Operation.registersUnder] using h1
    exact FlowAllocator.onInstance_release fa portId j _
      (fun fai => FlowAllocatorInstance.handle_sound fai env .deleteFlowRequestMessageReceived)
      h1 h2
  | tearDownFlowTimerTaskRun portId =>
    have h1 : Registry.find fa.flow_allocator_instances_ j ≠ none := by
      simpa [Operation.registersUnder] using h1
    exact FlowAllocator.onInstance_release fa portId j _
      (fun fai => FlowAllocatorInstance.handle_sound fai env
        (.destroyFlowAllocatorInstance fai.object_name_ true)) h1 h2

/-! ## Registered instances are well formed -/

theorem FlowAllocatorInstance.wellFormed_of_flow (fai : FlowAllocatorInstance) (flow : Flow)
    (connection : Connection) (hf : fai.flow_ = some flow)
    (hc : flow.getActiveConnection = some connection) : fai.wellFormed :=
  Or.inr ⟨flow, connection, hf, hc⟩

theorem FlowAllocatorInstance.handle_wellFormed (fai : FlowAllocatorInstance) (env : Env)
    (ev : FaiEvent) (h : fai.wellFormed) : (fai.handle env ev).fai.wellFormed := by
  rcases h with h | ⟨flow, connection, hf, hc⟩
  · have hne : fai.state_ ≠ ev.expected := by
      rw [h]
      cases ev <;> simp [FaiEvent.expected]
    have hout : (fai.handle env ev).fai = fai := by
      cases ev <;>
        simp only [FaiEvent.expected] at hne <;>
        simp [FlowAllocatorInstance.handle,
          FlowAllocatorInstance.processCreateConnectionResponseEvent,
          FlowAllocatorInstance.processCreateConnectionResultEvent,
          FlowAllocatorInstance.createResponse,
          FlowAllocatorInstance.processUpdateConnectionResponseEvent,
          FlowAllocatorInstance.submitAllocateResponse, FlowAllocatorInstance.submitDeallocate,
          FlowAllocatorInstance.deleteFlowRequestMessageReceived,
          FlowAllocatorInstance.destroyFlowAllocatorInstance, FlowAllocatorInstance.returns, hne]
    rw [hout]
    exact Or.inl h
  · have hsame : ∀ f : FlowAllocatorInstance, f.flow_ = some flow → f.wellFormed :=
      fun f h1 => Or.inr ⟨flow, connection, h1, hc⟩
    have hset : ∀ (f : FlowAllocatorInstance) (fl : Flow) (c : Connection),
        f.flow_ = some fl → fl.getActiveConnection = some c → f.wellFormed :=
      fun f fl c h1 h2 => Or.inr ⟨fl, c, h1, h2⟩
    cases ev <;>
      simp only [FlowAllocatorInstance.handle,
        FlowAllocatorInstance.processCreateConnectionResponseEvent,
        FlowAllocatorInstance.processCreateConnectionResultEvent,
        FlowAllocatorInstance.createResponse, FlowAllocatorInstance.createResponseUpdate,
        FlowAllocatorInstance.createResponseCatch,
        FlowAllocatorInstance.processUpdateConnectionResponseEvent,
        FlowAllocatorInstance.submitAllocateResponse, FlowAllocatorInstance.submitDeallocate,
        FlowAllocatorInstance.deleteFlowRequestMessageReceived,
        FlowAllocatorInstance.destroyFlowAllocatorInstance, hf, hc,
        FlowAllocatorInstance.returns, FlowAllocatorInstance.releaseUnlockRemove,
        FlowAllocatorInstance.throwsOut, FlowAllocatorInstance.undefinedOut] <;>
      repeat' split
    all_goals first
      | exact hsame _ hf
      | exact hset _ _ _ rfl hc
      | exact hset _ _ _ rfl (Flow.getActiveConnection_setActiveConnection _ _ _ hc)

theorem FlowAllocatorInstance.submitAllocateRequest_wellFormed (p : Int) (env : Env)
    (event : FlowRequestEvent) :
    ((FlowAllocatorInstance.new p).submitAllocateRequest env event).fai.wellFormed := by
  simp only [FlowAllocatorInstance.submitAllocateRequest]
  split
  · exact Or.inl rfl
  · exact Or.inl rfl
  · split
    · exact Or.inl rfl
    · rename_i flow hgen active hactive
      have hset := Flow.getActiveConnection_setActiveConnection _ _
        { active with destAddress := env.getDFTNextHop event.remoteApplicationName } hactive
      split_ifs
      · exact Or.inl rfl
      · exact Or.inl rfl
      · split
        · rename_i hnone
          exact absurd (hset.symm.trans hnone) (by simp)
        · split_ifs <;> exact Or.inr ⟨_, _, rfl, hset⟩

theorem FlowAllocatorInstance.createFlowRequestMessageReceived_wellFormed (p : Int) (env : Env)
    (flow : Flow) (object_name : String) (invoke_id underlyingPortId : Int) :
    ((FlowAllocatorInstance.new p).createFlowRequestMessageReceived env flow object_name
      invoke_id underlyingPortId).fai.wellFormed := by
  by_cases h0 : flow.destination_address_ = 0
  · simp only [FlowAllocatorInstance.createFlowRequestMessageReceived, h0, if_true]
    split
    · exact Or.inl rfl
    · rename_i connection hc
      repeat' split
      all_goals
        exact Or.inr ⟨_, _, rfl, Flow.getActiveConnection_setActiveConnection _ _ _ hc⟩
  · simp only [FlowAllocatorInstance.createFlowRequestMessageReceived, h0, if_false]
    split
    · exact Or.inl rfl
    · rename_i connection hc
      repeat' split
      all_goals
        exact Or.inr ⟨_, _, rfl, Flow.getActiveConnection_setActiveConnection _ _ _ hc⟩

/-! A property of registered instances that every method keeps holds in every
state the flow allocator reaches. -/

theorem FlowAllocator.invariant_settle (P : Int → FlowAllocatorInstance → Prop)
    (fa : FlowAllocator) (key : Int) (out : FaiOut) (hout : P key out.fai)
    (h : ∀ j fai, Registry.find fa.flow_allocator_instances_ j = some fai → P j fai) :
    ∀ j fai, Registry.find (fa.settle key out).flow_allocator_instances_ j = some fai →
      P j fai := by
  intro j fai hj
  rw [FlowAllocator.find_settle] at hj
  split_ifs at hj with ha hb
  · cases hfind : Registry.find fa.flow_allocator_instances_ key with
    | none => rw [hfind] at hj; cases hj
    | some v =>
      rw [hfind] at hj
      cases hj
      rw [hb]
      exact hout
  · exact h j fai hj

theorem FlowAllocator.invariant_put_new (P : Int → FlowAllocatorInstance → Prop)
    (hnew : ∀ p, P p (FlowAllocatorInstance.new p)) (fa : FlowAllocator) (p : Int)
    (h : ∀ j fai, Registry.find fa.flow_allocator_instances_ j = some fai → P j fai) :
    ∀ j fai, Registry.find (fa.flow_allocator_instances_.put p (FlowAllocatorInstance.new p)) j =
      some fai → P j fai := by
  intro j fai hj
  rw [Registry.find_put] at hj
  split_ifs at hj with hjp
  · cases hj
    rw [hjp]
    exact hnew p
  · exact h j fai hj

theorem FlowAllocator.invariant_onInstance (P : Int → FlowAllocatorInstance → Prop)
    (fa : FlowAllocator) (p : Int) (method : FlowAllocatorInstance → FaiOut)
    (hm : ∀ key fai, P key fai → P key (method fai).fai)
    (h : ∀ j fai, Registry.find fa.flow_allocator_instances_ j = some fai → P j fai) :
    ∀ j fai, Registry.find (fa.onInstance p method).fa.flow_allocator_instances_ j = some fai →
      P j fai := by
  unfold FlowAllocator.onInstance
  split
  · exact h
  · rename_i fai0 hfai0
    rw [FlowAllocator.delegate_fa]
    exact FlowAllocator.invariant_settle P fa p _ (hm p fai0 (h p fai0 hfai0)) h

theorem FlowAllocator.invariant_step (P : Int → FlowAllocatorInstance → Prop)
    (hnew : ∀ p, P p (FlowAllocatorInstance.new p))
    (hhandle : ∀ key fai env ev, P key fai → P key (FlowAllocatorInstance.handle fai env ev).fai)
    (hsubmit : ∀ p env event,
      P p ((FlowAllocatorInstance.new p).submitAllocateRequest env event).fai)
    (hcreate : ∀ p env flow object_name invoke_id underlyingPortId,
      P p ((FlowAllocatorInstance.new p).createFlowRequestMessageReceived env flow object_name
        invoke_id underlyingPortId).fai)
    (fa : FlowAllocator) (env : Env) (op : Operation)
    (ho : Registry.ordered fa.flow_allocator_instances_)
    (h : ∀ j fai, Registry.find fa.flow_allocator_instances_ j = some fai → P j fai) :
    ∀ j fai, Registry.find (fa.step env op).fa.flow_allocator_instances_ j = some fai →
      P j fai := by
  cases op with
  | submitAllocateRequest event =>
    simp only [FlowAllocator.step, FlowAllocator.submitAllocateRequest]
    generalize (if env.throws (Effect.allocatePortId event.localApplicationName) = true then
        (0 : Int) else env.allocatePortId event.localApplicationName) = p
    have h1 := FlowAllocator.invariant_put_new P hnew fa p h
    split
    · split <;>
        (intro j fai hj
         rw [Registry.find_erase] at hj
         split_ifs at hj
         exact h1 j fai hj)
    · rw [FlowAllocator.delegate_fa]
      exact FlowAllocator.invariant_settle P _ p _ (hsubmit p env _) h1
  | createFlowRequestMessageReceived flow object_name invoke_id underlyingPortId =>
    simp only [FlowAllocator.step, FlowAllocator.createFlowRequestMessageReceived]
    split_ifs
    · exact h
    · exact h
    · rw [FlowAllocator.delegate_fa]
      exact FlowAllocator.invariant_settle P _ _ _
        (hcreate _ env flow object_name invoke_id underlyingPortId)
        (FlowAllocator.invariant_put_new P hnew fa _ h)
    · exact h
  | processCreateConnectionResponseEvent event =>
    simp only [FlowAllocator.step, FlowAllocator.processCreateConnectionResponseEvent]
    split
    · rename_i fai0 hfai0
      rw [FlowAllocator.delegate_fa]
      exact FlowAllocator.invariant_settle P fa _ _
        (hhandle _ fai0 env (.processCreateConnectionResponseEvent event) (h _ fai0 hfai0)) h
    · exact h
  | submitAllocateResponse event =>
    simp only [FlowAllocator.step, FlowAllocator.submitAllocateResponse]
    split
    · rename_i key fai0 hfai0
      rw [FlowAllocator.delegate_fa]
      exact FlowAllocator.invariant_settle P fa _ _
        (hhandle _ fai0 env (.submitAllocateResponse event)
          (h _ fai0 (FlowAllocator.find_of_findByHandle _ _ _ _ ho hfai0))) h
    · exact h
  | processCreateConnectionResultEvent event =>
    simp only [FlowAllocator.step, FlowAllocator.processCreateConnectionResultEvent]
    split
    · exact h
    · rename_i fai0 hfai0
      rw [FlowAllocator.delegate_fa]
      exact FlowAllocator.invariant_settle P fa _ _
        (hhandle _ fai0 env (.processCreateConnectionResultEvent event) (h _ fai0 hfai0)) h
  | processUpdateConnectionResponseEvent event =>
    simp only [FlowAllocator.step, FlowAllocator.processUpdateConnectionResponseEvent]
    split
    · exact h
    · rename_i fai0 hfai0
      rw [FlowAllocator.delegate_fa]
      exact FlowAllocator.invariant_settle P fa _ _
        (hhandle _ fai0 env (.processUpdateConnectionResponseEvent event) (h _ fai0 hfai0)) h
  | submitDeallocate event =>
    simp only [FlowAllocator.step, FlowAllocator.submitDeallocate]
    split
    · exact h
    · rename_i fai0 hfai0
      rw [FlowAllocator.delegate_fa]
      exact FlowAllocator.invariant_settle P fa _ _
        (hhandle _ fai0 env (.submitDeallocate event) (h _ fai0 hfai0)) h
  | createResponse portId result result_reason object_value =>
    exact FlowAllocator.invariant_onInstance P fa portId _
      (fun key fai hw => hhandle key fai env
        (.createResponse result result_reason object_value) hw) h
  | deleteFlowRequestMessageReceived portId =>
    exact FlowAllocator.invariant_onInstance P fa portId _
      (fun key fai hw => hhandle key fai env .deleteFlowRequestMessageReceived hw) h
  | tearDownFlowTimerTaskRun portId =>
    exact FlowAllocator.invariant_onInstance P fa portId _
      (fun key fai hw => hhandle key fai env
        (.destroyFlowAllocatorInstance fai.object_name_ true) hw) h

theorem FlowAllocator.invariant_run (P : Int → FlowAllocatorInstance → Prop)
    (hnew : ∀ p, P p (FlowAllocatorInstance.new p))
    (hhandle : ∀ key fai env ev, P key fai → P key (FlowAllocatorInstance.handle fai env ev).fai)
    (hsubmit : ∀ p env event,
      P p ((FlowAllocatorInstance.new p).submitAllocateRequest env event).fai)
    (hcreate : ∀ p env flow object_name invoke_id underlyingPortId,
      P p ((FlowAllocatorInstance.new p).createFlowRequestMessageReceived env flow object_name
        invoke_id underlyingPortId).fai)
    (steps : List (Env × Operation)) (fa : FlowAllocator)
    (ho : Registry.ordered fa.flow_allocator_instances_)
    (h : ∀ j fai, Registry.find fa.flow_allocator_instances_ j = some fai → P j fai) :
    ∀ j fai, Registry.find (fa.run steps).fa.flow_allocator_instances_ j = some fai →
      P j fai := by
  induction steps generalizing fa with
  | nil => exact h
  | cons s rest ih =>
    obtain ⟨env, op⟩ := s
    simp only [FlowAllocator.run]
    split
    · exact FlowAllocator.invariant_step P hnew hhandle hsubmit hcreate fa env op ho h
    · exact ih _ (FlowAllocator.ordered_step fa env op ho)
        (FlowAllocator.invariant_step P hnew hhandle hsubmit hcreate fa env op ho h)

theorem FlowAllocator.invariant_new_run (P : Int → FlowAllocatorInstance → Prop)
    (hnew : ∀ p, P p (FlowAllocatorInstance.new p))
    (hhandle : ∀ key fai env ev, P key fai → P key (FlowAllocatorInstance.handle fai env ev).fai)
    (hsubmit : ∀ p env event,
      P p ((FlowAllocatorInstance.new p).submitAllocateRequest env event).fai)
    (hcreate : ∀ p env flow object_name invoke_id underlyingPortId,
      P p ((FlowAllocatorInstance.new p).createFlowRequestMessageReceived env flow object_name
        invoke_id underlyingPortId).fai)
    (steps : List (Env × Operation)) (j : Int) (fai : FlowAllocatorInstance)
    (h : Registry.find (FlowAllocator.new.run steps).fa.flow_allocator_instances_ j = some fai) :
    P j fai :=
  FlowAllocator.invariant_run P hnew hhandle hsubmit hcreate steps FlowAllocator.new
    (by simp [FlowAllocator.new, Registry.ordered, Registry.keys])
    (fun j fai hj => by simp [FlowAllocator.new, Registry.find] at hj) j fai h

/-- In every state the flow allocator reaches from the empty one, an instance
that is registered and has left NO_STATE holds a flow with an active
connection. -/
theorem FlowAllocator.wellFormed_new_run (steps : List (Env × Operation)) (j : Int)
    (fai : FlowAllocatorInstance)
    (h : Registry.find (FlowAllocator.new.run steps).fa.flow_allocator_instances_ j = some fai) :
    fai.wellFormed :=
  FlowAllocator.invariant_new_run (fun _ fai => fai.wellFormed) (fun _ => Or.inl rfl)
    (fun _ fai env ev hw => FlowAllocatorInstance.handle_wellFormed fai env ev hw)
    (fun p env event => FlowAllocatorInstance.submitAllocateRequest_wellFormed p env event)
    (fun p env flow object_name invoke_id underlyingPortId =>
      FlowAllocatorInstance.createFlowRequestMessageReceived_wellFormed p env flow object_name
        invoke_id underlyingPortId)
    steps j fai h

/-- In every state the flow allocator reaches from the empty one, the instance
registered under a port-id has that port-id. -/
theorem FlowAllocator.port_id_new_run (steps : List (Env × Operation)) (j : Int)
    (fai : FlowAllocatorInstance)
    (h : Registry.find (FlowAllocator.new.run steps).fa.flow_allocator_instances_ j = some fai) :
    fai.port_id_ = j :=
  FlowAllocator.invariant_new_run (fun key fai => fai.port_id_ = key) (fun _ => rfl)
    (fun _ fai env ev hw => (FlowAllocatorInstance.handle_sound fai env ev).port.trans hw)
    (fun p env event => (FlowAllocatorInstance.submitAllocateRequest_sound p env event).1.port)
    (fun p env flow object_name invoke_id underlyingPortId =>
      (FlowAllocatorInstance.createFlowRequestMessageReceived_sound p env flow object_name
        invoke_id underlyingPortId).port)
    steps j fai h

/-! ## The claims about runs and guards -/

/-- C2, as stated, fails.  In the run that starts with the application's
allocate request (which creates the instance under port-id 430, a source-side
instance: its flow has `source_ = true`) and goes on with a
create-connection-result event for port-id 430, the instance moves from
CONNECTION_CREATE_REQUESTED to APP_NOTIFIED_OF_INCOMING_FLOW, which is not an
edge listed for a source-side instance. -/
theorem FlowAllocator.source_instance_enters_APP_NOTIFIED :
    ∃ f f', Registry.find (FlowAllocator.new.run [Sample.allocate]).fa.flow_allocator_instances_
        430 = some f ∧
      Registry.find (FlowAllocator.new.run [Sample.allocate,
        (Sample.env, Operation.processCreateConnectionResultEvent ⟨430, 4, 0⟩)]).fa.flow_allocator_instances_
        430 = some f' ∧
      (f.flow_.map fun flow => flow.source_) = some true ∧
      f.state_ = FAIState.CONNECTION_CREATE_REQUESTED ∧
      f'.state_ = FAIState.APP_NOTIFIED_OF_INCOMING_FLOW ∧
      FAIState.sourceEdge f.state_ f'.state_ = false :=
  ⟨_, _, rfl, rfl, by decide, by decide, by decide, by decide⟩

/-- C2, amended.  In every run of entry points from the empty flow allocator,
when an instance is registered under a port-id before and after the next entry
point, then either its state is the same, or the change is one of the edges
listed for the source side or for the destination side (whichever operation
created the instance) and leads strictly further along the state graph, so
that no state is entered again, or the entry point has just registered a new
instance under that port-id, which is in NO_STATE or has moved from it to
CONNECTION_CREATE_REQUESTED. -/
theorem FlowAllocator.run_state_change (steps : List (Env × Operation)) (env : Env)
    (op : Operation) (key : Int) (f f' : FlowAllocatorInstance)
    (h1 : Registry.find (FlowAllocator.new.run steps).fa.flow_allocator_instances_ key = some f)
    (h2 : Registry.find ((FlowAllocator.new.run steps).fa.step env op).fa.flow_allocator_instances_
      key = some f') :
    f'.state_ = f.state_ ∨
      (FAIState.listedEdge f.state_ f'.state_ = true ∧ f.state_.rank < f'.state_.rank) ∨
      (op.registersUnder env = some key ∧ (f'.state_ = FAIState.NO_STATE ∨
        f'.state_ = FAIState.CONNECTION_CREATE_REQUESTED)) := by
  rcases FlowAllocator.step_state _ env op key f f' (FlowAllocator.ordered_new_run steps) h1 h2
    with h | h | h
  · exact Or.inl h
  · exact Or.inr (Or.inl ⟨h, FAIState.rank_lt_of_listedEdge _ _ h⟩)
  · exact Or.inr (Or.inr h)

/-- Witness of C2 (amended): after the allocate request, a
create-connection-response event with cep-id 7 for port-id 430. -/
theorem FlowAllocator.run_state_change_witness :
    Registry.find (FlowAllocator.new.run [Sample.allocate]).fa.flow_allocator_instances_ 430 =
        some Sample.requested ∧
      Registry.find ((FlowAllocator.new.run [Sample.allocate]).fa.step Sample.env
        (Operation.processCreateConnectionResponseEvent ⟨430, 7⟩)).fa.flow_allocator_instances_
        430 = some (Sample.requested.processCreateConnectionResponseEvent Sample.env ⟨430, 7⟩).fai ∧
      ((Sample.requested.processCreateConnectionResponseEvent Sample.env ⟨430, 7⟩).fai.state_ =
          Sample.requested.state_ ∨
        (FAIState.listedEdge Sample.requested.state_
            (Sample.requested.processCreateConnectionResponseEvent Sample.env ⟨430, 7⟩).fai.state_
            = true ∧
          Sample.requested.state_.rank <
            (Sample.requested.processCreateConnectionResponseEvent Sample.env
              ⟨430, 7⟩).fai.state_.rank) ∨
        ((Operation.processCreateConnectionResponseEvent ⟨430, 7⟩).registersUnder Sample.env =
            some 430 ∧
          ((Sample.requested.processCreateConnectionResponseEvent Sample.env ⟨430, 7⟩).fai.state_ =
              FAIState.NO_STATE ∨
            (Sample.requested.processCreateConnectionResponseEvent Sample.env ⟨430, 7⟩).fai.state_ =
              FAIState.CONNECTION_CREATE_REQUESTED))) :=
  ⟨rfl, rfl, FlowAllocator.run_state_change [Sample.allocate] Sample.env
    (Operation.processCreateConnectionResponseEvent ⟨430, 7⟩) 430 Sample.requested
    (Sample.requested.processCreateConnectionResponseEvent Sample.env ⟨430, 7⟩).fai rfl rfl⟩

/-- C3, as stated, fails.  The allocate request obtains port-id 430 by one
successful `allocatePortId`, the directory has no entry, so the instance is
erased and `deallocatePortId(430)` is called; a deallocate request for port-id
430 then finds no instance and calls `deallocatePortId(430)` again: two
releases for one allocation. -/
theorem FlowAllocator.port_id_released_twice :
    (FlowAllocator.new.run [(Sample.envDirectoryMiss,
        Operation.submitAllocateRequest Sample.request),
      (Sample.env, Operation.submitDeallocate ⟨430, 0⟩)]).completion = Completion.returned ∧
    (FlowAllocator.new.run [(Sample.envDirectoryMiss,
        Operation.submitAllocateRequest Sample.request),
      (Sample.env, Operation.submitDeallocate ⟨430, 0⟩)]).effects.count
        (Effect.allocatePortId Sample.sourceName) = 1 ∧
    (FlowAllocator.new.run [(Sample.envDirectoryMiss,
        Operation.submitAllocateRequest Sample.request),
      (Sample.env, Operation.submitDeallocate ⟨430, 0⟩)]).effects.count
        (Effect.deallocatePortId 430) = 2 := by
  decide

/-- C3, amended.  In every run of entry points from the empty flow allocator,
for an entry point that does not run into undefined behaviour: if a port-id
holds no instance afterwards although an instance was registered under it
before the entry point, or was registered under it by the entry point itself
(the failure path of `FlowAllocator::submitAllocateRequest`, the paths of
`createFlowRequestMessageReceived` that release, and every path of an instance
through `releaseUnlockRemove`, tear-down included), then the entry point calls
`deallocatePortId` for that port-id exactly once while it runs; and the port-id
is the `port_id_` of the instance that was registered under it. -/
theorem FlowAllocator.run_release_on_removal (steps : List (Env × Operation)) (env : Env)
    (op : Operation) (key : Int)
    (h1 : Registry.find (FlowAllocator.new.run steps).fa.flow_allocator_instances_ key ≠ none ∨
      op.registersUnder env = some key)
    (h2 : Registry.find ((FlowAllocator.new.run steps).fa.step env op).fa.flow_allocator_instances_
      key = none)
    (h3 : ∀ what, ((FlowAllocator.new.run steps).fa.step env op).completion ≠
      Completion.undefinedBehaviour what) :
    ((FlowAllocator.new.run steps).fa.step env op).effects.count
        (Effect.deallocatePortId key) = 1 ∧
      (∀ fai, Registry.find (FlowAllocator.new.run steps).fa.flow_allocator_instances_ key =
          some fai → fai.port_id_ = key) ∧
      (FlowAllocatorInstance.new key).port_id_ = key :=
  ⟨FlowAllocator.step_release _ env op key (FlowAllocator.ordered_new_run steps) h1 h2 h3,
    fun fai hfai => FlowAllocator.port_id_new_run steps key fai hfai, rfl⟩

/-- Witness of C3 (amended): the allocate request of the literal scenario when
the directory has no entry registers an instance under port-id 430 and erases
it in the same entry point; and, after the allocate request, a
create-connection-result event with a negative cep-id removes the instance
registered under port-id 430. -/
theorem FlowAllocator.run_release_on_removal_witness :
    (Operation.submitAllocateRequest Sample.request).registersUnder Sample.envDirectoryMiss =
        some 430 ∧
      Registry.find ((FlowAllocator.new.run []).fa.step Sample.envDirectoryMiss
        (Operation.submitAllocateRequest Sample.request)).fa.flow_allocator_instances_ 430 =
        none ∧
      ((FlowAllocator.new.run []).fa.step Sample.envDirectoryMiss
        (Operation.submitAllocateRequest Sample.request)).completion = Completion.returned ∧
      ((FlowAllocator.new.run []).fa.step Sample.envDirectoryMiss
        (Operation.submitAllocateRequest Sample.request)).effects.count
          (Effect.deallocatePortId 430) = 1 ∧
      Registry.find (FlowAllocator.new.run [Sample.allocate]).fa.flow_allocator_instances_ 430 =
        some Sample.requested ∧
      Registry.find ((FlowAllocator.new.run [Sample.allocate]).fa.step Sample.env
        (Operation.processCreateConnectionResultEvent ⟨430, -1, 0⟩)).fa.flow_allocator_instances_
        430 = none ∧
      ((FlowAllocator.new.run [Sample.allocate]).fa.step Sample.env
        (Operation.processCreateConnectionResultEvent ⟨430, -1, 0⟩)).completion =
          Completion.returned ∧
      ((FlowAllocator.new.run [Sample.allocate]).fa.step Sample.env
        (Operation.processCreateConnectionResultEvent ⟨430, -1, 0⟩)).effects.count
          (Effect.deallocatePortId 430) = 1 ∧
      Sample.requested.port_id_ = 430 :=
  ⟨rfl, by decide, rfl,
    (FlowAllocator.run_release_on_removal [] Sample.envDirectoryMiss
      (Operation.submitAllocateRequest Sample.request) 430 (Or.inr rfl) (by decide)
      (fun what h => by
        have h' : Completion.returned = Completion.undefinedBehaviour what := h
        cases h')).1,
    rfl, by decide, rfl,
    (FlowAllocator.run_release_on_removal [Sample.allocate] Sample.env
      (Operation.processCreateConnectionResultEvent ⟨430, -1, 0⟩) 430
      (Or.inl (by decide)) (by decide)
      (fun what h => by
        have h' : Completion.returned = Completion.undefinedBehaviour what := h
        cases h')).1,
    (FlowAllocator.run_release_on_removal [Sample.allocate] Sample.env
      (Operation.processCreateConnectionResultEvent ⟨430, -1, 0⟩) 430
      (Or.inl (by decide)) (by decide)
      (fun what h => by
        have h' : Completion.returned = Completion.undefinedBehaviour what := h
        cases h')).2.1 Sample.requested rfl⟩

/-- C4.  For each of processCreateConnectionResponseEvent,
processCreateConnectionResultEvent, createResponse,
processUpdateConnectionResponseEvent, submitAllocateResponse, submitDeallocate,
deleteFlowRequestMessageReceived and destroyFlowAllocatorInstance: called on an
instance that is not in the state the method expects, the method returns with
every member of the instance (state and Flow included) unchanged, without any
call on a collaborator (no peer message, kernel call, timer task or IPC
Manager notification) and without removing the instance, so that a flow
allocator holding the instance is unchanged. -/
theorem FlowAllocatorInstance.handle_unexpected_state (fai : FlowAllocatorInstance) (env : Env)
    (ev : FaiEvent) (h : fai.state_ ≠ ev.expected) :
    fai.handle env ev =
        { fai := fai, effects := [], removed := false, completion := Completion.returned } ∧
      ∀ (fa : FlowAllocator) (key : Int),
        Registry.find fa.flow_allocator_instances_ key = some fai →
        fa.settle key (fai.handle env ev) = fa := by
  have hout : fai.handle env ev =
      { fai := fai, effects := [], removed := false, completion := Completion.returned } := by
    cases ev <;>
      simp only [FaiEvent.expected] at h <;>
      simp [FlowAllocatorInstance.handle,
        FlowAllocatorInstance.processCreateConnectionResponseEvent,
        FlowAllocatorInstance.processCreateConnectionResultEvent,
        FlowAllocatorInstance.createResponse,
        FlowAllocatorInstance.processUpdateConnectionResponseEvent,
        FlowAllocatorInstance.submitAllocateResponse, FlowAllocatorInstance.submitDeallocate,
        FlowAllocatorInstance.deleteFlowRequestMessageReceived,
        FlowAllocatorInstance.destroyFlowAllocatorInstance, FlowAllocatorInstance.returns, h]
  refine ⟨hout, fun fa key hfind => ?_⟩
  rw [hout]
  simp only [FlowAllocator.settle, Bool.false_eq_true, if_false]
  rw [Registry.write_same _ _ _ hfind]

/-- Witness of C4: a deallocate request on an instance that has just been
constructed (state NO_STATE). -/
theorem FlowAllocatorInstance.handle_unexpected_state_witness :
    (FlowAllocatorInstance.new 430).state_ ≠ (FaiEvent.submitDeallocate ⟨430, 0⟩).expected ∧
      ((FlowAllocatorInstance.new 430).handle Sample.env (FaiEvent.submitDeallocate ⟨430, 0⟩) =
        { fai := FlowAllocatorInstance.new 430, effects := [], removed := false,
          completion := Completion.returned } ∧
      ∀ (fa : FlowAllocator) (key : Int),
        Registry.find fa.flow_allocator_instances_ key = some (FlowAllocatorInstance.new 430) →
        fa.settle key ((FlowAllocatorInstance.new 430).handle Sample.env
          (FaiEvent.submitDeallocate ⟨430, 0⟩)) = fa) :=
  ⟨by decide, FlowAllocatorInstance.handle_unexpected_state (FlowAllocatorInstance.new 430)
    Sample.env (FaiEvent.submitDeallocate ⟨430, 0⟩) (by decide)⟩

/-! ## The allocate request at the source -/

/-- The directory miss when a QoS cube is selected.  If `allocatePortId` hands
out a port-id `p`, `selectQoSCube` returns a cube for the requested flow
specification and the directory has no next hop (address 0) for the requested
destination, then `FlowAllocator::submitAllocateRequest` returns having made
exactly three calls: `allocatePortId`, `deallocatePortId(p)` and the result -1
to the IPC Manager; so no `createConnection` is requested, the port-id is
released once and the IPC Manager is answered once.  No instance is registered
under `p` afterwards, and every other port-id maps to what it mapped to
before. -/
theorem FlowAllocator.submitAllocateRequest_directory_miss (fa : FlowAllocator) (env : Env)
    (event : FlowRequestEvent) (qosCube : QoSCube)
    (halloc : env.throws (Effect.allocatePortId event.localApplicationName) = false)
    (hdft : env.getDFTNextHop event.remoteApplicationName = 0)
    (hselected : SimpleNewFlowRequestPolicy.selectQoSCube env event.flowSpecification =
      .ok qosCube) :
    (fa.submitAllocateRequest env event).completion = Completion.returned ∧
      (fa.submitAllocateRequest env event).effects =
        [Effect.allocatePortId event.localApplicationName,
         Effect.deallocatePortId (env.allocatePortId event.localApplicationName),
         Effect.allocateFlowRequestResult
           { event with portId := env.allocatePortId event.localApplicationName } (-1)] ∧
      Registry.find (fa.submitAllocateRequest env event).fa.flow_allocator_instances_
        (env.allocatePortId event.localApplicationName) = none ∧
      ∀ j, j ≠ env.allocatePortId event.localApplicationName →
        Registry.find (fa.submitAllocateRequest env event).fa.flow_allocator_instances_ j =
          Registry.find fa.flow_allocator_instances_ j := by
  have hout : ∃ (what : String) (fai : FlowAllocatorInstance) (flow : Flow),
      (FlowAllocatorInstance.new
      (env.allocatePortId event.localApplicationName)).submitAllocateRequest env
      { event with portId := env.allocatePortId event.localApplicationName } =
      { fai := fai, effects := [], removed := false, completion := Completion.threw what } ∧
      fai.flow_ = some flow := by
    simp only [FlowAllocatorInstance.submitAllocateRequest,
      SimpleNewFlowRequestPolicy.generateFlowObject, hdft, hselected]
    simp only [Flow.getActiveConnection, Flow.setActiveConnection, Flow.new]
    exact ⟨_, _, _, rfl, rfl⟩
  obtain ⟨what, fai, flow, hout, hflow⟩ := hout
  simp only [FlowAllocator.submitAllocateRequest, halloc, Bool.false_eq_true, if_false, hout,
    hflow, FlowAllocator.replyToIPCManager, Registry.find_erase, Registry.find_put]
  simp only [List.append_nil, List.nil_append, List.singleton_append, List.cons_append,
    if_true, true_and]
  intro j hj
  simp [hj]

/-- The directory miss of the literal scenario: the cube `unreliableCube` is
selected and the directory has no entry. -/
theorem FlowAllocator.submitAllocateRequest_directory_miss_sample :
    Sample.envDirectoryMiss.throws (Effect.allocatePortId Sample.request.localApplicationName) =
        false ∧
      Sample.envDirectoryMiss.getDFTNextHop Sample.request.remoteApplicationName = 0 ∧
      SimpleNewFlowRequestPolicy.selectQoSCube Sample.envDirectoryMiss
        Sample.request.flowSpecification = .ok Sample.unreliableCube ∧
      ((FlowAllocator.new.submitAllocateRequest Sample.envDirectoryMiss Sample.request).completion =
          Completion.returned ∧
        (FlowAllocator.new.submitAllocateRequest Sample.envDirectoryMiss Sample.request).effects =
          [Effect.allocatePortId Sample.request.localApplicationName,
           Effect.deallocatePortId
             (Sample.envDirectoryMiss.allocatePortId Sample.request.localApplicationName),
           Effect.allocateFlowRequestResult
             { Sample.request with
               portId := Sample.envDirectoryMiss.allocatePortId
                 Sample.request.localApplicationName } (-1)] ∧
        Registry.find (FlowAllocator.new.submitAllocateRequest Sample.envDirectoryMiss
          Sample.request).fa.flow_allocator_instances_
          (Sample.envDirectoryMiss.allocatePortId Sample.request.localApplicationName) = none ∧
        ∀ j, j ≠ Sample.envDirectoryMiss.allocatePortId Sample.request.localApplicationName →
          Registry.find (FlowAllocator.new.submitAllocateRequest Sample.envDirectoryMiss
            Sample.request).fa.flow_allocator_instances_ j =
            Registry.find FlowAllocator.new.flow_allocator_instances_ j) :=
  ⟨rfl, rfl, rfl,
    FlowAllocator.submitAllocateRequest_directory_miss FlowAllocator.new Sample.envDirectoryMiss
      Sample.request Sample.unreliableCube rfl rfl rfl⟩

/-- C6 fails on the code when no QoS cube is selected.  Port-id 430 is handed
out and the directory has no entry, the catalogue holds only `unreliableCube`
(no DTCP) and the request asks for `maxAllowableGap = 0`: `selectQoSCube`
throws, so the instance throws before `flow_` is assigned; the `catch` block of
`FlowAllocator::submitAllocateRequest` erases the instance and deletes it, and
the destructor reads the unassigned `flow_`.  The run is undefined from there:
the only call made is `allocatePortId`, `deallocatePortId(430)` is not called
and nothing is sent to the IPC Manager. -/
theorem FlowAllocator.submitAllocateRequest_directory_miss_no_cube :
    Sample.envDirectoryMiss.throws (Effect.allocatePortId Sample.sourceName) = false ∧
      Sample.envDirectoryMiss.allocatePortId Sample.sourceName = 430 ∧
      Sample.envDirectoryMiss.getDFTNextHop Sample.destinationName = 0 ∧
      SimpleNewFlowRequestPolicy.selectQoSCube Sample.envDirectoryMiss Sample.reliableSpec =
        .error (.exception "Could not find a QoS Cube with Rtx control disabled!") ∧
      ((FlowAllocatorInstance.new 430).submitAllocateRequest Sample.envDirectoryMiss
        { Sample.request with flowSpecification := Sample.reliableSpec, portId := 430 }).fai.flow_ =
        none ∧
      (FlowAllocator.new.submitAllocateRequest Sample.envDirectoryMiss
          { Sample.request with flowSpecification := Sample.reliableSpec }).completion =
        Completion.undefinedBehaviour flowNotSetAtDelete ∧
      (FlowAllocator.new.submitAllocateRequest Sample.envDirectoryMiss
          { Sample.request with flowSpecification := Sample.reliableSpec }).effects =
        [Effect.allocatePortId Sample.sourceName] ∧
      (FlowAllocator.new.submitAllocateRequest Sample.envDirectoryMiss
          { Sample.request with flowSpecification := Sample.reliableSpec }).effects.count
        (Effect.deallocatePortId 430) = 0 :=
  ⟨rfl, rfl, rfl, rfl, rfl, rfl, rfl, rfl⟩

/-- C7 fails on the code.  When `allocatePortId` throws, the first `catch`
block of `FlowAllocator::submitAllocateRequest` answers -1 to the IPC Manager
and does not return: the body goes on with port-id 0, registers an instance
under 0 and requests a kernel `createConnection`; the instance stays registered
in CONNECTION_CREATE_REQUESTED. -/
theorem FlowAllocator.submitAllocateRequest_no_port_id :
    Sample.envNoPortId.throws (Effect.allocatePortId Sample.request.localApplicationName) = true ∧
      (FlowAllocator.new.submitAllocateRequest Sample.envNoPortId Sample.request).effects.count
        (Effect.allocateFlowRequestResult Sample.request (-1)) = 1 ∧
      ((FlowAllocator.new.submitAllocateRequest Sample.envNoPortId Sample.request).effects.filter
        fun e => match e with
          | Effect.createConnection _ => true
          | _ => false).length = 1 ∧
      (FlowAllocator.new.submitAllocateRequest Sample.envNoPortId
        Sample.request).fa.flow_allocator_instances_.keys = [0] ∧
      ((Registry.find (FlowAllocator.new.submitAllocateRequest Sample.envNoPortId
        Sample.request).fa.flow_allocator_instances_ 0).map fun fai => fai.state_) =
        some FAIState.CONNECTION_CREATE_REQUESTED := by
  decide

/-- C8, as stated, fails.  Port-id 430 is handed out, the cube `unreliableCube`
is selected, the next hop 20 is neither 0 nor the own address 10, but the
kernel's `createConnection` throws: `FlowAllocator::submitAllocateRequest`
catches the exception, erases the instance, releases the port-id and answers
-1 to the IPC Manager. -/
theorem FlowAllocator.submitAllocateRequest_kernel_refuses :
    Sample.envKernelRefuses.throws (Effect.allocatePortId Sample.request.localApplicationName) =
        false ∧
      Sample.envKernelRefuses.allocatePortId Sample.request.localApplicationName = 430 ∧
      SimpleNewFlowRequestPolicy.selectQoSCube Sample.envKernelRefuses
        Sample.request.flowSpecification = Except.ok Sample.unreliableCube ∧
      Sample.envKernelRefuses.getDFTNextHop Sample.request.remoteApplicationName = 20 ∧
      Sample.envKernelRefuses.address = 10 ∧
      Registry.find (FlowAllocator.new.submitAllocateRequest Sample.envKernelRefuses
        Sample.request).fa.flow_allocator_instances_ 430 = none ∧
      (FlowAllocator.new.submitAllocateRequest Sample.envKernelRefuses
        Sample.request).effects.count
        (Effect.allocateFlowRequestResult { Sample.request with portId := 430 } (-1)) = 1 :=
  ⟨rfl, rfl, rfl, rfl, rfl, by decide, by decide⟩

/-- C8, amended.  If `allocatePortId` hands out a port-id `p`, a QoS cube is
selected, the directory's next hop `d` is neither 0 nor the IPC process's
address `a`, and the kernel's `createConnection` does not throw, then
`FlowAllocator::submitAllocateRequest` returns with an instance registered
under `p`, in CONNECTION_CREATE_REQUESTED, whose flow has source address `a`,
destination address `d` and source port-id `p`, and whose object name is the
FlowSet object name, the separator, `a`, "-" and `p`; the calls made are
`allocatePortId` and one `createConnection` for the active connection, so
nothing is sent to the IPC Manager. -/
theorem FlowAllocator.submitAllocateRequest_requested (fa : FlowAllocator) (env : Env)
    (event : FlowRequestEvent) (cube : QoSCube)
    (halloc : env.throws (Effect.allocatePortId event.localApplicationName) = false)
    (hsel : SimpleNewFlowRequestPolicy.selectQoSCube env event.flowSpecification =
      Except.ok cube)
    (hd0 : env.getDFTNextHop event.remoteApplicationName ≠ 0)
    (hda : env.getDFTNextHop event.remoteApplicationName ≠ env.address)
    (hkernel : ∀ c, env.throws (Effect.createConnection c) = false) :
    ∃ fai flow connection,
      Registry.find (fa.submitAllocateRequest env event).fa.flow_allocator_instances_
        (env.allocatePortId event.localApplicationName) = some fai ∧
      fai.port_id_ = env.allocatePortId event.localApplicationName ∧
      fai.state_ = FAIState.CONNECTION_CREATE_REQUESTED ∧
      fai.flow_ = some flow ∧
      flow.source_address_ = env.address ∧
      flow.destination_address_ = env.getDFTNextHop event.remoteApplicationName ∧
      flow.source_port_id_ = env.allocatePortId event.localApplicationName ∧
      fai.object_name_ = env.constants.FLOW_SET_RIB_OBJECT_NAME ++ env.constants.SEPARATOR ++
        toString env.address ++ "-" ++ toString (env.allocatePortId event.localApplicationName) ∧
      flow.getActiveConnection = some connection ∧
      (fa.submitAllocateRequest env event).effects =
        [Effect.allocatePortId event.localApplicationName, Effect.createConnection connection] ∧
      (fa.submitAllocateRequest env event).completion = Completion.returned := by
  simp only [FlowAllocator.submitAllocateRequest, halloc, Bool.false_eq_true, if_false,
    FlowAllocatorInstance.submitAllocateRequest, SimpleNewFlowRequestPolicy.generateFlowObject,
    hsel, Flow.getActiveConnection, Flow.setActiveConnection, Flow.new, hd0, hda, hkernel,
    List.get?_cons_zero, List.set_cons_zero, FlowAllocatorInstance.returns,
    FlowAllocator.delegate, FlowAllocator.find_settle, Registry.find_put,
    FlowAllocatorInstance.flowObjectName, FlowAllocatorInstance.new]
  simp

/-- Witness of C8 (amended): the allocate request of the literal scenario
(address 10, next hop 20, port-id 430). -/
theorem FlowAllocator.submitAllocateRequest_requested_witness :
    Sample.env.throws (Effect.allocatePortId Sample.request.localApplicationName) = false ∧
      SimpleNewFlowRequestPolicy.selectQoSCube Sample.env Sample.request.flowSpecification =
        Except.ok Sample.unreliableCube ∧
      Sample.env.getDFTNextHop Sample.request.remoteApplicationName ≠ 0 ∧
      Sample.env.getDFTNextHop Sample.request.remoteApplicationName ≠ Sample.env.address ∧
      (∀ c, Sample.env.throws (Effect.createConnection c) = false) ∧
      ∃ fai flow connection,
        Registry.find (FlowAllocator.new.submitAllocateRequest Sample.env
          Sample.request).fa.flow_allocator_instances_
          (Sample.env.allocatePortId Sample.request.localApplicationName) = some fai ∧
        fai.port_id_ = Sample.env.allocatePortId Sample.request.localApplicationName ∧
        fai.state_ = FAIState.CONNECTION_CREATE_REQUESTED ∧
        fai.flow_ = some flow ∧
        flow.source_address_ = Sample.env.address ∧
        flow.destination_address_ =
          Sample.env.getDFTNextHop Sample.request.remoteApplicationName ∧
        flow.source_port_id_ = Sample.env.allocatePortId Sample.request.localApplicationName ∧
        fai.object_name_ = Sample.env.constants.FLOW_SET_RIB_OBJECT_NAME ++
          Sample.env.constants.SEPARATOR ++ toString Sample.env.address ++ "-" ++
          toString (Sample.env.allocatePortId Sample.request.localApplicationName) ∧
        flow.getActiveConnection = some connection ∧
        (FlowAllocator.new.submitAllocateRequest Sample.env Sample.request).effects =
          [Effect.allocatePortId Sample.request.localApplicationName,
           Effect.createConnection connection] ∧
        (FlowAllocator.new.submitAllocateRequest Sample.env Sample.request).completion =
          Completion.returned :=
  ⟨rfl, rfl, by decide, by decide, fun _ => rfl,
    FlowAllocator.submitAllocateRequest_requested FlowAllocator.new Sample.env Sample.request
      Sample.unreliableCube rfl rfl (by decide) (by decide) (fun _ => rfl)⟩

/-! ## The kernel's answer to the create-connection request -/

/-- The successful path of `processCreateConnectionResponseEvent` on an
instance whose flow and active connection are named. -/
theorem FlowAllocatorInstance.processCreateConnectionResponseEvent_of_flow
    (fai : FlowAllocatorInstance) (env : Env) (event : CreateConnectionResponseEvent)
    (flow : Flow) (active : Connection) (session : Int) (others : List Int)
    (hstate : fai.state_ = FAIState.CONNECTION_CREATE_REQUESTED)
    (hcep : 0 ≤ event.cepId)
    (hflow : fai.flow_ = some flow)
    (hactive : flow.getActiveConnection = some active)
    (hsessions : env.getAllCDAPSessionIds = session :: others)
    (hsend : env.throws (Effect.remoteCreateObject env.constants.FLOW_RIB_OBJECT_CLASS
      fai.object_name_ (flow.setActiveConnection { active with sourceCepId := event.cepId })
      { port_id_ := session, use_address_ := true, address_ := flow.destination_address_ }) =
      false) :
    fai.processCreateConnectionResponseEvent env event =
        { fai := { fai with
                   flow_ := some (flow.setActiveConnection
                     { active with sourceCepId := event.cepId })
                   underlying_port_id_ := session
                   state_ := FAIState.MESSAGE_TO_PEER_FAI_SENT }
          effects := [Effect.remoteCreateObject env.constants.FLOW_RIB_OBJECT_CLASS
            fai.object_name_ (flow.setActiveConnection { active with sourceCepId := event.cepId })
            { port_id_ := session, use_address_ := true, address_ := flow.destination_address_ }]
          removed := false
          completion := Completion.returned } ∧
      (flow.setActiveConnection { active with sourceCepId := event.cepId }).getActiveConnection =
        some { active with sourceCepId := event.cepId } ∧
      (flow.setActiveConnection { active with sourceCepId := event.cepId }).destination_address_ =
        flow.destination_address_ := by
  refine ⟨?_, Flow.getActiveConnection_setActiveConnection flow active _ hactive, rfl⟩
  have hcep2 : ¬ event.cepId < 0 := by omega
  simp only [FlowAllocatorInstance.processCreateConnectionResponseEvent, hstate, ne_eq,
    not_true_eq_false, if_false, hcep2, hflow, hactive, hsessions]
  have hdest : (flow.setActiveConnection
      { active with sourceCepId := event.cepId }).destination_address_ =
      flow.destination_address_ := rfl
  simp only [hdest, hsend, Bool.false_eq_true, if_false, FlowAllocatorInstance.returns]

/-- C9.  For an instance registered in a state the flow allocator reaches
from the empty one, in CONNECTION_CREATE_REQUESTED, a create-connection
response with `cep_id >= 0`, when the list of open CDAP sessions starts with
`session` and `remoteCreateObject` does not throw: the instance holds a flow
with an active connection, and the method returns without removing the
instance, having made one call, the remote create of class
`FLOW_RIB_OBJECT_CLASS` named `object_name_`, carrying the flow, addressed to
`flow.destination_address_` over `session`; afterwards the active connection
of the flow is the former one with `source_cep_id = cep_id`,
`underlying_port_id_` is `session`, and the state is
MESSAGE_TO_PEER_FAI_SENT. -/
theorem FlowAllocatorInstance.processCreateConnectionResponseEvent_ok
    (steps : List (Env × Operation)) (key : Int) (fai : FlowAllocatorInstance) (env : Env)
    (event : CreateConnectionResponseEvent) (session : Int) (others : List Int)
    (hfind : Registry.find (FlowAllocator.new.run steps).fa.flow_allocator_instances_ key =
      some fai)
    (hstate : fai.state_ = FAIState.CONNECTION_CREATE_REQUESTED)
    (hcep : 0 ≤ event.cepId)
    (hsessions : env.getAllCDAPSessionIds = session :: others)
    (hsend : ∀ flow, env.throws (Effect.remoteCreateObject env.constants.FLOW_RIB_OBJECT_CLASS
      fai.object_name_ flow
      { port_id_ := session, use_address_ := true, address_ := flow.destination_address_ }) =
      false) :
    ∃ flow active, fai.flow_ = some flow ∧ flow.getActiveConnection = some active ∧
      fai.processCreateConnectionResponseEvent env event =
        { fai := { fai with
                   flow_ := some (flow.setActiveConnection
                     { active with sourceCepId := event.cepId })
                   underlying_port_id_ := session
                   state_ := FAIState.MESSAGE_TO_PEER_FAI_SENT }
          effects := [Effect.remoteCreateObject env.constants.FLOW_RIB_OBJECT_CLASS
            fai.object_name_ (flow.setActiveConnection { active with sourceCepId := event.cepId })
            { port_id_ := session, use_address_ := true, address_ := flow.destination_address_ }]
          removed := false
          completion := Completion.returned } ∧
      (flow.setActiveConnection { active with sourceCepId := event.cepId }).getActiveConnection =
        some { active with sourceCepId := event.cepId } ∧
      (flow.setActiveConnection { active with sourceCepId := event.cepId }).destination_address_ =
        flow.destination_address_ := by
  rcases FlowAllocator.wellFormed_new_run steps key fai hfind with h | ⟨flow, active, hf, ha⟩
  · rw [hstate] at h
    cases h
  · exact ⟨flow, active, hf, ha,
      FlowAllocatorInstance.processCreateConnectionResponseEvent_of_flow fai env event flow
        active session others hstate hcep hf ha hsessions (hsend _)⟩

/-- Witness of C9: after the allocate request of the literal scenario, the
kernel answers with cep-id 7 while the CDAP session 3 is open. -/
theorem FlowAllocatorInstance.processCreateConnectionResponseEvent_ok_witness :
    Registry.find (FlowAllocator.new.run [Sample.allocate]).fa.flow_allocator_instances_ 430 =
        some Sample.requested ∧
      Sample.requested.state_ = FAIState.CONNECTION_CREATE_REQUESTED ∧
      (0 : Int) ≤ (⟨430, 7⟩ : CreateConnectionResponseEvent).cepId ∧
      Sample.env.getAllCDAPSessionIds = 3 :: [] ∧
      (∀ flow, Sample.env.throws (Effect.remoteCreateObject
        Sample.env.constants.FLOW_RIB_OBJECT_CLASS Sample.requested.object_name_ flow
        { port_id_ := 3, use_address_ := true, address_ := flow.destination_address_ }) =
        false) ∧
      ∃ flow active, Sample.requested.flow_ = some flow ∧
        flow.getActiveConnection = some active ∧
        Sample.requested.processCreateConnectionResponseEvent Sample.env ⟨430, 7⟩ =
          { fai := { Sample.requested with
                     flow_ := some (flow.setActiveConnection { active with sourceCepId := 7 })
                     underlying_port_id_ := 3
                     state_ := FAIState.MESSAGE_TO_PEER_FAI_SENT }
            effects := [Effect.remoteCreateObject Sample.env.constants.FLOW_RIB_OBJECT_CLASS
              Sample.requested.object_name_
              (flow.setActiveConnection { active with sourceCepId := 7 })
              { port_id_ := 3, use_address_ := true, address_ := flow.destination_address_ }]
            removed := false
            completion := Completion.returned } ∧
        (flow.setActiveConnection { active with sourceCepId := 7 }).getActiveConnection =
          some { active with sourceCepId := 7 } ∧
        (flow.setActiveConnection { active with sourceCepId := 7 }).destination_address_ =
          flow.destination_address_ :=
  ⟨rfl, rfl, by decide, rfl, fun _ => rfl,
    FlowAllocatorInstance.processCreateConnectionResponseEvent_ok [Sample.allocate] 430
      Sample.requested Sample.env ⟨430, 7⟩ 3 [] rfl rfl (by decide) rfl (fun _ => rfl)⟩

/-- C10 fails on the code.  For the instance of the literal scenario, in
CONNECTION_CREATE_REQUESTED under port-id 430, a create-connection response
with cep-id -1 only answers -1 to the IPC Manager: the method returns without
calling `releaseUnlockRemove`, so `deallocatePortId` is not called and the
instance stays registered, unchanged, in CONNECTION_CREATE_REQUESTED. -/
theorem FlowAllocatorInstance.processCreateConnectionResponseEvent_negative_cep :
    Sample.requested.state_ = FAIState.CONNECTION_CREATE_REQUESTED ∧
      Sample.requested.processCreateConnectionResponseEvent Sample.env ⟨430, -1⟩ =
        { fai := Sample.requested
          effects := [Effect.allocateFlowRequestResult Sample.requested.flow_request_event_ (-1)]
          removed := false
          completion := Completion.returned } ∧
      (FlowAllocator.new.run [Sample.allocate,
        (Sample.env, Operation.processCreateConnectionResponseEvent ⟨430, -1⟩)]).effects.count
        (Effect.deallocatePortId 430) = 0 ∧
      Registry.find (FlowAllocator.new.run [Sample.allocate,
        (Sample.env, Operation.processCreateConnectionResponseEvent
          ⟨430, -1⟩)]).fa.flow_allocator_instances_ 430 = some Sample.requested :=
  ⟨rfl, rfl, by decide, rfl⟩

/-! ## The answers of the peer and of the kernel at the source -/

theorem FlowAllocator.find_settle_removed (fa : FlowAllocator) (key : Int) (out : FaiOut)
    (h : out.removed = true) :
    Registry.find (fa.settle key out).flow_allocator_instances_ out.fai.port_id_ = none := by
  rw [FlowAllocator.find_settle, if_pos ⟨h, rfl⟩]

/-- C11, as stated, fails.  The instance of the literal scenario, in
MESSAGE_TO_PEER_FAI_SENT, receives a create response with result 1: the result
sent to the IPC Manager is 1, not -1 (the event it carries has port-id -1). -/
theorem FlowAllocatorInstance.createResponse_result_forwarded :
    Sample.sent.state_ = FAIState.MESSAGE_TO_PEER_FAI_SENT ∧
      (Sample.sent.createResponse Sample.env 1 "refused" none).effects =
        [Effect.allocateFlowRequestResult
           { Sample.sent.flow_request_event_ with portId := -1 } 1,
         Effect.deallocatePortId 430] ∧
      ((Sample.sent.createResponse Sample.env 1 "refused" none).effects.filter
        fun e => match e with
          | Effect.allocateFlowRequestResult _ result => decide (result = -1)
          | _ => false) = [] := by
  decide

/-- C11, amended.  For an instance in MESSAGE_TO_PEER_FAI_SENT, `createResponse`
with a non-zero result makes exactly two calls: one allocate-flow result to the
IPC Manager, carrying the result received and the request event with its
port-id set to -1, and one `deallocatePortId` for the instance's port-id; no
kernel `updateConnection` is requested, and the instance is removed from the
registry of the flow allocator. -/
theorem FlowAllocatorInstance.createResponse_refused (fai : FlowAllocatorInstance) (env : Env)
    (result : Int) (result_reason : String) (object_value : Option Flow)
    (hstate : fai.state_ = FAIState.MESSAGE_TO_PEER_FAI_SENT) (hresult : result ≠ 0) :
    fai.createResponse env result result_reason object_value =
        { fai := { fai with
                   flow_request_event_ := { fai.flow_request_event_ with portId := -1 } }
          effects := [Effect.allocateFlowRequestResult
                        { fai.flow_request_event_ with portId := -1 } result,
                      Effect.deallocatePortId fai.port_id_]
          removed := true
          completion := Completion.returned } ∧
      ∀ (fa : FlowAllocator) (key : Int),
        Registry.find (fa.settle key
          (fai.createResponse env result result_reason object_value)).flow_allocator_instances_
          fai.port_id_ = none := by
  have hout : fai.createResponse env result result_reason object_value =
      { fai := { fai with
                 flow_request_event_ := { fai.flow_request_event_ with portId := -1 } }
        effects := [Effect.allocateFlowRequestResult
                      { fai.flow_request_event_ with portId := -1 } result,
                    Effect.deallocatePortId fai.port_id_]
        removed := true
        completion := Completion.returned } := by
    simp [FlowAllocatorInstance.createResponse, hstate, hresult,
      FlowAllocatorInstance.releaseUnlockRemove, FlowAllocatorInstance.releasePortId]
  refine ⟨hout, fun fa key => ?_⟩
  rw [hout]
  exact FlowAllocator.find_settle_removed fa key _ rfl

/-- Witness of C11 (amended): the peer answers the create request of the
literal scenario with result -1. -/
theorem FlowAllocatorInstance.createResponse_refused_witness :
    Sample.sent.state_ = FAIState.MESSAGE_TO_PEER_FAI_SENT ∧ (-1 : Int) ≠ 0 ∧
      (Sample.sent.createResponse Sample.env (-1) "Application rejected the flow" none =
        { fai := { Sample.sent with
                   flow_request_event_ :=
                     { Sample.sent.flow_request_event_ with portId := -1 } }
          effects := [Effect.allocateFlowRequestResult
                        { Sample.sent.flow_request_event_ with portId := -1 } (-1),
                      Effect.deallocatePortId Sample.sent.port_id_]
          removed := true
          completion := Completion.returned } ∧
      ∀ (fa : FlowAllocator) (key : Int),
        Registry.find (fa.settle key
          (Sample.sent.createResponse Sample.env (-1) "Application rejected the flow"
            none)).flow_allocator_instances_ Sample.sent.port_id_ = none) :=
  ⟨rfl, by decide, FlowAllocatorInstance.createResponse_refused Sample.sent Sample.env (-1)
    "Application rejected the flow" none rfl (by decide)⟩

/-- C12.  For an instance registered in a state the flow allocator reaches
from the empty one, in CONNECTION_UPDATE_REQUESTED, an update-connection
response with result 0: the instance holds a flow, and the method returns
without removing the instance, having made two calls, the creation of the RIB
object of class `FLOW_RIB_OBJECT_CLASS` named `object_name_` and one
allocate-flow result to the IPC Manager with result 0 and the request event
carrying the instance's port-id; afterwards the state of the flow is ALLOCATED
and the state of the instance is FLOW_ALLOCATED. -/
theorem FlowAllocatorInstance.processUpdateConnectionResponseEvent_ok
    (steps : List (Env × Operation)) (key : Int) (fai : FlowAllocatorInstance) (env : Env)
    (event : UpdateConnectionResponseEvent)
    (hfind : Registry.find (FlowAllocator.new.run steps).fa.flow_allocator_instances_ key =
      some fai)
    (hstate : fai.state_ = FAIState.CONNECTION_UPDATE_REQUESTED)
    (hresult : event.result = 0) :
    ∃ flow, fai.flow_ = some flow ∧
      fai.processUpdateConnectionResponseEvent env event =
        { fai := { fai with
                   flow_ := some { flow with state_ := Flow.ALLOCATED }
                   state_ := FAIState.FLOW_ALLOCATED
                   flow_request_event_ :=
                     { fai.flow_request_event_ with portId := fai.port_id_ } }
          effects := [Effect.createObject env.constants.FLOW_RIB_OBJECT_CLASS fai.object_name_,
                      Effect.allocateFlowRequestResult
                        { fai.flow_request_event_ with portId := fai.port_id_ } 0]
          removed := false
          completion := Completion.returned } := by
  rcases FlowAllocator.wellFormed_new_run steps key fai hfind with h | ⟨flow, active, hf, _⟩
  · rw [hstate] at h
    cases h
  · refine ⟨flow, hf, ?_⟩
    simp [FlowAllocatorInstance.processUpdateConnectionResponseEvent, hstate, hresult, hf,
      FlowAllocatorInstance.returns]

/-- Witness of C12: the kernel's positive answer in the literal scenario. -/
theorem FlowAllocatorInstance.processUpdateConnectionResponseEvent_ok_witness :
    Registry.find (FlowAllocator.new.run [Sample.allocate, Sample.connectionCreated,
        Sample.peerAccepted]).fa.flow_allocator_instances_ 430 = some Sample.updating ∧
      Sample.updating.state_ = FAIState.CONNECTION_UPDATE_REQUESTED ∧
      (⟨430, 0⟩ : UpdateConnectionResponseEvent).result = 0 ∧
      ∃ flow, Sample.updating.flow_ = some flow ∧
        Sample.updating.processUpdateConnectionResponseEvent Sample.env ⟨430, 0⟩ =
          { fai := { Sample.updating with
                     flow_ := some { flow with state_ := Flow.ALLOCATED }
                     state_ := FAIState.FLOW_ALLOCATED
                     flow_request_event_ :=
                       { Sample.updating.flow_request_event_ with
                         portId := Sample.updating.port_id_ } }
            effects := [Effect.createObject Sample.env.constants.FLOW_RIB_OBJECT_CLASS
                          Sample.updating.object_name_,
                        Effect.allocateFlowRequestResult
                          { Sample.updating.flow_request_event_ with
                            portId := Sample.updating.port_id_ } 0]
            removed := false
            completion := Completion.returned } :=
  ⟨rfl, rfl, rfl, FlowAllocatorInstance.processUpdateConnectionResponseEvent_ok
    [Sample.allocate, Sample.connectionCreated, Sample.peerAccepted] 430 Sample.updating
    Sample.env ⟨430, 0⟩ rfl rfl rfl⟩

/-- C13, as stated, fails.  The instance of the literal scenario, in
CONNECTION_UPDATE_REQUESTED, receives an update-connection response with
result 1: the result sent to the IPC Manager is 1, not -1 (the event it
carries has port-id -1). -/
theorem FlowAllocatorInstance.processUpdateConnectionResponseEvent_result_forwarded :
    Sample.updating.state_ = FAIState.CONNECTION_UPDATE_REQUESTED ∧
      (Sample.updating.processUpdateConnectionResponseEvent Sample.env ⟨430, 1⟩).effects =
        [Effect.allocateFlowRequestResult
           { Sample.updating.flow_request_event_ with portId := -1 } 1,
         Effect.deallocatePortId 430] ∧
      ((Sample.updating.processUpdateConnectionResponseEvent Sample.env ⟨430, 1⟩).effects.filter
        fun e => match e with
          | Effect.allocateFlowRequestResult _ result => decide (result = -1)
          | _ => false) = [] := by
  decide

/-- C13, amended.  For an instance in CONNECTION_UPDATE_REQUESTED, an
update-connection response with a non-zero result makes exactly two calls:
one allocate-flow result to the IPC Manager, carrying the result of the event
and the request event with its port-id set to -1, and one `deallocatePortId`
for the instance's port-id; no Flow RIB object is created, the flow is
unchanged, and the instance is removed from the registry of the flow
allocator. -/
theorem FlowAllocatorInstance.processUpdateConnectionResponseEvent_refused
    (fai : FlowAllocatorInstance) (env : Env) (event : UpdateConnectionResponseEvent)
    (hstate : fai.state_ = FAIState.CONNECTION_UPDATE_REQUESTED) (hresult : event.result ≠ 0) :
    fai.processUpdateConnectionResponseEvent env event =
        { fai := { fai with
                   flow_request_event_ := { fai.flow_request_event_ with portId := -1 } }
          effects := [Effect.allocateFlowRequestResult
                        { fai.flow_request_event_ with portId := -1 } event.result,
                      Effect.deallocatePortId fai.port_id_]
          removed := true
          completion := Completion.returned } ∧
      ∀ (fa : FlowAllocator) (key : Int),
        Registry.find (fa.settle key
          (fai.processUpdateConnectionResponseEvent env event)).flow_allocator_instances_
          fai.port_id_ = none := by
  have hout : fai.processUpdateConnectionResponseEvent env event =
      { fai := { fai with
                 flow_request_event_ := { fai.flow_request_event_ with portId := -1 } }
        effects := [Effect.allocateFlowRequestResult
                      { fai.flow_request_event_ with portId := -1 } event.result,
                    Effect.deallocatePortId fai.port_id_]
        removed := true
        completion := Completion.returned } := by
    simp [FlowAllocatorInstance.processUpdateConnectionResponseEvent, hstate, hresult,
      FlowAllocatorInstance.releaseUnlockRemove, FlowAllocatorInstance.releasePortId]
  refine ⟨hout, fun fa key => ?_⟩
  rw [hout]
  exact FlowAllocator.find_settle_removed fa key _ rfl

/-- Witness of C13 (amended): the kernel refuses the update with result -1. -/
theorem FlowAllocatorInstance.processUpdateConnectionResponseEvent_refused_witness :
    Sample.updating.state_ = FAIState.CONNECTION_UPDATE_REQUESTED ∧
      (⟨430, -1⟩ : UpdateConnectionResponseEvent).result ≠ 0 ∧
      (Sample.updating.processUpdateConnectionResponseEvent Sample.env ⟨430, -1⟩ =
        { fai := { Sample.updating with
                   flow_request_event_ :=
                     { Sample.updating.flow_request_event_ with portId := -1 } }
          effects := [Effect.allocateFlowRequestResult
                        { Sample.updating.flow_request_event_ with portId := -1 }
                        (⟨430, -1⟩ : UpdateConnectionResponseEvent).result,
                      Effect.deallocatePortId Sample.updating.port_id_]
          removed := true
          completion := Completion.returned } ∧
      ∀ (fa : FlowAllocator) (key : Int),
        Registry.find (fa.settle key
          (Sample.updating.processUpdateConnectionResponseEvent Sample.env
            ⟨430, -1⟩)).flow_allocator_instances_ Sample.updating.port_id_ = none) :=
  ⟨rfl, by decide, FlowAllocatorInstance.processUpdateConnectionResponseEvent_refused
    Sample.updating Sample.env ⟨430, -1⟩ rfl (by decide)⟩

/-! ## The answer of the application and the deallocation -/

/-- C17.  For an instance registered in a state the flow allocator reaches
from the empty one, in APP_NOTIFIED_OF_INCOMING_FLOW, `submitAllocateResponse`
with result 0, when sending the response does not fail: the instance holds a
flow, and the method returns without removing the instance, having made two
calls, one create response with result 0 and empty reason that carries the
flow, for the stored invoke id, addressed to the flow's source address over
`underlying_port_id_`, and the creation of the RIB object of class
`FLOW_RIB_OBJECT_CLASS` named `object_name_`; afterwards the state of the flow
is ALLOCATED and the state of the instance is FLOW_ALLOCATED, and no port-id
was released. -/
theorem FlowAllocatorInstance.submitAllocateResponse_accepted
    (steps : List (Env × Operation)) (key : Int) (fai : FlowAllocatorInstance) (env : Env)
    (event : AllocateFlowResponseEvent)
    (hfind : Registry.find (FlowAllocator.new.run steps).fa.flow_allocator_instances_ key =
      some fai)
    (hstate : fai.state_ = FAIState.APP_NOTIFIED_OF_INCOMING_FLOW)
    (hresult : event.result = 0)
    (hsent : ∀ flow, env.throws (Effect.remoteCreateObjectResponse
      env.constants.FLOW_RIB_OBJECT_CLASS fai.object_name_ flow 0 "" fai.invoke_id_
      { port_id_ := fai.underlying_port_id_, use_address_ := true,
        address_ := flow.source_address_ }) = false) :
    ∃ flow, fai.flow_ = some flow ∧
      fai.submitAllocateResponse env event =
        { fai := { fai with
                   flow_ := some { flow with state_ := Flow.ALLOCATED }
                   state_ := FAIState.FLOW_ALLOCATED }
          effects := [Effect.remoteCreateObjectResponse env.constants.FLOW_RIB_OBJECT_CLASS
                        fai.object_name_ flow 0 "" fai.invoke_id_
                        { port_id_ := fai.underlying_port_id_, use_address_ := true,
                          address_ := flow.source_address_ },
                      Effect.createObject env.constants.FLOW_RIB_OBJECT_CLASS fai.object_name_]
          removed := false
          completion := Completion.returned } ∧
      ∀ portId, (fai.submitAllocateResponse env event).effects.count
        (Effect.deallocatePortId portId) = 0 := by
  rcases FlowAllocator.wellFormed_new_run steps key fai hfind with h | ⟨flow, active, hf, _⟩
  · rw [hstate] at h
    cases h
  · have hout : fai.submitAllocateResponse env event =
        { fai := { fai with
                   flow_ := some { flow with state_ := Flow.ALLOCATED }
                   state_ := FAIState.FLOW_ALLOCATED }
          effects := [Effect.remoteCreateObjectResponse env.constants.FLOW_RIB_OBJECT_CLASS
                        fai.object_name_ flow 0 "" fai.invoke_id_
                        { port_id_ := fai.underlying_port_id_, use_address_ := true,
                          address_ := flow.source_address_ },
                      Effect.createObject env.constants.FLOW_RIB_OBJECT_CLASS fai.object_name_]
          removed := false
          completion := Completion.returned } := by
      simp [FlowAllocatorInstance.submitAllocateResponse, hstate, hresult, hf, hsent flow,
        FlowAllocatorInstance.returns]
    refine ⟨flow, hf, hout, fun portId => ?_⟩
    rw [hout]
    simp [List.count_cons]

/-- Witness of C17: the application of the destination accepts the flow of the
literal scenario. -/
theorem FlowAllocatorInstance.submitAllocateResponse_accepted_witness :
    Registry.find (FlowAllocator.new.run [Sample.createArrived,
        Sample.connectionArrived]).fa.flow_allocator_instances_ 77 = some Sample.notified ∧
      Sample.notified.state_ = FAIState.APP_NOTIFIED_OF_INCOMING_FLOW ∧
      (⟨5, 0⟩ : AllocateFlowResponseEvent).result = 0 ∧
      (∀ flow, Sample.envDestination.throws (Effect.remoteCreateObjectResponse
        Sample.envDestination.constants.FLOW_RIB_OBJECT_CLASS Sample.notified.object_name_ flow 0
        "" Sample.notified.invoke_id_
        { port_id_ := Sample.notified.underlying_port_id_, use_address_ := true,
          address_ := flow.source_address_ }) = false) ∧
      ∃ flow, Sample.notified.flow_ = some flow ∧
        Sample.notified.submitAllocateResponse Sample.envDestination ⟨5, 0⟩ =
          { fai := { Sample.notified with
                     flow_ := some { flow with state_ := Flow.ALLOCATED }
                     state_ := FAIState.FLOW_ALLOCATED }
            effects := [Effect.remoteCreateObjectResponse
                          Sample.envDestination.constants.FLOW_RIB_OBJECT_CLASS
                          Sample.notified.object_name_ flow 0 "" Sample.notified.invoke_id_
                          { port_id_ := Sample.notified.underlying_port_id_, use_address_ := true,
                            address_ := flow.source_address_ },
                        Effect.createObject Sample.envDestination.constants.FLOW_RIB_OBJECT_CLASS
                          Sample.notified.object_name_]
            removed := false
            completion := Completion.returned } ∧
        ∀ portId, (Sample.notified.submitAllocateResponse Sample.envDestination
          ⟨5, 0⟩).effects.count (Effect.deallocatePortId portId) = 0 :=
  ⟨rfl, rfl, rfl, fun _ => rfl, FlowAllocatorInstance.submitAllocateResponse_accepted
    [Sample.createArrived, Sample.connectionArrived] 77 Sample.notified Sample.envDestination
    ⟨5, 0⟩ rfl rfl rfl (fun _ => rfl)⟩

/-- C18.  For an instance registered in a state the flow allocator reaches
from the empty one, in APP_NOTIFIED_OF_INCOMING_FLOW, `submitAllocateResponse`
with a result other than 0: the instance holds a flow, and the method makes
exactly two calls, one create response with result -1 and reason
"Application rejected the flow" addressed to the flow's source address, and
one `deallocatePortId` for the instance's port-id; the instance, with its flow
and the state of the flow, is left as it was, no RIB object is created, and the
instance is removed from the registry of the flow allocator. -/
theorem FlowAllocatorInstance.submitAllocateResponse_rejected
    (steps : List (Env × Operation)) (key : Int) (fai : FlowAllocatorInstance) (env : Env)
    (event : AllocateFlowResponseEvent)
    (hfind : Registry.find (FlowAllocator.new.run steps).fa.flow_allocator_instances_ key =
      some fai)
    (hstate : fai.state_ = FAIState.APP_NOTIFIED_OF_INCOMING_FLOW)
    (hresult : event.result ≠ 0) :
    ∃ flow, fai.flow_ = some flow ∧
      fai.submitAllocateResponse env event =
        { fai := fai
          effects := [Effect.remoteCreateObjectResponse env.constants.FLOW_RIB_OBJECT_CLASS
                        fai.object_name_ flow (-1) "Application rejected the flow"
                        fai.invoke_id_
                        { port_id_ := fai.underlying_port_id_, use_address_ := true,
                          address_ := flow.source_address_ },
                      Effect.deallocatePortId fai.port_id_]
          removed := true
          completion := Completion.returned } ∧
      ∀ (fa : FlowAllocator) (key : Int),
        Registry.find (fa.settle key
          (fai.submitAllocateResponse env event)).flow_allocator_instances_
          fai.port_id_ = none := by
  rcases FlowAllocator.wellFormed_new_run steps key fai hfind with h | ⟨flow, active, hf, _⟩
  · rw [hstate] at h
    cases h
  · have hout : fai.submitAllocateResponse env event =
        { fai := fai
          effects := [Effect.remoteCreateObjectResponse env.constants.FLOW_RIB_OBJECT_CLASS
                        fai.object_name_ flow (-1) "Application rejected the flow"
                        fai.invoke_id_
                        { port_id_ := fai.underlying_port_id_, use_address_ := true,
                          address_ := flow.source_address_ },
                      Effect.deallocatePortId fai.port_id_]
          removed := true
          completion := Completion.returned } := by
      simp [FlowAllocatorInstance.submitAllocateResponse, hstate, hresult, hf,
        FlowAllocatorInstance.releaseUnlockRemove, FlowAllocatorInstance.releasePortId]
    refine ⟨flow, hf, hout, fun fa key => ?_⟩
    rw [hout]
    exact FlowAllocator.find_settle_removed fa key _ rfl

/-- Witness of C18: the application of the destination rejects the flow of the
literal scenario with result 1. -/
theorem FlowAllocatorInstance.submitAllocateResponse_rejected_witness :
    Registry.find (FlowAllocator.new.run [Sample.createArrived,
        Sample.connectionArrived]).fa.flow_allocator_instances_ 77 = some Sample.notified ∧
      Sample.notified.state_ = FAIState.APP_NOTIFIED_OF_INCOMING_FLOW ∧
      (⟨5, 1⟩ : AllocateFlowResponseEvent).result ≠ 0 ∧
      ∃ flow, Sample.notified.flow_ = some flow ∧
        Sample.notified.submitAllocateResponse Sample.envDestination ⟨5, 1⟩ =
          { fai := Sample.notified
            effects := [Effect.remoteCreateObjectResponse
                          Sample.envDestination.constants.FLOW_RIB_OBJECT_CLASS
                          Sample.notified.object_name_ flow (-1) "Application rejected the flow"
                          Sample.notified.invoke_id_
                          { port_id_ := Sample.notified.underlying_port_id_, use_address_ := true,
                            address_ := flow.source_address_ },
                        Effect.deallocatePortId Sample.notified.port_id_]
            removed := true
            completion := Completion.returned } ∧
        ∀ (fa : FlowAllocator) (key : Int),
          Registry.find (fa.settle key
            (Sample.notified.submitAllocateResponse Sample.envDestination
              ⟨5, 1⟩)).flow_allocator_instances_ Sample.notified.port_id_ = none :=
  ⟨rfl, rfl, by decide, FlowAllocatorInstance.submitAllocateResponse_rejected
    [Sample.createArrived, Sample.connectionArrived] 77 Sample.notified Sample.envDestination
    ⟨5, 1⟩ rfl rfl (by decide)⟩

/-- C19.  For an instance in FLOW_ALLOCATED that holds the flow `flow`, when
the address of the IPC process is exactly one of the flow's source and
destination addresses, `submitDeallocate` returns without removing the
instance, having made two calls: one `remoteDeleteObject` on `object_name_`
over `underlying_port_id_`, addressed to the other of the two addresses, which
is not the IPC process's own, and one `scheduleTask` of the tear-down task with
delay 5000; afterwards the state of the flow and the state of the instance are
both WAITING_2_MPL_BEFORE_TEARING_DOWN. -/
theorem FlowAllocatorInstance.submitDeallocate_ok (fai : FlowAllocatorInstance) (env : Env)
    (event : FlowDeallocateRequestEvent) (flow : Flow)
    (hflow : fai.flow_ = some flow)
    (hstate : fai.state_ = FAIState.FLOW_ALLOCATED)
    (hone : (env.address = flow.source_address_ ∧ env.address ≠ flow.destination_address_) ∨
      (env.address ≠ flow.source_address_ ∧ env.address = flow.destination_address_)) :
    ∃ other,
      fai.submitDeallocate env event =
        { fai := { fai with
                   flow_ := some { flow with
                                   state_ := Flow.WAITING_2_MPL_BEFORE_TEARING_DOWN }
                   state_ := FAIState.WAITING_2_MPL_BEFORE_TEARING_DOWN }
          effects := [Effect.remoteDeleteObject env.constants.FLOW_RIB_OBJECT_CLASS
                        fai.object_name_
                        { port_id_ := fai.underlying_port_id_, use_address_ := true,
                          address_ := other },
                      Effect.scheduleTask fai.object_name_ true 5000]
          removed := false
          completion := Completion.returned } ∧
      other ≠ env.address ∧
      (env.address = flow.source_address_ → other = flow.destination_address_) ∧
      (env.address = flow.destination_address_ → other = flow.source_address_) := by
  rcases hone with ⟨hs, hd⟩ | ⟨hs, hd⟩
  · refine ⟨flow.destination_address_, ?_, fun h => hd h.symm, fun _ => rfl,
      fun h => absurd h hd⟩
    simp [FlowAllocatorInstance.submitDeallocate, hstate, hflow, hs.symm,
      FlowAllocatorInstance.returns, TearDownFlowTimerTask.DELAY]
  · refine ⟨flow.source_address_, ?_, fun h => hs h.symm, fun h => absurd h hs, fun _ => rfl⟩
    simp [FlowAllocatorInstance.submitDeallocate, hstate, hflow, hs,
      FlowAllocatorInstance.returns, TearDownFlowTimerTask.DELAY]

/-- Witness of C19: the application of the source deallocates the flow of the
literal scenario; the M_DELETE goes to address 20. -/
theorem FlowAllocatorInstance.submitDeallocate_ok_witness :
    Sample.allocated.flow_ = some Sample.allocatedFlow ∧
      Sample.allocated.state_ = FAIState.FLOW_ALLOCATED ∧
      ((Sample.env.address = Sample.allocatedFlow.source_address_ ∧
          Sample.env.address ≠ Sample.allocatedFlow.destination_address_) ∨
        (Sample.env.address ≠ Sample.allocatedFlow.source_address_ ∧
          Sample.env.address = Sample.allocatedFlow.destination_address_)) ∧
      ∃ other,
        Sample.allocated.submitDeallocate Sample.env ⟨430, 12⟩ =
          { fai := { Sample.allocated with
                     flow_ := some { Sample.allocatedFlow with
                                     state_ := Flow.WAITING_2_MPL_BEFORE_TEARING_DOWN }
                     state_ := FAIState.WAITING_2_MPL_BEFORE_TEARING_DOWN }
            effects := [Effect.remoteDeleteObject Sample.env.constants.FLOW_RIB_OBJECT_CLASS
                          Sample.allocated.object_name_
                          { port_id_ := Sample.allocated.underlying_port_id_,
                            use_address_ := true, address_ := other },
                        Effect.scheduleTask Sample.allocated.object_name_ true 5000]
            removed := false
            completion := Completion.returned } ∧
        other ≠ Sample.env.address ∧
        (Sample.env.address = Sample.allocatedFlow.source_address_ →
          other = Sample.allocatedFlow.destination_address_) ∧
        (Sample.env.address = Sample.allocatedFlow.destination_address_ →
          other = Sample.allocatedFlow.source_address_) :=
  ⟨rfl, rfl, by decide, FlowAllocatorInstance.submitDeallocate_ok Sample.allocated Sample.env
    ⟨430, 12⟩ Sample.allocatedFlow rfl rfl (by decide)⟩

/-- C16.  When the arriving flow has an active connection and the Security
Manager denies the flow the instance then holds,
`FlowAllocatorInstance::createFlowRequestMessageReceived` makes exactly two
calls: one create response with result -1 and reason
"EncoderConstants::FLOW_RIB_OBJECT_CLASS", for the invoke id of the request,
addressed to the flow's source address over the underlying port-id, and one
`deallocatePortId` for the instance's port-id; no `createConnectionArrived` is
requested of the kernel, the state of the instance is unchanged, and the
instance is removed from the registry of the flow allocator. -/
theorem FlowAllocatorInstance.createFlowRequestMessageReceived_denied
    (fai : FlowAllocatorInstance) (env : Env) (flow : Flow) (connection : Connection)
    (object_name : String) (invoke_id : Int) (underlyingPortId : Int)
    (hactive : flow.getActiveConnection = some connection)
    (hdeny : env.acceptFlow (fai.arrivedFlow env flow connection) = false) :
    fai.createFlowRequestMessageReceived env flow object_name invoke_id underlyingPortId =
        { fai := { fai with
                   invoke_id_ := invoke_id
                   object_name_ := object_name
                   underlying_port_id_ := underlyingPortId
                   flow_ := some (fai.arrivedFlow env flow connection) }
          effects := [Effect.remoteCreateObjectResponse env.constants.FLOW_RIB_OBJECT_CLASS
                        object_name (fai.arrivedFlow env flow connection) (-1)
                        "EncoderConstants::FLOW_RIB_OBJECT_CLASS" invoke_id
                        { port_id_ := underlyingPortId, use_address_ := true,
                          address_ := flow.source_address_ },
                      Effect.deallocatePortId fai.port_id_]
          removed := true
          completion := Completion.returned } ∧
      ∀ (fa : FlowAllocator) (key : Int),
        Registry.find (fa.settle key
          (fai.createFlowRequestMessageReceived env flow object_name invoke_id
            underlyingPortId)).flow_allocator_instances_ fai.port_id_ = none := by
  have hout : fai.createFlowRequestMessageReceived env flow object_name invoke_id
      underlyingPortId =
        { fai := { fai with
                   invoke_id_ := invoke_id
                   object_name_ := object_name
                   underlying_port_id_ := underlyingPortId
                   flow_ := some (fai.arrivedFlow env flow connection) }
          effects := [Effect.remoteCreateObjectResponse env.constants.FLOW_RIB_OBJECT_CLASS
                        object_name (fai.arrivedFlow env flow connection) (-1)
                        "EncoderConstants::FLOW_RIB_OBJECT_CLASS" invoke_id
                        { port_id_ := underlyingPortId, use_address_ := true,
                          address_ := flow.source_address_ },
                      Effect.deallocatePortId fai.port_id_]
          removed := true
          completion := Completion.returned } := by
    by_cases h0 : flow.destination_address_ = 0
    · have hget : Flow.getActiveConnection
          { ({ flow with destination_address_ := env.address } : Flow) with
            destination_port_id_ := fai.port_id_ } = some connection := hactive
      simp only [FlowAllocatorInstance.arrivedFlow, FlowAllocatorInstance.arrivedConnection, h0,
        if_true, Flow.setActiveConnection] at hdeny ⊢
      simp only [FlowAllocatorInstance.createFlowRequestMessageReceived, h0, if_true, hget]
      simp [hdeny, FlowAllocatorInstance.releaseUnlockRemove,
        FlowAllocatorInstance.releasePortId, Flow.setActiveConnection]
    · have hget : Flow.getActiveConnection
          { flow with destination_port_id_ := fai.port_id_ } = some connection := hactive
      simp only [FlowAllocatorInstance.arrivedFlow, FlowAllocatorInstance.arrivedConnection, h0,
        if_false, Flow.setActiveConnection] at hdeny ⊢
      simp only [FlowAllocatorInstance.createFlowRequestMessageReceived, h0, if_false, hget]
      simp [hdeny, FlowAllocatorInstance.releaseUnlockRemove,
        FlowAllocatorInstance.releasePortId, Flow.setActiveConnection]
  refine ⟨hout, fun fa key => ?_⟩
  rw [hout]
  exact FlowAllocator.find_settle_removed fa key _ rfl

/-- Witness of C16: the Security Manager of the destination denies the flow of
the literal scenario. -/
theorem FlowAllocatorInstance.createFlowRequestMessageReceived_denied_witness :
    Sample.flow.getActiveConnection = some
        { Connection.new with portId := 430, sourceAddress := 10, destAddress := 20, qosId := 1,
                              sourceCepId := 7 } ∧
      Sample.envDenies.acceptFlow ((FlowAllocatorInstance.new 77).arrivedFlow Sample.envDenies
        Sample.flow { Connection.new with portId := 430, sourceAddress := 10, destAddress := 20,
                                          qosId := 1, sourceCepId := 7 }) = false ∧
      ((FlowAllocatorInstance.new 77).createFlowRequestMessageReceived Sample.envDenies
          Sample.flow Sample.flowName 1 3).effects =
        [Effect.remoteCreateObjectResponse Sample.envDenies.constants.FLOW_RIB_OBJECT_CLASS
           Sample.flowName
           ((FlowAllocatorInstance.new 77).arrivedFlow Sample.envDenies Sample.flow
             { Connection.new with portId := 430, sourceAddress := 10, destAddress := 20,
                                   qosId := 1, sourceCepId := 7 })
           (-1) "EncoderConstants::FLOW_RIB_OBJECT_CLASS" 1
           { port_id_ := 3, use_address_ := true, address_ := 10 },
         Effect.deallocatePortId 77] ∧
      ∀ (fa : FlowAllocator) (key : Int),
        Registry.find (fa.settle key
          ((FlowAllocatorInstance.new 77).createFlowRequestMessageReceived Sample.envDenies
            Sample.flow Sample.flowName 1 3)).flow_allocator_instances_ 77 = none :=
  ⟨by decide, rfl,
    congrArg FaiOut.effects (FlowAllocatorInstance.createFlowRequestMessageReceived_denied
      (FlowAllocatorInstance.new 77) Sample.envDenies Sample.flow
      { Connection.new with portId := 430, sourceAddress := 10, destAddress := 20, qosId := 1,
                            sourceCepId := 7 }
      Sample.flowName 1 3 (by decide) rfl).1,
    (FlowAllocatorInstance.createFlowRequestMessageReceived_denied
      (FlowAllocatorInstance.new 77) Sample.envDenies Sample.flow
      { Connection.new with portId := 430, sourceAddress := 10, destAddress := 20, qosId := 1,
                            sourceCepId := 7 }
      Sample.flowName 1 3 (by decide) rfl).2⟩

/-! ## The create request at the flow allocator -/

/-- C14.  `FlowAllocator::createFlowRequestMessageReceived` in three parts.
When the next hop the directory gives for the flow's destination is non-zero,
is the IPC process's own address, and `allocatePortId` does not fail, the flow
allocator registers a new instance under the port-id allocated and delegates
to it with the flow as received (its hop count untouched); the instance stays
registered under that port-id unless its own method took it out.  In every
other case the registry is left as it was, the method returns, and the only
call that may have been made is the failed `allocatePortId`.  When the
directory has no entry (next hop 0) no call at all is made: no port-id is
allocated and nothing is sent to the peer. -/
theorem FlowAllocator.createFlowRequestMessageReceived_creates (fa : FlowAllocator) (env : Env)
    (flow : Flow) (object_name : String) (invoke_id underlyingPortId : Int) :
    (env.getDFTNextHop flow.destination_naming_info_ ≠ 0 ∧
        env.getDFTNextHop flow.destination_naming_info_ = env.address ∧
        env.throws (Effect.allocatePortId flow.destination_naming_info_) = false →
      fa.createFlowRequestMessageReceived env flow object_name invoke_id underlyingPortId =
          FlowAllocator.delegate
            { fa with
              flow_allocator_instances_ :=
                fa.flow_allocator_instances_.put
                  (env.allocatePortId flow.destination_naming_info_)
                  (FlowAllocatorInstance.new
                    (env.allocatePortId flow.destination_naming_info_)) }
            (env.allocatePortId flow.destination_naming_info_)
            [Effect.allocatePortId flow.destination_naming_info_]
            ((FlowAllocatorInstance.new
              (env.allocatePortId flow.destination_naming_info_)).createFlowRequestMessageReceived
                env flow object_name invoke_id underlyingPortId) [] ∧
        Registry.find
            (fa.createFlowRequestMessageReceived env flow object_name invoke_id
              underlyingPortId).fa.flow_allocator_instances_
            (env.allocatePortId flow.destination_naming_info_) =
          (if ((FlowAllocatorInstance.new
                (env.allocatePortId flow.destination_naming_info_)).createFlowRequestMessageReceived
                  env flow object_name invoke_id underlyingPortId).removed = true then none
           else some ((FlowAllocatorInstance.new
                (env.allocatePortId flow.destination_naming_info_)).createFlowRequestMessageReceived
                  env flow object_name invoke_id underlyingPortId).fai) ∧
        ((FlowAllocatorInstance.new
            (env.allocatePortId flow.destination_naming_info_)).createFlowRequestMessageReceived
              env flow object_name invoke_id underlyingPortId).fai.port_id_ =
          env.allocatePortId flow.destination_naming_info_) ∧
      (¬ (env.getDFTNextHop flow.destination_naming_info_ ≠ 0 ∧
          env.getDFTNextHop flow.destination_naming_info_ = env.address ∧
          env.throws (Effect.allocatePortId flow.destination_naming_info_) = false) →
        (fa.createFlowRequestMessageReceived env flow object_name invoke_id
            underlyingPortId).fa = fa ∧
          (fa.createFlowRequestMessageReceived env flow object_name invoke_id
            underlyingPortId).completion = Completion.returned ∧
          ((fa.createFlowRequestMessageReceived env flow object_name invoke_id
              underlyingPortId).effects = [] ∨
            (env.throws (Effect.allocatePortId flow.destination_naming_info_) = true ∧
              (fa.createFlowRequestMessageReceived env flow object_name invoke_id
                underlyingPortId).effects =
                [Effect.allocatePortId flow.destination_naming_info_]))) ∧
      (env.getDFTNextHop flow.destination_naming_info_ = 0 →
        fa.createFlowRequestMessageReceived env flow object_name invoke_id underlyingPortId =
          { fa := fa, effects := [], completion := Completion.returned }) := by
  refine ⟨?_, ?_, ?_⟩
  · rintro ⟨h0, hme, halloc⟩
    have hout : fa.createFlowRequestMessageReceived env flow object_name invoke_id
        underlyingPortId =
          FlowAllocator.delegate
            { fa with
              flow_allocator_instances_ :=
                fa.flow_allocator_instances_.put
                  (env.allocatePortId flow.destination_naming_info_)
                  (FlowAllocatorInstance.new
                    (env.allocatePortId flow.destination_naming_info_)) }
            (env.allocatePortId flow.destination_naming_info_)
            [Effect.allocatePortId flow.destination_naming_info_]
            ((FlowAllocatorInstance.new
              (env.allocatePortId flow.destination_naming_info_)).createFlowRequestMessageReceived
                env flow object_name invoke_id underlyingPortId) [] := by
      simp only [FlowAllocator.createFlowRequestMessageReceived]
      rw [if_neg h0, if_pos hme]
      simp [halloc]
    have hport : ((FlowAllocatorInstance.new
        (env.allocatePortId flow.destination_naming_info_)).createFlowRequestMessageReceived
          env flow object_name invoke_id underlyingPortId).fai.port_id_ =
        env.allocatePortId flow.destination_naming_info_ :=
      (FlowAllocatorInstance.createFlowRequestMessageReceived_sound
        (env.allocatePortId flow.destination_naming_info_) env flow object_name invoke_id
        underlyingPortId).1
    refine ⟨hout, ?_, hport⟩
    rw [hout, FlowAllocator.delegate_fa, FlowAllocator.find_settle, hport]
    by_cases hr : ((FlowAllocatorInstance.new
        (env.allocatePortId flow.destination_naming_info_)).createFlowRequestMessageReceived
          env flow object_name invoke_id underlyingPortId).removed = true
    · simp [hr]
    · simp [hr, Registry.find_put]
  · intro hnot
    simp only [FlowAllocator.createFlowRequestMessageReceived]
    split_ifs with h0 hme halloc
    · exact ⟨rfl, rfl, Or.inl rfl⟩
    · exact ⟨rfl, rfl, Or.inr ⟨halloc, rfl⟩⟩
    · exact absurd ⟨h0, hme, by simpa using halloc⟩ hnot
    · exact ⟨rfl, rfl, Or.inl rfl⟩
  · intro h0
    simp [FlowAllocator.createFlowRequestMessageReceived, h0]

/-- Witness of C14: the create request of the literal scenario arrives at the
IPC process of address 20, which registers an instance under port-id 77. -/
theorem FlowAllocator.createFlowRequestMessageReceived_creates_witness :
    (Sample.envDestination.getDFTNextHop Sample.flow.destination_naming_info_ ≠ 0 ∧
        Sample.envDestination.getDFTNextHop Sample.flow.destination_naming_info_ =
          Sample.envDestination.address ∧
        Sample.envDestination.throws
          (Effect.allocatePortId Sample.flow.destination_naming_info_) = false) ∧
      Sample.envDestination.allocatePortId Sample.flow.destination_naming_info_ = 77 ∧
      Registry.find
          (FlowAllocator.new.createFlowRequestMessageReceived Sample.envDestination Sample.flow
            Sample.flowName 1 3).fa.flow_allocator_instances_ 77 = some Sample.arrived :=
  ⟨by decide, rfl,
    ((FlowAllocator.createFlowRequestMessageReceived_creates FlowAllocator.new
      Sample.envDestination Sample.flow Sample.flowName 1 3).1 (by decide)).2.1⟩

/-- C15: the forwarding branch is not written.  At the IPC process of address
10, for which the directory names address 20 as next hop, a create request with
hop count 3 and one with hop count 1 both leave the registry empty and the hop
count one lower (2, and 0), and in both cases no call at all is made: neither
the M_CREATE is forwarded nor a negative create response is sent. -/
theorem FlowAllocator.createFlowRequestMessageReceived_forwards_nothing :
    Sample.env.getDFTNextHop Sample.flow.destination_naming_info_ = 20 ∧
      Sample.env.address = 10 ∧
      FlowAllocator.new.createFlowRequestMessageReceived Sample.env Sample.flow
          Sample.flowName 1 3 =
        { fa := FlowAllocator.new, effects := [], completion := Completion.returned } ∧
      (FlowAllocator.flowAfterCreateFlowRequest Sample.env Sample.flow).hop_count_ = 2 ∧
      FlowAllocator.new.createFlowRequestMessageReceived Sample.env Sample.hopExpiring
          Sample.flowName 1 3 =
        { fa := FlowAllocator.new, effects := [], completion := Completion.returned } ∧
      (FlowAllocator.flowAfterCreateFlowRequest Sample.env Sample.hopExpiring).hop_count_ = 0 := by
  decide

/-! ## The registry of the flow allocator -/

theorem FlowAllocator.find_settle_other (fa : FlowAllocator) (key j : Int) (out : FaiOut)
    (hport : out.fai.port_id_ = key) (hj : j ≠ key) :
    Registry.find (fa.settle key out).flow_allocator_instances_ j =
      Registry.find fa.flow_allocator_instances_ j := by
  rw [FlowAllocator.find_settle, hport, if_neg (fun h => hj h.2), if_neg hj]

theorem FlowAllocator.settle_same (fa : FlowAllocator) (key : Int) (fai : FlowAllocatorInstance)
    (effects : List Effect) (completion : Completion)
    (h : Registry.find fa.flow_allocator_instances_ key = some fai) :
    fa.settle key { fai := fai, effects := effects, removed := false, completion := completion } =
      fa := by
  simp [FlowAllocator.settle, Registry.write_same _ _ _ h]

theorem Registry.find_of_mem (r : Registry) (k : Int) (v : FlowAllocatorInstance)
    (ho : Registry.ordered r) (h : (k, v) ∈ r) : Registry.find r k = some v := by
  induction r with
  | nil => simp at h
  | cons e rest ih =>
    obtain ⟨k0, v0⟩ := e
    have hcons : (∀ j ∈ Registry.keys rest, k0 < j) ∧ Registry.ordered rest := by
      simpa [Registry.ordered, Registry.keys] using ho
    simp only [Registry.find]
    rcases List.mem_cons.1 h with h1 | h1
    · cases h1
      simp
    · have hk : k ∈ Registry.keys rest := List.mem_map.2 ⟨(k, v), h1, rfl⟩
      have hlt := hcons.1 k hk
      rw [if_neg (by omega)]
      exact ih hcons.2 h1

theorem Registry.mem_of_find (r : Registry) (k : Int) (v : FlowAllocatorInstance)
    (h : Registry.find r k = some v) : (k, v) ∈ r := by
  induction r with
  | nil => simp [Registry.find] at h
  | cons e rest ih =>
    obtain ⟨k0, v0⟩ := e
    simp only [Registry.find] at h
    split_ifs at h with h1
    · cases h
      rw [h1]
      exact List.mem_cons_self _ _
    · exact List.mem_cons_of_mem _ (ih h)

theorem Registry.filter_key (r : Registry) (k : Int) (ho : Registry.ordered r)
    (hk : k ∈ Registry.keys r) :
    ∃ v, Registry.find r k = some v ∧ r.filter (fun e => decide (e.1 = k)) = [(k, v)] := by
  induction r with
  | nil => simp [Registry.keys] at hk
  | cons e rest ih =>
    obtain ⟨k0, v0⟩ := e
    have hcons : (∀ j ∈ Registry.keys rest, k0 < j) ∧ Registry.ordered rest := by
      simpa [Registry.ordered, Registry.keys] using ho
    by_cases h0 : k0 = k
    · refine ⟨v0, by simp [Registry.find, h0], ?_⟩
      have hrest : rest.filter (fun e => decide (e.1 = k)) = [] := by
        rw [List.filter_eq_nil_iff]
        intro e he
        have hlt := hcons.1 e.1 (List.mem_map.2 ⟨e, he, rfl⟩)
        simp only [decide_eq_true_eq]
        omega
      simp [List.filter, h0, hrest]
    · have hk2 : k ∈ Registry.keys rest := by
        simp only [Registry.keys, List.map_cons, List.mem_cons] at hk
        rcases hk with hk | hk
        · exact absurd hk.symm h0
        · exact hk
      obtain ⟨v, hv, hf⟩ := ih hcons.2 hk2
      refine ⟨v, by simp [Registry.find, h0, hv], ?_⟩
      simp [List.filter, h0, hf]

theorem FlowAllocator.findByHandle_handle (r : Registry) (n : Nat) (k : Int)
    (v : FlowAllocatorInstance) (h : FlowAllocator.findByHandle n r = some (k, v)) :
    v.get_allocate_response_message_handle = n := by
  induction r with
  | nil => simp [FlowAllocator.findByHandle] at h
  | cons e rest ih =>
    obtain ⟨k0, v0⟩ := e
    simp only [FlowAllocator.findByHandle] at h
    split_ifs at h with h1
    · cases h
      exact h1
    · exact ih h

theorem FlowAllocator.findByHandle_none (r : Registry) (n : Nat) :
    FlowAllocator.findByHandle n r = none ↔
      ∀ e ∈ r, e.2.get_allocate_response_message_handle ≠ n := by
  induction r with
  | nil => simp [FlowAllocator.findByHandle]
  | cons e rest ih =>
    obtain ⟨k0, v0⟩ := e
    simp only [FlowAllocator.findByHandle, List.mem_cons, forall_eq_or_imp]
    split_ifs with h1
    · simp [h1]
    · simp [h1, ih]

/-- C21.  For an instance registered under `key` in a state the flow allocator
reaches from the empty one, `destroyFlowAllocatorInstance` (whatever its two
arguments).  In WAITING_2_MPL_BEFORE_TEARING_DOWN it makes exactly two calls,
the deletion of the RIB object of class `FLOW_RIB_OBJECT_CLASS` named
`object_name_` and one `deallocatePortId` for the instance's port-id, which is
`key`; afterwards no instance is registered under `key` and every other entry
of the registry is as it was.  In any other state it makes no call and the
flow allocator, with the instance registered, is as it was. -/
theorem FlowAllocatorInstance.destroyFlowAllocatorInstance_registry
    (steps : List (Env × Operation)) (key : Int) (fai : FlowAllocatorInstance) (env : Env)
    (flowObjectName : String) (requestor : Bool)
    (hfind : Registry.find (FlowAllocator.new.run steps).fa.flow_allocator_instances_ key =
      some fai) :
    (fai.state_ = FAIState.WAITING_2_MPL_BEFORE_TEARING_DOWN →
        fai.destroyFlowAllocatorInstance env flowObjectName requestor =
          { fai := fai
            effects := [Effect.deleteObject env.constants.FLOW_RIB_OBJECT_CLASS fai.object_name_,
                        Effect.deallocatePortId key]
            removed := true
            completion := Completion.returned } ∧
        Registry.find ((FlowAllocator.new.run steps).fa.settle key
          (fai.destroyFlowAllocatorInstance env flowObjectName
            requestor)).flow_allocator_instances_ key = none ∧
        ∀ j, j ≠ key →
          Registry.find ((FlowAllocator.new.run steps).fa.settle key
            (fai.destroyFlowAllocatorInstance env flowObjectName
              requestor)).flow_allocator_instances_ j =
            Registry.find (FlowAllocator.new.run steps).fa.flow_allocator_instances_ j) ∧
      (fai.state_ ≠ FAIState.WAITING_2_MPL_BEFORE_TEARING_DOWN →
        fai.destroyFlowAllocatorInstance env flowObjectName requestor =
          { fai := fai, effects := [], removed := false, completion := Completion.returned } ∧
        (FlowAllocator.new.run steps).fa.settle key
          (fai.destroyFlowAllocatorInstance env flowObjectName requestor) =
            (FlowAllocator.new.run steps).fa) := by
  have hport : fai.port_id_ = key := FlowAllocator.port_id_new_run steps key fai hfind
  constructor
  · intro hstate
    have hout : fai.destroyFlowAllocatorInstance env flowObjectName requestor =
        { fai := fai
          effects := [Effect.deleteObject env.constants.FLOW_RIB_OBJECT_CLASS fai.object_name_,
                      Effect.deallocatePortId key]
          removed := true
          completion := Completion.returned } := by
      simp [FlowAllocatorInstance.destroyFlowAllocatorInstance, hstate,
        FlowAllocatorInstance.releaseUnlockRemove, FlowAllocatorInstance.releasePortId, hport]
    refine ⟨hout, ?_, fun j hj => ?_⟩
    · rw [hout]
      have h := FlowAllocator.find_settle_removed (FlowAllocator.new.run steps).fa key
        { fai := fai
          effects := [Effect.deleteObject env.constants.FLOW_RIB_OBJECT_CLASS fai.object_name_,
                      Effect.deallocatePortId key]
          removed := true
          completion := Completion.returned } rfl
      simpa only [hport] using h
    · rw [hout]
      exact FlowAllocator.find_settle_other _ key j _ hport hj
  · intro hstate
    have hout : fai.destroyFlowAllocatorInstance env flowObjectName requestor =
        { fai := fai, effects := [], removed := false, completion := Completion.returned } := by
      simp [FlowAllocatorInstance.destroyFlowAllocatorInstance, hstate,
        FlowAllocatorInstance.returns]
    refine ⟨hout, ?_⟩
    rw [hout]
    exact FlowAllocator.settle_same _ key fai [] Completion.returned hfind

/-- Witness of C21: the tear-down timer of the literal scenario fires after the
application of the source deallocated the flow. -/
theorem FlowAllocatorInstance.destroyFlowAllocatorInstance_registry_witness :
    Registry.find (FlowAllocator.new.run [Sample.allocate, Sample.connectionCreated,
        Sample.peerAccepted, Sample.connectionUpdated,
        Sample.deallocate]).fa.flow_allocator_instances_ 430 = some Sample.tearingDown ∧
      Sample.tearingDown.state_ = FAIState.WAITING_2_MPL_BEFORE_TEARING_DOWN ∧
      Sample.tearingDown.destroyFlowAllocatorInstance Sample.env Sample.flowName true =
        { fai := Sample.tearingDown
          effects := [Effect.deleteObject Sample.env.constants.FLOW_RIB_OBJECT_CLASS
                        Sample.tearingDown.object_name_,
                      Effect.deallocatePortId 430]
          removed := true
          completion := Completion.returned } ∧
      Registry.find ((FlowAllocator.new.run [Sample.allocate, Sample.connectionCreated,
          Sample.peerAccepted, Sample.connectionUpdated, Sample.deallocate]).fa.settle 430
        (Sample.tearingDown.destroyFlowAllocatorInstance Sample.env Sample.flowName
          true)).flow_allocator_instances_ 430 = none :=
  ⟨rfl, rfl,
    ((FlowAllocatorInstance.destroyFlowAllocatorInstance_registry
      [Sample.allocate, Sample.connectionCreated, Sample.peerAccepted, Sample.connectionUpdated,
        Sample.deallocate] 430 Sample.tearingDown Sample.env Sample.flowName true rfl).1 rfl).1,
    ((FlowAllocatorInstance.destroyFlowAllocatorInstance_registry
      [Sample.allocate, Sample.connectionCreated, Sample.peerAccepted, Sample.connectionUpdated,
        Sample.deallocate] 430 Sample.tearingDown Sample.env Sample.flowName true rfl).1
          rfl).2.1⟩

/-- C22.  In every state the flow allocator reaches from the empty one,
`FlowAllocator::submitAllocateResponse`.  When the scan finds the instance
`fai` registered under `key`, the handle of `fai` is the sequence number of the
event, the method is the delegation of the event to that one instance, and
every entry of the registry under another key is as it was.  The scan finds an
instance whenever some registered instance has that handle.  When no
registered instance has that handle the flow allocator is as it was and no
call is made. -/
theorem FlowAllocator.submitAllocateResponse_delivers (steps : List (Env × Operation))
    (env : Env) (event : AllocateFlowResponseEvent) :
    (∀ key fai,
        FlowAllocator.findByHandle event.sequenceNumber
          (FlowAllocator.new.run steps).fa.flow_allocator_instances_ = some (key, fai) →
        Registry.find (FlowAllocator.new.run steps).fa.flow_allocator_instances_ key = some fai ∧
          fai.get_allocate_response_message_handle = event.sequenceNumber ∧
          (FlowAllocator.new.run steps).fa.submitAllocateResponse env event =
            FlowAllocator.delegate (FlowAllocator.new.run steps).fa key []
              (fai.submitAllocateResponse env event) [] ∧
          ∀ j, j ≠ key →
            Registry.find ((FlowAllocator.new.run steps).fa.submitAllocateResponse env
              event).fa.flow_allocator_instances_ j =
              Registry.find (FlowAllocator.new.run steps).fa.flow_allocator_instances_ j) ∧
      ((∃ key fai,
          Registry.find (FlowAllocator.new.run steps).fa.flow_allocator_instances_ key =
            some fai ∧
          fai.get_allocate_response_message_handle = event.sequenceNumber) →
        ∃ key fai, FlowAllocator.findByHandle event.sequenceNumber
          (FlowAllocator.new.run steps).fa.flow_allocator_instances_ = some (key, fai)) ∧
      ((∀ key fai,
          Registry.find (FlowAllocator.new.run steps).fa.flow_allocator_instances_ key =
            some fai →
          fai.get_allocate_response_message_handle ≠ event.sequenceNumber) →
        (FlowAllocator.new.run steps).fa.submitAllocateResponse env event =
          { fa := (FlowAllocator.new.run steps).fa, effects := [],
            completion := Completion.returned }) := by
  have ho := FlowAllocator.ordered_new_run steps
  refine ⟨fun key fai h => ?_, ?_, fun hnone => ?_⟩
  · have hfind := FlowAllocator.find_of_findByHandle _ _ key fai ho h
    have hport : fai.port_id_ = key := FlowAllocator.port_id_new_run steps key fai hfind
    have hout : (FlowAllocator.new.run steps).fa.submitAllocateResponse env event =
        FlowAllocator.delegate (FlowAllocator.new.run steps).fa key []
          (fai.submitAllocateResponse env event) [] := by
      simp only [FlowAllocator.submitAllocateResponse, h]
    refine ⟨hfind, FlowAllocator.findByHandle_handle _ _ key fai h, hout, fun j hj => ?_⟩
    rw [hout, FlowAllocator.delegate_fa]
    exact FlowAllocator.find_settle_other _ key j _
      ((FlowAllocatorInstance.handle_sound fai env (.submitAllocateResponse event)).port.trans
        hport) hj
  · rintro ⟨key, fai, hfind, hh⟩
    cases hs : FlowAllocator.findByHandle event.sequenceNumber
        (FlowAllocator.new.run steps).fa.flow_allocator_instances_ with
    | none =>
      exact absurd hh ((FlowAllocator.findByHandle_none _ _).1 hs (key, fai)
        (Registry.mem_of_find _ key fai hfind))
    | some e => exact ⟨e.1, e.2, rfl⟩
  · have hs : FlowAllocator.findByHandle event.sequenceNumber
        (FlowAllocator.new.run steps).fa.flow_allocator_instances_ = none :=
      (FlowAllocator.findByHandle_none _ _).2 fun e he =>
        hnone e.1 e.2 (Registry.find_of_mem _ e.1 e.2 ho he)
    simp only [FlowAllocator.submitAllocateResponse, hs]

/-- Witness of C22: the response of the application of the destination, with
sequence number 5, reaches the instance registered under port-id 77. -/
theorem FlowAllocator.submitAllocateResponse_delivers_witness :
    FlowAllocator.findByHandle 5 (FlowAllocator.new.run [Sample.createArrived,
        Sample.connectionArrived]).fa.flow_allocator_instances_ = some (77, Sample.notified) ∧
      (FlowAllocator.new.run [Sample.createArrived,
          Sample.connectionArrived]).fa.submitAllocateResponse Sample.envDestination ⟨5, 0⟩ =
        FlowAllocator.delegate
          (FlowAllocator.new.run [Sample.createArrived, Sample.connectionArrived]).fa 77 []
          (Sample.notified.submitAllocateResponse Sample.envDestination ⟨5, 0⟩) [] :=
  ⟨rfl, ((FlowAllocator.submitAllocateResponse_delivers
    [Sample.createArrived, Sample.connectionArrived] Sample.envDestination ⟨5, 0⟩).1 77
      Sample.notified rfl).2.2.1⟩

/-- C23, as stated, fails for `processCreateConnectionResponseEvent`.  After
the allocate request of the literal scenario only port-id 430 is registered; a
create-connection response for port-id 431 leaves the flow allocator as it was
and makes no call: `deallocatePortId` is not called. -/
theorem FlowAllocator.processCreateConnectionResponseEvent_unknown_port_id :
    Registry.find (FlowAllocator.new.run [Sample.allocate]).fa.flow_allocator_instances_ 431 =
        none ∧
      (FlowAllocator.new.run [Sample.allocate]).fa.processCreateConnectionResponseEvent
          Sample.env ⟨431, 7⟩ =
        { fa := (FlowAllocator.new.run [Sample.allocate]).fa, effects := [],
          completion := Completion.returned } ∧
      ((FlowAllocator.new.run [Sample.allocate]).fa.processCreateConnectionResponseEvent
          Sample.env ⟨431, 7⟩).effects.count (Effect.deallocatePortId 431) = 0 := by
  decide

/-- C23, amended.  When no instance is registered under `portId`, each of the
four operations leaves the flow allocator, its registry and every instance, as
it was and returns.  `processCreateConnectionResultEvent` and
`processUpdateConnectionResponseEvent` make exactly one call,
`deallocatePortId(portId)`; `submitDeallocate` makes that call once and then
notifies the IPC Manager with `notifyflowDeallocated(event, -1)`;
`processCreateConnectionResponseEvent` makes no call. -/
theorem FlowAllocator.unknown_port_id (fa : FlowAllocator) (env : Env) (portId : Int)
    (hmiss : Registry.find fa.flow_allocator_instances_ portId = none) :
    (∀ event : CreateConnectionResponseEvent, event.portId = portId →
        fa.processCreateConnectionResponseEvent env event =
          { fa := fa, effects := [], completion := Completion.returned }) ∧
      (∀ event : CreateConnectionResultEvent, event.portId = portId →
        fa.processCreateConnectionResultEvent env event =
          { fa := fa, effects := [Effect.deallocatePortId portId],
            completion := Completion.returned }) ∧
      (∀ event : UpdateConnectionResponseEvent, event.portId = portId →
        fa.processUpdateConnectionResponseEvent env event =
          { fa := fa, effects := [Effect.deallocatePortId portId],
            completion := Completion.returned }) ∧
      (∀ event : FlowDeallocateRequestEvent, event.portId = portId →
        fa.submitDeallocate env event =
          { fa := fa
            effects := [Effect.deallocatePortId portId, Effect.notifyflowDeallocated event (-1)]
            completion := Completion.returned }) := by
  refine ⟨fun event he => ?_, fun event he => ?_, fun event he => ?_, fun event he => ?_⟩
  · simp only [FlowAllocator.processCreateConnectionResponseEvent, he, hmiss]
  · simp only [FlowAllocator.processCreateConnectionResultEvent, he, hmiss]
  · simp only [FlowAllocator.processUpdateConnectionResponseEvent, he, hmiss]
  · simp only [FlowAllocator.submitDeallocate, he, hmiss]

/-- Witness of C23 (amended): events for port-id 431 while only port-id 430 is
registered. -/
theorem FlowAllocator.unknown_port_id_witness :
    Registry.find (FlowAllocator.new.run [Sample.allocate]).fa.flow_allocator_instances_ 431 =
        none ∧
      (FlowAllocator.new.run [Sample.allocate]).fa.processCreateConnectionResultEvent
          Sample.env ⟨431, 9, 0⟩ =
        { fa := (FlowAllocator.new.run [Sample.allocate]).fa
          effects := [Effect.deallocatePortId 431]
          completion := Completion.returned } ∧
      (FlowAllocator.new.run [Sample.allocate]).fa.processUpdateConnectionResponseEvent
          Sample.env ⟨431, 0⟩ =
        { fa := (FlowAllocator.new.run [Sample.allocate]).fa
          effects := [Effect.deallocatePortId 431]
          completion := Completion.returned } ∧
      (FlowAllocator.new.run [Sample.allocate]).fa.submitDeallocate Sample.env ⟨431, 12⟩ =
        { fa := (FlowAllocator.new.run [Sample.allocate]).fa
          effects := [Effect.deallocatePortId 431,
                      Effect.notifyflowDeallocated ⟨431, 12⟩ (-1)]
          completion := Completion.returned } :=
  ⟨rfl,
    (FlowAllocator.unknown_port_id (FlowAllocator.new.run [Sample.allocate]).fa Sample.env 431
      rfl).2.1 ⟨431, 9, 0⟩ rfl,
    (FlowAllocator.unknown_port_id (FlowAllocator.new.run [Sample.allocate]).fa Sample.env 431
      rfl).2.2.1 ⟨431, 0⟩ rfl,
    (FlowAllocator.unknown_port_id (FlowAllocator.new.run [Sample.allocate]).fa Sample.env 431
      rfl).2.2.2 ⟨431, 12⟩ rfl⟩

/-- C24.  In every state the flow allocator reaches from the empty registry
through its entry points, for each port-id `P` present in the registry: an
instance is found under `P`, the entries of the registry with key `P` are that
one entry, and the `port_id_` of the instance is `P`. -/
theorem FlowAllocator.one_instance_per_port_id (steps : List (Env × Operation)) (P : Int)
    (hP : P ∈ Registry.keys (FlowAllocator.new.run steps).fa.flow_allocator_instances_) :
    ∃ fai,
      Registry.find (FlowAllocator.new.run steps).fa.flow_allocator_instances_ P = some fai ∧
      (FlowAllocator.new.run steps).fa.flow_allocator_instances_.filter
        (fun e => decide (e.1 = P)) = [(P, fai)] ∧
      fai.port_id_ = P := by
  obtain ⟨fai, hfind, hfilter⟩ :=
    Registry.filter_key _ P (FlowAllocator.ordered_new_run steps) hP
  exact ⟨fai, hfind, hfilter, FlowAllocator.port_id_new_run steps P fai hfind⟩

/-- Witness of C24: port-id 430 after the literal scenario reached FLOW_ALLOCATED. -/
theorem FlowAllocator.one_instance_per_port_id_witness :
    (430 : Int) ∈ Registry.keys (FlowAllocator.new.run [Sample.allocate,
        Sample.connectionCreated, Sample.peerAccepted,
        Sample.connectionUpdated]).fa.flow_allocator_instances_ ∧
      ∃ fai,
        Registry.find (FlowAllocator.new.run [Sample.allocate, Sample.connectionCreated,
          Sample.peerAccepted, Sample.connectionUpdated]).fa.flow_allocator_instances_ 430 =
            some fai ∧
        (FlowAllocator.new.run [Sample.allocate, Sample.connectionCreated, Sample.peerAccepted,
          Sample.connectionUpdated]).fa.flow_allocator_instances_.filter
            (fun e => decide (e.1 = 430)) = [(430, fai)] ∧
        fai.port_id_ = 430 :=
  ⟨by decide, FlowAllocator.one_instance_per_port_id [Sample.allocate, Sample.connectionCreated,
    Sample.peerAccepted, Sample.connectionUpdated] 430 (by decide)⟩

/-! ## The policy for new flow requests -/

theorem SimpleNewFlowRequestPolicy.firstRtxCube_eq_find (flowSpec : FlowSpecification)
    (h : 0 ≤ flowSpec.maxAllowableGap) (cubes : List QoSCube) :
    SimpleNewFlowRequestPolicy.firstRtxCube flowSpec cubes =
      cubes.find? fun c =>
        c.efcp_policies_.dtcp_present_ && c.efcp_policies_.dtcp_configuration_.rtx_control_ := by
  induction cubes with
  | nil => rfl
  | cons cube rest ih =>
    simp only [SimpleNewFlowRequestPolicy.firstRtxCube, List.find?, h, true_and, ih]
    cases cube.efcp_policies_.dtcp_present_ <;>
      cases cube.efcp_policies_.dtcp_configuration_.rtx_control_ <;> simp

/-- C25.  For a catalogue that is not empty, `cube` being its first member,
and every flow specification.  If `maxAllowableGap < 0`, `selectQoSCube`
returns `cube`, whatever its policies.  Otherwise it returns the first cube, in
the order of the catalogue, whose EFCP policies have DTCP present and
retransmission control enabled, and throws the exception when there is none;
so it throws if and only if no cube of the catalogue has both. -/
theorem SimpleNewFlowRequestPolicy.selectQoSCube_nonempty (env : Env)
    (flowSpec : FlowSpecification) (cube : QoSCube) (rest : List QoSCube)
    (hcubes : SimpleNewFlowRequestPolicy.getQoSCubes env = cube :: rest) :
    (flowSpec.maxAllowableGap < 0 →
        SimpleNewFlowRequestPolicy.selectQoSCube env flowSpec = .ok cube) ∧
      (0 ≤ flowSpec.maxAllowableGap →
        SimpleNewFlowRequestPolicy.selectQoSCube env flowSpec =
          match (cube :: rest).find? fun c =>
            c.efcp_policies_.dtcp_present_ &&
              c.efcp_policies_.dtcp_configuration_.rtx_control_ with
          | some c => .ok c
          | none => .error (.exception "Could not find a QoS Cube with Rtx control disabled!")) ∧
      (0 ≤ flowSpec.maxAllowableGap →
        ((∃ what, SimpleNewFlowRequestPolicy.selectQoSCube env flowSpec =
            .error (.exception what)) ↔
          ∀ c ∈ cube :: rest,
            ¬ (c.efcp_policies_.dtcp_present_ = true ∧
                c.efcp_policies_.dtcp_configuration_.rtx_control_ = true))) := by
  have hsel : 0 ≤ flowSpec.maxAllowableGap →
      SimpleNewFlowRequestPolicy.selectQoSCube env flowSpec =
        match (cube :: rest).find? fun c =>
          c.efcp_policies_.dtcp_present_ &&
            c.efcp_policies_.dtcp_configuration_.rtx_control_ with
        | some c => .ok c
        | none => .error (.exception "Could not find a QoS Cube with Rtx control disabled!") := by
    intro hg
    simp only [SimpleNewFlowRequestPolicy.selectQoSCube, hcubes, if_neg (not_lt.2 hg),
      SimpleNewFlowRequestPolicy.firstRtxCube_eq_find flowSpec hg]
  refine ⟨fun hg => ?_, hsel, fun hg => ?_⟩
  · simp only [SimpleNewFlowRequestPolicy.selectQoSCube, hcubes, if_pos hg]
  · rw [hsel hg]
    cases hf : (cube :: rest).find? fun c =>
        c.efcp_policies_.dtcp_present_ &&
          c.efcp_policies_.dtcp_configuration_.rtx_control_ with
    | none =>
      simp only [exists_apply_eq_apply', Except.error.injEq, Fault.exception.injEq,
        exists_eq', true_iff]
      intro c hc
      have := List.find?_eq_none.1 hf c hc
      simpa using this
    | some c =>
      have hp := List.find?_some hf
      have hm := List.mem_of_find?_eq_some hf
      simp only [Bool.and_eq_true] at hp
      constructor
      · rintro ⟨what, hw⟩
        cases hw
      · intro hall
        exact absurd hp (hall c hm)

/-- Witness of C25: with the catalogue [unreliable, reliable], a flow
specification with gap -1 is given the first cube and one with gap 0 the
second. -/
theorem SimpleNewFlowRequestPolicy.selectQoSCube_nonempty_witness :
    SimpleNewFlowRequestPolicy.getQoSCubes Sample.envTwoCubes =
        Sample.unreliableCube :: [Sample.reliableCube] ∧
      Sample.flowSpec.maxAllowableGap < 0 ∧
      SimpleNewFlowRequestPolicy.selectQoSCube Sample.envTwoCubes Sample.flowSpec =
        .ok Sample.unreliableCube ∧
      0 ≤ Sample.reliableSpec.maxAllowableGap ∧
      SimpleNewFlowRequestPolicy.selectQoSCube Sample.envTwoCubes Sample.reliableSpec =
        .ok Sample.reliableCube :=
  ⟨rfl, by decide,
    (SimpleNewFlowRequestPolicy.selectQoSCube_nonempty Sample.envTwoCubes Sample.flowSpec
      Sample.unreliableCube [Sample.reliableCube] rfl).1 (by decide),
    by decide,
    (SimpleNewFlowRequestPolicy.selectQoSCube_nonempty Sample.envTwoCubes Sample.reliableSpec
      Sample.unreliableCube [Sample.reliableCube] rfl).2.1 (by decide)⟩

/-- C26: on an empty catalogue with `maxAllowableGap < 0` the selection reads
`*(qosCubes.begin())` of an empty list.  With the QoS cube set without children
and with no QoS cube set at all, the flow specification of the literal scenario
(gap -1) runs into undefined behaviour instead of the exception; with gap 0 the
exception is thrown in both cases. -/
theorem SimpleNewFlowRequestPolicy.selectQoSCube_empty_catalogue :
    SimpleNewFlowRequestPolicy.getQoSCubes Sample.envNoCubes = [] ∧
      SimpleNewFlowRequestPolicy.getQoSCubes Sample.envNoCubeSet = [] ∧
      Sample.flowSpec.maxAllowableGap = -1 ∧
      SimpleNewFlowRequestPolicy.selectQoSCube Sample.envNoCubes Sample.flowSpec =
        .error (.undefinedBehaviour "*(qosCubes.begin()) on an empty list") ∧
      SimpleNewFlowRequestPolicy.selectQoSCube Sample.envNoCubeSet Sample.flowSpec =
        .error (.undefinedBehaviour "*(qosCubes.begin()) on an empty list") ∧
      SimpleNewFlowRequestPolicy.selectQoSCube Sample.envNoCubes Sample.reliableSpec =
        .error (.exception "Could not find a QoS Cube with Rtx control disabled!") ∧
      SimpleNewFlowRequestPolicy.selectQoSCube Sample.envNoCubeSet Sample.reliableSpec =
        .error (.exception "Could not find a QoS Cube with Rtx control disabled!") :=
  ⟨rfl, rfl, rfl, rfl, rfl, rfl, rfl⟩

/-- C27.  For every request event for which `selectQoSCube` returns a cube,
`generateFlowObject` returns a flow with `source_ = true`, state
ALLOCATION_IN_PROGRESS, hop count 3, `max_create_flow_retries_ = 1`, the
event's local and remote application names as source and destination naming,
the event's flow specification, and exactly one connection, at
`current_connection_index_` 0, whose port-id is the event's, whose source
address is the IPC process's address, whose qos-id is 1 and whose flow user IPC
process id is the event's requestor id. -/
theorem SimpleNewFlowRequestPolicy.generateFlowObject_fields (env : Env)
    (event : FlowRequestEvent) (qosCube : QoSCube)
    (hselected : SimpleNewFlowRequestPolicy.selectQoSCube env event.flowSpecification =
      .ok qosCube) :
    ∃ flow connection,
      SimpleNewFlowRequestPolicy.generateFlowObject env event = .ok flow ∧
      flow.source_ = true ∧
      flow.state_ = Flow.ALLOCATION_IN_PROGRESS ∧
      flow.hop_count_ = 3 ∧
      flow.max_create_flow_retries_ = 1 ∧
      flow.source_naming_info_ = event.localApplicationName ∧
      flow.destination_naming_info_ = event.remoteApplicationName ∧
      flow.flow_specification_ = event.flowSpecification ∧
      flow.connections_ = [connection] ∧
      flow.current_connection_index_ = 0 ∧
      flow.getActiveConnection = some connection ∧
      connection.portId = event.portId ∧
      connection.sourceAddress = env.address ∧
      connection.qosId = 1 ∧
      connection.flowUserIpcProcessId = event.flowRequestorIpcProcessId := by
  have hgen : SimpleNewFlowRequestPolicy.generateFlowObject env event =
      .ok { Flow.new with
            destination_naming_info_ := event.remoteApplicationName
            source_naming_info_ := event.localApplicationName
            hop_count_ := 3
            max_create_flow_retries_ := 1
            source_ := true
            state_ := Flow.ALLOCATION_IN_PROGRESS
            connections_ := [SimpleNewFlowRequestPolicy.newConnection env event qosCube]
            current_connection_index_ := 0
            flow_specification_ := event.flowSpecification } := by
    simp only [SimpleNewFlowRequestPolicy.generateFlowObject, hselected]
  exact ⟨_, SimpleNewFlowRequestPolicy.newConnection env event qosCube, hgen, rfl, rfl, rfl, rfl,
    rfl, rfl, rfl, rfl, rfl, rfl, rfl, rfl, rfl, rfl⟩

/-- Witness of C27: the flow generated for the allocate request of the literal
scenario once port-id 430 is written into the event. -/
theorem SimpleNewFlowRequestPolicy.generateFlowObject_fields_witness :
    SimpleNewFlowRequestPolicy.selectQoSCube Sample.env
        ({ Sample.request with portId := 430 } : FlowRequestEvent).flowSpecification =
        .ok Sample.unreliableCube ∧
      ∃ flow connection,
        SimpleNewFlowRequestPolicy.generateFlowObject Sample.env
          { Sample.request with portId := 430 } = .ok flow ∧
        flow.source_ = true ∧
        flow.state_ = Flow.ALLOCATION_IN_PROGRESS ∧
        flow.hop_count_ = 3 ∧
        flow.max_create_flow_retries_ = 1 ∧
        flow.source_naming_info_ = Sample.sourceName ∧
        flow.destination_naming_info_ = Sample.destinationName ∧
        flow.flow_specification_ = Sample.flowSpec ∧
        flow.connections_ = [connection] ∧
        flow.current_connection_index_ = 0 ∧
        flow.getActiveConnection = some connection ∧
        connection.portId = 430 ∧
        connection.sourceAddress = 10 ∧
        connection.qosId = 1 ∧
        connection.flowUserIpcProcessId = 1 :=
  ⟨rfl, SimpleNewFlowRequestPolicy.generateFlowObject_fields Sample.env
    { Sample.request with portId := 430 } Sample.unreliableCube rfl⟩

/-! ## Presence of the access control field and refused input -/

/-- C28: `FlowEncoder::decode` does not keep the absence of access control.
`FlowEncoder::encode` sets the field `accesscontrol` of the message exactly
when `access_control_` is not null (for every codec and flow, the field of the
message is the member of the flow).  `FlowEncoder::decode` assigns
`accesscontrol().c_str()`, which is never the null pointer: whatever it
decodes, the access control of the flow it returns is present.  The flow of the
literal scenario has no access control, the message built for it carries no
`accesscontrol`, and the flow decoded from it has the empty string as access
control. -/
theorem FlowEncoder.decode_access_control_never_absent :
    (∀ (N Q P Bytes : Type) (E : Encoder N Q P Bytes) (f : Flow) (a : Connection),
        (FlowEncoder.gpf_flow E f a).accesscontrol = f.access_control_) ∧
      (∀ (N Q P Bytes : Type) (E : Encoder N Q P Bytes) (bytes : Bytes),
        (match FlowEncoder.decode E bytes with
          | .ok g => g.access_control_.isSome
          | .error _ => true) = true) ∧
      Sample.flow.access_control_ = none ∧
      FlowEncoder.encode Sample.encoder Sample.flow =
        .ok (FlowEncoder.gpf_flow Sample.encoder Sample.flow
          { Connection.new with portId := 430, sourceAddress := 10, destAddress := 20,
                                qosId := 1, sourceCepId := 7 }) ∧
      (FlowEncoder.gpf_flow Sample.encoder Sample.flow
          { Connection.new with portId := 430, sourceAddress := 10, destAddress := 20,
                                qosId := 1, sourceCepId := 7 }).accesscontrol = none ∧
      (match FlowEncoder.decode Sample.encoder
          (FlowEncoder.gpf_flow Sample.encoder Sample.flow
            { Connection.new with portId := 430, sourceAddress := 10, destAddress := 20,
                                  qosId := 1, sourceCepId := 7 }) with
        | .ok g => g.access_control_
        | .error _ => none) = some "" := by
  refine ⟨fun N Q P Bytes E f a => ?_, fun N Q P Bytes E bytes => ?_, rfl, rfl, rfl, rfl⟩
  · simp only [FlowEncoder.gpf_flow]
    cases f.access_control_ <;> rfl
  · simp only [FlowEncoder.decode]
    split
    · rename_i g hg
      split at hg
      · cases hg
      · cases hg
        rfl
    · rfl

/-- C29: `FlowEncoder::decode` does not look at the result of
`ParseFromArray`.  For every codec and input, decoding gives what it gives with
a `ParseFromArray` that leaves the same message and answers true.  With the
codec `Sample.flaggedEncoder`, the input `Sample.refusedInput` is refused by
`ParseFromArray`, and `FlowEncoder::decode` returns a flow built from the
fields left behind. -/
theorem FlowEncoder.decode_ignores_parse_result :
    (∀ (N Q P Bytes : Type) (E : Encoder N Q P Bytes) (bytes : Bytes),
        FlowEncoder.decode E bytes =
          FlowEncoder.decode
            { E with ParseFromArray := fun b => (true, (E.ParseFromArray b).2) } bytes) ∧
      (Sample.flaggedEncoder.ParseFromArray Sample.refusedInput).1 = false ∧
      (match FlowEncoder.decode Sample.flaggedEncoder Sample.refusedInput with
        | .ok g => some (g.source_naming_info_, g.destination_naming_info_, g.source_port_id_,
            g.source_address_, g.destination_address_, g.hop_count_)
        | .error _ => none) =
        some (Sample.sourceName, Sample.destinationName, 430, 10, 20, 3) :=
  ⟨fun _ _ _ _ _ _ => rfl, rfl, rfl⟩

/-! ## The QoS cube set -/

theorem QoSCubeSetRIBObject.removeChildren_all
    (remove_child : List QoSCubeRIBObject → String → Except Fault (List QoSCubeRIBObject))
    (hremove : ∀ children name, (∃ c ∈ children, c.name_ = name) →
      ∃ c rest, remove_child children name = .ok rest ∧ c.name_ = name ∧
        children.Perm (c :: rest))
    (names : List String) :
    ∀ children : List QoSCubeRIBObject,
      (children.map fun child => child.name_).Perm names →
      QoSCubeSetRIBObject.removeChildren remove_child children names = .ok [] := by
  induction names with
  | nil =>
    intro children h
    have hnil : children = [] := by
      have := List.Perm.eq_nil h
      simpa using this
    simp [QoSCubeSetRIBObject.removeChildren, hnil]
  | cons n rest ih =>
    intro children h
    have hn : n ∈ children.map fun child => child.name_ :=
      (List.Perm.mem_iff h).2 (List.mem_cons_self _ _)
    obtain ⟨c0, hc0, hname0⟩ := List.mem_map.1 hn
    obtain ⟨c, left, hok, hname, hperm⟩ := hremove children n ⟨c0, hc0, hname0⟩
    have h1 : (children.map fun child => child.name_).Perm
        (n :: left.map fun child => child.name_) := by
      have := List.Perm.map (fun child : QoSCubeRIBObject => child.name_) hperm
      simpa [hname] using this
    have h2 : (left.map fun child => child.name_).Perm rest :=
      List.Perm.cons_inv (h1.symm.trans h)
    simp only [QoSCubeSetRIBObject.removeChildren, hok]
    exact ih left h2

theorem Sample.remove_child_removes (children : List QoSCubeRIBObject) (name : String)
    (h : ∃ c ∈ children, c.name_ = name) :
    ∃ c rest, Sample.remove_child children name = .ok rest ∧ c.name_ = name ∧
      children.Perm (c :: rest) := by
  obtain ⟨c0, hc0, hname0⟩ := h
  have hany : children.any (fun child => child.name_ == name) = true :=
    List.any_eq_true.2 ⟨c0, hc0, by simp [hname0]⟩
  obtain ⟨a, front, back, _, hpa, hl, he⟩ :=
    List.exists_of_eraseP (p := fun child : QoSCubeRIBObject => child.name_ == name) hc0
      (by simp [hname0])
  refine ⟨a, front ++ back, ?_, by simpa using hpa, ?_⟩
  · simp only [Sample.remove_child, hany, if_true, he]
  · rw [hl]
    exact List.perm_middle

/-- C30.  For every QoS cube set, whatever its children, when `remove_child`
called with the name of a child takes out one child of that name:
`QoSCubeSetRIBObject::deleteObject` returns and leaves the set without
children, whether the object value passed is null or not; and
`QoSCubeSetRIBObject::remoteCreateObject` leaves the children as they were. -/
theorem QoSCubeSetRIBObject.deleteObject_removes_every_child
    (remove_child : List QoSCubeRIBObject → String → Except Fault (List QoSCubeRIBObject))
    (obj : QoSCubeSetRIBObject)
    (hremove : ∀ children name, (∃ c ∈ children, c.name_ = name) →
      ∃ c rest, remove_child children name = .ok rest ∧ c.name_ = name ∧
        children.Perm (c :: rest)) :
    (∀ objectValue : Option QoSCube,
        QoSCubeSetRIBObject.deleteObject remove_child obj objectValue =
          .ok { children_ := [] }) ∧
      ∀ (object_value : Option QoSCube) (object_name : String) (invoke_id : Int)
        (session_port_id : Int),
        (obj.remoteCreateObject object_value object_name invoke_id session_port_id).children_ =
          obj.children_ := by
  refine ⟨fun objectValue => ?_, fun _ _ _ _ => rfl⟩
  simp only [QoSCubeSetRIBObject.deleteObject,
    QoSCubeSetRIBObject.removeChildren_all remove_child hremove _ obj.children_
      (List.Perm.refl _)]

/-- Witness of C30: the set with the two cubes of the sample catalogue. -/
theorem QoSCubeSetRIBObject.deleteObject_removes_every_child_witness :
    (∀ children name, (∃ c ∈ children, c.name_ = name) →
        ∃ c rest, Sample.remove_child children name = .ok rest ∧ c.name_ = name ∧
          children.Perm (c :: rest)) ∧
      Sample.cubeSet.children_.length = 2 ∧
      QoSCubeSetRIBObject.deleteObject Sample.remove_child Sample.cubeSet none =
        .ok { children_ := [] } ∧
      QoSCubeSetRIBObject.deleteObject Sample.remove_child Sample.cubeSet
        (some Sample.reliableCube) = .ok { children_ := [] } ∧
      (Sample.cubeSet.remoteCreateObject (some Sample.reliableCube)
        "/dif/management/flowallocator/qoscubes/other" 1 3).children_ =
          Sample.cubeSet.children_ :=
  ⟨Sample.remove_child_removes, rfl,
    (QoSCubeSetRIBObject.deleteObject_removes_every_child Sample.remove_child Sample.cubeSet
      Sample.remove_child_removes).1 none,
    (QoSCubeSetRIBObject.deleteObject_removes_every_child Sample.remove_child Sample.cubeSet
      Sample.remove_child_removes).1 (some Sample.reliableCube),
    (QoSCubeSetRIBObject.deleteObject_removes_every_child Sample.remove_child Sample.cubeSet
      Sample.remove_child_removes).2 (some Sample.reliableCube)
      "/dif/management/flowallocator/qoscubes/other" 1 3⟩

/-! ## The positive create response at the source -/

/-- C31, as stated, fails when the kernel refuses the update.  The instance of
the literal scenario, in MESSAGE_TO_PEER_FAI_SENT, receives a create response
with result 0 and a flow while `updateConnection` throws: of the three calls
made the second is an allocate-flow result to the IPC Manager, and the
instance is removed. -/
theorem FlowAllocatorInstance.createResponse_kernel_refuses :
    Sample.sent.state_ = FAIState.MESSAGE_TO_PEER_FAI_SENT ∧
      ((Sample.sent.createResponse Sample.envUpdateRefused 0 ""
          (some Sample.responseFlow)).effects.map fun e =>
        match e with
        | Effect.allocateFlowRequestResult _ _ => true
        | _ => false) = [false, true, false] ∧
      (Sample.sent.createResponse Sample.envUpdateRefused 0 ""
        (some Sample.responseFlow)).removed = true := by
  decide

/-- C31, amended.  For an instance registered in a state the flow allocator
reaches from the empty one, in MESSAGE_TO_PEER_FAI_SENT, `createResponse` with
result 0 and a returned flow `r` that has an active connection, when the
kernel's `updateConnection` does not throw: the instance holds a flow with an
active connection, and the method returns without removing the instance, having
made one call only, `updateConnection` for the active connection with its
`destCepId` set to that of the active connection of `r`; afterwards the flow is
the one held before with `destination_port_id_` set to that of `r` and that
active connection, every other field as it was, and the state is
CONNECTION_UPDATE_REQUESTED. -/
theorem FlowAllocatorInstance.createResponse_accepted (steps : List (Env × Operation))
    (key : Int) (fai : FlowAllocatorInstance) (env : Env) (result_reason : String) (r : Flow)
    (received : Connection)
    (hfind : Registry.find (FlowAllocator.new.run steps).fa.flow_allocator_instances_ key =
      some fai)
    (hstate : fai.state_ = FAIState.MESSAGE_TO_PEER_FAI_SENT)
    (hreceived : r.getActiveConnection = some received)
    (hkernel : ∀ connection, env.throws (Effect.updateConnection connection) = false) :
    ∃ flow active, fai.flow_ = some flow ∧ flow.getActiveConnection = some active ∧
      fai.createResponse env 0 result_reason (some r) =
        { fai := { fai with
                   flow_ := some (Flow.setActiveConnection
                     { flow with destination_port_id_ := r.destination_port_id_ }
                     { active with destCepId := received.destCepId })
                   state_ := FAIState.CONNECTION_UPDATE_REQUESTED }
          effects := [Effect.updateConnection { active with destCepId := received.destCepId }]
          removed := false
          completion := Completion.returned } := by
  rcases FlowAllocator.wellFormed_new_run steps key fai hfind with h | ⟨flow, active, hf, hc⟩
  · rw [hstate] at h
    cases h
  · refine ⟨flow, active, hf, hc, ?_⟩
    have hc1 : Flow.getActiveConnection
        { flow with destination_port_id_ := r.destination_port_id_ } = some active := hc
    have hc2 := Flow.getActiveConnection_setActiveConnection
      { flow with destination_port_id_ := r.destination_port_id_ } active
      { active with destCepId := received.destCepId } hc1
    simp only [FlowAllocatorInstance.createResponse, hstate, hf, hc1, hreceived,
      FlowAllocatorInstance.createResponseUpdate, hc2, hkernel, FlowAllocatorInstance.returns]
    simp

/-- Witness of C31 (amended): the positive create response of the literal
scenario. -/
theorem FlowAllocatorInstance.createResponse_accepted_witness :
    Registry.find (FlowAllocator.new.run [Sample.allocate,
        Sample.connectionCreated]).fa.flow_allocator_instances_ 430 = some Sample.sent ∧
      Sample.sent.state_ = FAIState.MESSAGE_TO_PEER_FAI_SENT ∧
      Sample.responseFlow.getActiveConnection = some
        { Connection.new with portId := 430, sourceAddress := 10, destAddress := 20, qosId := 1,
                              sourceCepId := 7, destCepId := 9 } ∧
      (∀ connection, Sample.env.throws (Effect.updateConnection connection) = false) ∧
      ∃ flow active, Sample.sent.flow_ = some flow ∧ flow.getActiveConnection = some active ∧
        Sample.sent.createResponse Sample.env 0 "" (some Sample.responseFlow) =
          { fai := { Sample.sent with
                     flow_ := some (Flow.setActiveConnection
                       { flow with destination_port_id_ := 77 } { active with destCepId := 9 })
                     state_ := FAIState.CONNECTION_UPDATE_REQUESTED }
            effects := [Effect.updateConnection { active with destCepId := 9 }]
            removed := false
            completion := Completion.returned } :=
  ⟨rfl, rfl, rfl, fun _ => rfl,
    FlowAllocatorInstance.createResponse_accepted [Sample.allocate, Sample.connectionCreated]
      430 Sample.sent Sample.env "" Sample.responseFlow
      { Connection.new with portId := 430, sourceAddress := 10, destAddress := 20, qosId := 1,
                            sourceCepId := 7, destCepId := 9 }
      rfl rfl rfl (fun _ => rfl)⟩

/-! ## The create request and the kernel's answer at the destination -/

/-- C32: the cep-ids are not swapped.  A flow arrives at the instance of
port-id 77 (IPC process of address 20) with destination address 0 and an active
connection with source address 10, destination address 20, source cep-id 7 and
destination cep-id 3.  Afterwards the destination address of the flow is 20,
the destination port-id and the port-id of the connection are 77, the
addresses of the connection are swapped (20 and 10), the destination cep-id is
7, and the source cep-id is still 7, not 3: only `setDestCepId` is called. -/
theorem FlowAllocatorInstance.createFlowRequestMessageReceived_cep_ids :
    (((FlowAllocatorInstance.new 77).createFlowRequestMessageReceived Sample.envDestination
        { Sample.flow with
          destination_address_ := 0
          connections_ := [{ Connection.new with portId := 430, sourceAddress := 10,
                                                 destAddress := 20, qosId := 1,
                                                 sourceCepId := 7, destCepId := 3 }] }
        Sample.flowName 1 3).fai.flow_.map fun flow =>
      (flow.destination_address_, flow.destination_port_id_,
        flow.getActiveConnection.map fun connection =>
          (connection.portId, connection.sourceAddress, connection.destAddress,
            connection.sourceCepId, connection.destCepId))) =
      some (20, 77, some (77, 20, 10, 7, 7)) :=
  rfl

theorem FlowAllocatorInstance.handle_enters_APP_NOTIFIED (fai : FlowAllocatorInstance)
    (env : Env) (ev : FaiEvent)
    (h1 : fai.state_ ≠ FAIState.APP_NOTIFIED_OF_INCOMING_FLOW) :
    (fai.handle env ev).fai.state_ = FAIState.APP_NOTIFIED_OF_INCOMING_FLOW →
      (fai.handle env ev).removed = false →
      (fai.handle env ev).completion = Completion.returned →
      ∃ flow, fai.flow_ = some flow ∧
        (fai.handle env ev).fai.allocate_response_message_handle_ =
          env.allocateFlowRequestArrived flow.destination_naming_info_ flow.source_naming_info_
            flow.flow_specification_ fai.port_id_ := by
  cases ev <;>
    simp only [FlowAllocatorInstance.handle,
      FlowAllocatorInstance.processCreateConnectionResponseEvent,
      FlowAllocatorInstance.processCreateConnectionResultEvent,
      FlowAllocatorInstance.createResponse, FlowAllocatorInstance.createResponseUpdate,
      FlowAllocatorInstance.createResponseCatch,
      FlowAllocatorInstance.processUpdateConnectionResponseEvent,
      FlowAllocatorInstance.submitAllocateResponse, FlowAllocatorInstance.submitDeallocate,
      FlowAllocatorInstance.deleteFlowRequestMessageReceived,
      FlowAllocatorInstance.destroyFlowAllocatorInstance] <;>
    repeat' split
  all_goals
    simp_all [FlowAllocatorInstance.returns, FlowAllocatorInstance.releaseUnlockRemove,
      FlowAllocatorInstance.throwsOut, FlowAllocatorInstance.undefinedOut,
      FlowAllocatorInstance.replyToIPCManager, FlowAllocatorInstance.releasePortId]

theorem FlowAllocatorInstance.new_not_APP_NOTIFIED (p : Int) (env : Env) :
    (∀ event, ((FlowAllocatorInstance.new p).submitAllocateRequest env event).fai.state_ ≠
        FAIState.APP_NOTIFIED_OF_INCOMING_FLOW) ∧
      ∀ flow object_name invoke_id underlyingPortId,
        ((FlowAllocatorInstance.new p).createFlowRequestMessageReceived env flow object_name
          invoke_id underlyingPortId).fai.state_ ≠ FAIState.APP_NOTIFIED_OF_INCOMING_FLOW := by
  constructor
  · intro event h
    rcases (FlowAllocatorInstance.submitAllocateRequest_sound p env event).1.state with hs | hs
    · rw [hs] at h
      cases h
    · rw [FAIState.listedEdge_from_NO_STATE _ hs] at h
      cases h
  · intro flow object_name invoke_id underlyingPortId h
    rcases (FlowAllocatorInstance.createFlowRequestMessageReceived_sound p env flow object_name
      invoke_id underlyingPortId).state with hs | hs
    · rw [hs] at h
      cases h
    · rw [FAIState.listedEdge_from_NO_STATE _ hs] at h
      cases h

/-- C33.  For an instance registered in a state the flow allocator reaches
from the empty one, in CONNECTION_CREATE_REQUESTED, a create-connection result
with `sourceCepId >= 0`: the instance holds a flow, and the method calls
`allocateFlowRequestArrived` exactly once, with the flow's destination naming,
source naming and flow specification and the instance's port-id, and sets the
state to APP_NOTIFIED_OF_INCOMING_FLOW.  When the call returns a handle, the
handle is stored in `allocate_response_message_handle_` and the instance stays
registered; when the call throws, the port-id is released and the instance
removed.  Moreover an instance enters APP_NOTIFIED_OF_INCOMING_FLOW in no other
way: whenever a method returns having moved a still registered instance into
that state, the instance's handle is the one `allocateFlowRequestArrived`
returned in that call, and a newly created instance is never in that state. -/
theorem FlowAllocatorInstance.processCreateConnectionResultEvent_notifies
    (steps : List (Env × Operation)) (key : Int) (fai : FlowAllocatorInstance) (env : Env)
    (event : CreateConnectionResultEvent)
    (hfind : Registry.find (FlowAllocator.new.run steps).fa.flow_allocator_instances_ key =
      some fai)
    (hstate : fai.state_ = FAIState.CONNECTION_CREATE_REQUESTED)
    (hcep : 0 ≤ event.sourceCepId) :
    (∃ flow, fai.flow_ = some flow ∧
        (fai.processCreateConnectionResultEvent env event).effects.count
          (Effect.allocateFlowRequestArrived flow.destination_naming_info_
            flow.source_naming_info_ flow.flow_specification_ fai.port_id_) = 1 ∧
        ((fai.processCreateConnectionResultEvent env event).effects.filter fun e =>
          match e with
          | Effect.allocateFlowRequestArrived _ _ _ _ => true
          | _ => false).length = 1 ∧
        (fai.processCreateConnectionResultEvent env event).fai.state_ =
          FAIState.APP_NOTIFIED_OF_INCOMING_FLOW ∧
        (env.throws (Effect.allocateFlowRequestArrived flow.destination_naming_info_
            flow.source_naming_info_ flow.flow_specification_ fai.port_id_) = false →
          fai.processCreateConnectionResultEvent env event =
            { fai := { fai with
                       state_ := FAIState.APP_NOTIFIED_OF_INCOMING_FLOW
                       allocate_response_message_handle_ :=
                         env.allocateFlowRequestArrived flow.destination_naming_info_
                           flow.source_naming_info_ flow.flow_specification_ fai.port_id_ }
              effects := [Effect.allocateFlowRequestArrived flow.destination_naming_info_
                            flow.source_naming_info_ flow.flow_specification_ fai.port_id_]
              removed := false
              completion := Completion.returned }) ∧
        (env.throws (Effect.allocateFlowRequestArrived flow.destination_naming_info_
            flow.source_naming_info_ flow.flow_specification_ fai.port_id_) = true →
          fai.processCreateConnectionResultEvent env event =
            { fai := { fai with state_ := FAIState.APP_NOTIFIED_OF_INCOMING_FLOW }
              effects := [Effect.allocateFlowRequestArrived flow.destination_naming_info_
                            flow.source_naming_info_ flow.flow_specification_ fai.port_id_,
                          Effect.deallocatePortId fai.port_id_]
              removed := true
              completion := Completion.returned })) ∧
      (∀ (other : FlowAllocatorInstance) (env : Env) (ev : FaiEvent),
        other.state_ ≠ FAIState.APP_NOTIFIED_OF_INCOMING_FLOW →
        (other.handle env ev).fai.state_ = FAIState.APP_NOTIFIED_OF_INCOMING_FLOW →
        (other.handle env ev).removed = false →
        (other.handle env ev).completion = Completion.returned →
        ∃ flow, other.flow_ = some flow ∧
          (other.handle env ev).fai.allocate_response_message_handle_ =
            env.allocateFlowRequestArrived flow.destination_naming_info_
              flow.source_naming_info_ flow.flow_specification_ other.port_id_) ∧
      (∀ (p : Int) (env : Env),
        (∀ event, ((FlowAllocatorInstance.new p).submitAllocateRequest env event).fai.state_ ≠
            FAIState.APP_NOTIFIED_OF_INCOMING_FLOW) ∧
          ∀ flow object_name invoke_id underlyingPortId,
            ((FlowAllocatorInstance.new p).createFlowRequestMessageReceived env flow object_name
              invoke_id underlyingPortId).fai.state_ ≠
                FAIState.APP_NOTIFIED_OF_INCOMING_FLOW) := by
  refine ⟨?_, FlowAllocatorInstance.handle_enters_APP_NOTIFIED,
    FlowAllocatorInstance.new_not_APP_NOTIFIED⟩
  rcases FlowAllocator.wellFormed_new_run steps key fai hfind with h | ⟨flow, active, hf, _⟩
  · rw [hstate] at h
    cases h
  · refine ⟨flow, hf, ?_⟩
    by_cases ht : env.throws (Effect.allocateFlowRequestArrived flow.destination_naming_info_
        flow.source_naming_info_ flow.flow_specification_ fai.port_id_) = true
    · simp [FlowAllocatorInstance.processCreateConnectionResultEvent, hstate, hf, ht,
        not_lt.2 hcep, FlowAllocatorInstance.releaseUnlockRemove,
        FlowAllocatorInstance.releasePortId, List.count_cons]
    · simp [FlowAllocatorInstance.processCreateConnectionResultEvent, hstate, hf, ht,
        not_lt.2 hcep, FlowAllocatorInstance.returns, List.count_cons]

/-- Witness of C33: the kernel of the destination creates the connection of
the literal scenario; the IPC Manager answers with handle 5. -/
theorem FlowAllocatorInstance.processCreateConnectionResultEvent_notifies_witness :
    Registry.find (FlowAllocator.new.run
        [Sample.createArrived]).fa.flow_allocator_instances_ 77 = some Sample.arrived ∧
      Sample.arrived.state_ = FAIState.CONNECTION_CREATE_REQUESTED ∧
      (0 : Int) ≤ (⟨77, 9, 0⟩ : CreateConnectionResultEvent).sourceCepId ∧
      ∃ flow, Sample.arrived.flow_ = some flow ∧
        (Sample.arrived.processCreateConnectionResultEvent Sample.envDestination
            ⟨77, 9, 0⟩).effects.count
          (Effect.allocateFlowRequestArrived flow.destination_naming_info_
            flow.source_naming_info_ flow.flow_specification_ Sample.arrived.port_id_) = 1 ∧
        (Sample.arrived.processCreateConnectionResultEvent Sample.envDestination
          ⟨77, 9, 0⟩).fai.state_ = FAIState.APP_NOTIFIED_OF_INCOMING_FLOW ∧
        (Sample.arrived.processCreateConnectionResultEvent Sample.envDestination
          ⟨77, 9, 0⟩).fai.allocate_response_message_handle_ = 5 := by
  refine ⟨rfl, rfl, by decide, ?_⟩
  obtain ⟨flow, hf, hcount, _, hs, hok, _⟩ :=
    (FlowAllocatorInstance.processCreateConnectionResultEvent_notifies [Sample.createArrived] 77
      Sample.arrived Sample.envDestination ⟨77, 9, 0⟩ rfl rfl (by decide)).1
  exact ⟨flow, hf, hcount, hs, by rw [hok rfl]; rfl⟩

/-- C34.  For every request event and every cube `selectQoSCube` returns for
it, the policies of the one connection of the flow `generateFlowObject` returns
are the EFCP policies of the cube with `in_order_delivery_` and
`partial_delivery_` replaced by the cube's ordered-delivery and
partial-delivery attributes and with `max_sdu_gap_` replaced by `INT_MAX` when
the requested `maxAllowableGap < 0` and by the cube's `max_allowable_gap_`
otherwise; its DTCP fields are those of the cube.  The cube is only read: the
policies are a copy of the cube's (flow-allocator.cc 441-442), and the function
returns nothing but the flow. -/
theorem SimpleNewFlowRequestPolicy.generateFlowObject_policies (env : Env)
    (event : FlowRequestEvent) (qosCube : QoSCube)
    (hselected : SimpleNewFlowRequestPolicy.selectQoSCube env event.flowSpecification =
      .ok qosCube) :
    ∃ flow connection,
      SimpleNewFlowRequestPolicy.generateFlowObject env event = .ok flow ∧
      flow.connections_ = [connection] ∧
      connection.policies =
        { qosCube.efcp_policies_ with
          in_order_delivery_ := qosCube.ordered_delivery_
          partial_delivery_ := qosCube.partial_delivery_
          max_sdu_gap_ := if event.flowSpecification.maxAllowableGap < 0 then INT_MAX
                          else qosCube.max_allowable_gap_ } ∧
      connection.policies.dtcp_present_ = qosCube.efcp_policies_.dtcp_present_ ∧
      connection.policies.dtcp_configuration_ = qosCube.efcp_policies_.dtcp_configuration_ ∧
      (event.flowSpecification.maxAllowableGap < 0 →
        connection.policies.max_sdu_gap_ = 2147483647) ∧
      (0 ≤ event.flowSpecification.maxAllowableGap →
        connection.policies.max_sdu_gap_ = qosCube.max_allowable_gap_) := by
  have hgen : SimpleNewFlowRequestPolicy.generateFlowObject env event =
      .ok { Flow.new with
            destination_naming_info_ := event.remoteApplicationName
            source_naming_info_ := event.localApplicationName
            hop_count_ := 3
            max_create_flow_retries_ := 1
            source_ := true
            state_ := Flow.ALLOCATION_IN_PROGRESS
            connections_ := [SimpleNewFlowRequestPolicy.newConnection env event qosCube]
            current_connection_index_ := 0
            flow_specification_ := event.flowSpecification } := by
    simp only [SimpleNewFlowRequestPolicy.generateFlowObject, hselected]
  refine ⟨_, SimpleNewFlowRequestPolicy.newConnection env event qosCube, hgen, rfl, rfl, rfl,
    rfl, fun hg => ?_, fun hg => ?_⟩
  · simp [SimpleNewFlowRequestPolicy.newConnection, hg, INT_MAX]
  · simp [SimpleNewFlowRequestPolicy.newConnection, not_lt.2 hg]

/-- Witness of C34: a request with gap 0, for which the cube `reliable` of the
two-cube catalogue is selected. -/
theorem SimpleNewFlowRequestPolicy.generateFlowObject_policies_witness :
    SimpleNewFlowRequestPolicy.selectQoSCube Sample.envTwoCubes
        ({ Sample.request with flowSpecification := Sample.reliableSpec } :
          FlowRequestEvent).flowSpecification = .ok Sample.reliableCube ∧
      ∃ flow connection,
        SimpleNewFlowRequestPolicy.generateFlowObject Sample.envTwoCubes
          { Sample.request with flowSpecification := Sample.reliableSpec } = .ok flow ∧
        flow.connections_ = [connection] ∧
        connection.policies =
          { dtcp_present_ := true, dtcp_configuration_ := ⟨true, true⟩,
            in_order_delivery_ := true, partial_delivery_ := false, max_sdu_gap_ := 0 } := by
  refine ⟨rfl, ?_⟩
  obtain ⟨flow, connection, hgen, hc, hp, _⟩ :=
    SimpleNewFlowRequestPolicy.generateFlowObject_policies Sample.envTwoCubes
      { Sample.request with flowSpecification := Sample.reliableSpec } Sample.reliableCube rfl
  exact ⟨flow, connection, hgen, hc, hp.trans rfl⟩

/-! ## Reads and results that are not guarded -/

/-- C35: `cdapSessions[0]` is read without a test of the size of the vector.
The instance of the literal scenario, in CONNECTION_CREATE_REQUESTED, receives
a create-connection response with cep-id 7 while no CDAP session is open: the
method does not return, it reads element 0 of an empty vector, which is
undefined behaviour; up to there no call was made, the state is still
CONNECTION_CREATE_REQUESTED and the instance is still registered. -/
theorem FlowAllocatorInstance.processCreateConnectionResponseEvent_no_session :
    Sample.requested.state_ = FAIState.CONNECTION_CREATE_REQUESTED ∧
      Sample.envNoSession.getAllCDAPSessionIds = [] ∧
      (Sample.requested.processCreateConnectionResponseEvent Sample.envNoSession
          ⟨430, 7⟩).completion =
        Completion.undefinedBehaviour "cdapSessions[0] on an empty vector" ∧
      (Sample.requested.processCreateConnectionResponseEvent Sample.envNoSession
        ⟨430, 7⟩).effects = [] ∧
      (Sample.requested.processCreateConnectionResponseEvent Sample.envNoSession
        ⟨430, 7⟩).fai.state_ = FAIState.CONNECTION_CREATE_REQUESTED ∧
      (Sample.requested.processCreateConnectionResponseEvent Sample.envNoSession
        ⟨430, 7⟩).removed = false := by
  decide

/-- C36: the cep-id of the destination never reaches the source.  In the run
of the two peers of the literal scenario in which the kernel of the source
assigns cep-id 7 and the kernel of the destination assigns cep-id 9, the
active connection of the source after its `createResponse` has source cep-id 7
and destination cep-id 7, not 9: the destination never stores the cep-id of
its create-connection result, and the flow it sends back carries the source's
cep-id as destination cep-id. -/
theorem FlowAllocatorInstance.twoPeers_cep_ids :
    ((Sample.twoPeers 7 9).map fun connection =>
      (connection.sourceCepId, connection.destCepId)) = some (7, 7) ∧
      ((Sample.notified.submitAllocateResponse Sample.envDestination ⟨5, 0⟩).effects.head?.bind
        fun e => (Effect.objectValue e).bind fun flow =>
          flow.getActiveConnection.map fun connection =>
            (connection.sourceCepId, connection.destCepId)) = some (7, 7) :=
  ⟨rfl, rfl⟩

/-- C37: the scan of `FlowAllocator::submitAllocateResponse` does not look at
the state.  At the IPC process of address 20, after the run `Sample.busy`, two
instances are registered: under port-id 5 one in CONNECTION_CREATE_REQUESTED
that still holds the initial handle 0, and under port-id 77 the only one in
APP_NOTIFIED_OF_INCOMING_FLOW, with handle 0.  The response of the application
with sequence number 0 is handed to the instance under port-id 5, which
ignores it: no call is made and the instance under port-id 77, which would
have answered the peer, stays in APP_NOTIFIED_OF_INCOMING_FLOW. -/
theorem FlowAllocator.submitAllocateResponse_handle_collision :
    ((FlowAllocator.new.run Sample.busy).fa.flow_allocator_instances_.map fun e =>
        (e.1, e.2.state_, e.2.get_allocate_response_message_handle)) =
        [(5, FAIState.CONNECTION_CREATE_REQUESTED, 0),
         (77, FAIState.APP_NOTIFIED_OF_INCOMING_FLOW, 0)] ∧
      ((FlowAllocator.findByHandle 0
          (FlowAllocator.new.run Sample.busy).fa.flow_allocator_instances_).map fun e => e.1) =
        some 5 ∧
      (FlowAllocator.new.run Sample.busy).fa.submitAllocateResponse Sample.envBusy ⟨0, 0⟩ =
        { fa := (FlowAllocator.new.run Sample.busy).fa, effects := [],
          completion := Completion.returned } ∧
      ((Registry.find (FlowAllocator.new.run Sample.busy).fa.flow_allocator_instances_ 77).map
        fun fai => (fai.submitAllocateResponse Sample.envBusy ⟨0, 0⟩).effects.length) =
        some 2 := by
  decide

/-- C38: the catch block of `createResponse` passes on the result received,
which is 0.  The instance of the literal scenario, in MESSAGE_TO_PEER_FAI_SENT,
receives a create response with result 0 while the kernel's `updateConnection`
throws: the IPC Manager is sent the request event with port-id -1 and result
0; `deallocatePortId(430)` is called once and the instance is removed. -/
theorem FlowAllocatorInstance.createResponse_update_refused_result :
    Sample.sent.state_ = FAIState.MESSAGE_TO_PEER_FAI_SENT ∧
      ((Sample.sent.createResponse Sample.envUpdateRefused 0 ""
          (some Sample.responseFlow)).effects.filterMap fun e =>
        match e with
        | Effect.allocateFlowRequestResult event result => some (event.portId, result)
        | _ => none) = [(-1, 0)] ∧
      (Sample.sent.createResponse Sample.envUpdateRefused 0 ""
        (some Sample.responseFlow)).effects.count (Effect.deallocatePortId 430) = 1 ∧
      (Sample.sent.createResponse Sample.envUpdateRefused 0 ""
        (some Sample.responseFlow)).removed = true := by
  decide

/-- C39: `FlowAllocator::submitDeallocate` passes -1 in both branches.  In the
literal scenario the instance under port-id 430 is in FLOW_ALLOCATED and
accepts the deallocation (it sends the M_DELETE and schedules the tear-down);
the IPC Manager is then notified once, with result -1, not 0. -/
theorem FlowAllocator.submitDeallocate_notifies_minus_one :
    ((Registry.find (FlowAllocator.new.run [Sample.allocate, Sample.connectionCreated,
        Sample.peerAccepted, Sample.connectionUpdated]).fa.flow_allocator_instances_ 430).map
        fun fai => fai.state_) = some FAIState.FLOW_ALLOCATED ∧
      ((FlowAllocator.new.run [Sample.allocate, Sample.connectionCreated, Sample.peerAccepted,
          Sample.connectionUpdated]).fa.submitDeallocate Sample.env ⟨430, 12⟩).effects =
        [Effect.remoteDeleteObject "flow" Sample.flowName ⟨3, true, 20⟩,
         Effect.scheduleTask Sample.flowName true 5000,
         Effect.notifyflowDeallocated ⟨430, 12⟩ (-1)] ∧
      ((Registry.find ((FlowAllocator.new.run [Sample.allocate, Sample.connectionCreated,
          Sample.peerAccepted, Sample.connectionUpdated]).fa.submitDeallocate Sample.env
            ⟨430, 12⟩).fa.flow_allocator_instances_ 430).map fun fai => fai.state_) =
        some FAIState.WAITING_2_MPL_BEFORE_TEARING_DOWN := by
  decide

/-! ## The state FINISHED -/

theorem FlowAllocatorInstance.handle_not_FINISHED (fai : FlowAllocatorInstance) (env : Env)
    (ev : FaiEvent) (h : fai.state_ ≠ FAIState.FINISHED) :
    (fai.handle env ev).fai.state_ ≠ FAIState.FINISHED := by
  cases ev <;>
    simp only [FlowAllocatorInstance.handle,
      FlowAllocatorInstance.processCreateConnectionResponseEvent,
      FlowAllocatorInstance.processCreateConnectionResultEvent,
      FlowAllocatorInstance.createResponse, FlowAllocatorInstance.createResponseUpdate,
      FlowAllocatorInstance.createResponseCatch,
      FlowAllocatorInstance.processUpdateConnectionResponseEvent,
      FlowAllocatorInstance.submitAllocateResponse, FlowAllocatorInstance.submitDeallocate,
      FlowAllocatorInstance.deleteFlowRequestMessageReceived,
      FlowAllocatorInstance.destroyFlowAllocatorInstance] <;>
    repeat' split
  all_goals
    simp_all [FlowAllocatorInstance.returns, FlowAllocatorInstance.releaseUnlockRemove,
      FlowAllocatorInstance.throwsOut, FlowAllocatorInstance.undefinedOut,
      FlowAllocatorInstance.replyToIPCManager, FlowAllocatorInstance.releasePortId]

theorem FlowAllocatorInstance.new_not_FINISHED (p : Int) (env : Env) :
    (∀ event, ((FlowAllocatorInstance.new p).submitAllocateRequest env event).fai.state_ ≠
        FAIState.FINISHED) ∧
      ∀ flow object_name invoke_id underlyingPortId,
        ((FlowAllocatorInstance.new p).createFlowRequestMessageReceived env flow object_name
          invoke_id underlyingPortId).fai.state_ ≠ FAIState.FINISHED := by
  constructor
  · intro event h
    rcases (FlowAllocatorInstance.submitAllocateRequest_sound p env event).1.state with hs | hs
    · rw [hs] at h
      cases h
    · rw [FAIState.listedEdge_from_NO_STATE _ hs] at h
      cases h
  · intro flow object_name invoke_id underlyingPortId h
    rcases (FlowAllocatorInstance.createFlowRequestMessageReceived_sound p env flow object_name
      invoke_id underlyingPortId).state with hs | hs
    · rw [hs] at h
      cases h
    · rw [FAIState.listedEdge_from_NO_STATE _ hs] at h
      cases h

/-- C40.  For every instance registered in a state the flow allocator reaches
from the empty one through its entry points: `isFinished()` is false; whatever
method is called on it next, the state it is left in is not FINISHED; and if
it is in WAITING_2_MPL_BEFORE_TEARING_DOWN, after
`destroyFlowAllocatorInstance` no instance is registered under its port-id. -/
theorem FlowAllocator.never_FINISHED (steps : List (Env × Operation)) (key : Int)
    (fai : FlowAllocatorInstance)
    (hfind : Registry.find (FlowAllocator.new.run steps).fa.flow_allocator_instances_ key =
      some fai) :
    fai.isFinished = false ∧
      (∀ (env : Env) (ev : FaiEvent), (fai.handle env ev).fai.state_ ≠ FAIState.FINISHED) ∧
      (∀ (env : Env) (flowObjectName : String) (requestor : Bool),
        fai.state_ = FAIState.WAITING_2_MPL_BEFORE_TEARING_DOWN →
        Registry.find ((FlowAllocator.new.run steps).fa.settle key
          (fai.destroyFlowAllocatorInstance env flowObjectName
            requestor)).flow_allocator_instances_ key = none) := by
  have hne : fai.state_ ≠ FAIState.FINISHED :=
    FlowAllocator.invariant_new_run (fun _ fai => fai.state_ ≠ FAIState.FINISHED)
      (fun _ h => by cases h)
      (fun _ fai env ev hw => FlowAllocatorInstance.handle_not_FINISHED fai env ev hw)
      (fun p env event => (FlowAllocatorInstance.new_not_FINISHED p env).1 event)
      (fun p env flow object_name invoke_id underlyingPortId =>
        (FlowAllocatorInstance.new_not_FINISHED p env).2 flow object_name invoke_id
          underlyingPortId)
      steps key fai hfind
  have hport : fai.port_id_ = key := FlowAllocator.port_id_new_run steps key fai hfind
  refine ⟨by simp [FlowAllocatorInstance.isFinished, hne],
    fun env ev => FlowAllocatorInstance.handle_not_FINISHED fai env ev hne,
    fun env flowObjectName requestor hstate => ?_⟩
  have hout : fai.destroyFlowAllocatorInstance env flowObjectName requestor =
      { fai := fai
        effects := [Effect.deleteObject env.constants.FLOW_RIB_OBJECT_CLASS fai.object_name_,
                    Effect.deallocatePortId fai.port_id_]
        removed := true
        completion := Completion.returned } := by
    simp [FlowAllocatorInstance.destroyFlowAllocatorInstance, hstate,
      FlowAllocatorInstance.releaseUnlockRemove, FlowAllocatorInstance.releasePortId]
  rw [hout]
  have h := FlowAllocator.find_settle_removed (FlowAllocator.new.run steps).fa key
    { fai := fai
      effects := [Effect.deleteObject env.constants.FLOW_RIB_OBJECT_CLASS fai.object_name_,
                  Effect.deallocatePortId fai.port_id_]
      removed := true
      completion := Completion.returned } rfl
  simpa only [hport] using h

/-- Witness of C40: the instance of the literal scenario while it waits for the
tear-down timer, and the registry once the timer has fired. -/
theorem FlowAllocator.never_FINISHED_witness :
    Registry.find (FlowAllocator.new.run [Sample.allocate, Sample.connectionCreated,
        Sample.peerAccepted, Sample.connectionUpdated,
        Sample.deallocate]).fa.flow_allocator_instances_ 430 = some Sample.tearingDown ∧
      Sample.tearingDown.isFinished = false ∧
      Registry.find ((FlowAllocator.new.run [Sample.allocate, Sample.connectionCreated,
          Sample.peerAccepted, Sample.connectionUpdated, Sample.deallocate]).fa.settle 430
        (Sample.tearingDown.destroyFlowAllocatorInstance Sample.env Sample.flowName
          true)).flow_allocator_instances_ 430 = none :=
  ⟨rfl,
    (FlowAllocator.never_FINISHED [Sample.allocate, Sample.connectionCreated,
      Sample.peerAccepted, Sample.connectionUpdated, Sample.deallocate] 430 Sample.tearingDown
      rfl).1,
    (FlowAllocator.never_FINISHED [Sample.allocate, Sample.connectionCreated,
      Sample.peerAccepted, Sample.connectionUpdated, Sample.deallocate] 430 Sample.tearingDown
      rfl).2.2 Sample.env Sample.flowName true rfl⟩

end rinad
